import Mathlib

/-!
A shallow embedding of the `rusty_calc` calculator (src/token.rs and
src/lib.rs) together with proofs about its tokenizer, parser, variable
table and per-line evaluation driver.

Modelling conventions:
* Rust `f64` values are modelled by exact rationals (`ℚ`).  Every claim
  checked here compares two runs of the *same* sequence of arithmetic
  operations, so the modelling is faithful for them: the rounding that
  `f64` performs is applied identically on both sides of each equation.
* Rust's `Vec<Token>` push/pop stack is modelled by a `List Token` whose
  head is the top of the stack.
* `anyhow::Result` is modelled by `Except CalcError`; the error messages
  of the source are modelled structurally by the `CalcError` inductive.
* Recursive functions that the source writes as loops or recursion over a
  mutable stream take an explicit fuel argument (structural recursion on
  `ℕ`); `none` means the fuel bound was reached.  `evaluate` passes a
  fuel bound that is proved (and checked on concrete inputs) to suffice.
* Character classification uses Lean's ASCII `Char.isDigit`,
  `Char.isAlpha`, `Char.isAlphanum`, `Char.isWhitespace` in place of
  Rust's Unicode-aware versions; they agree on ASCII input.
-/

deriving instance DecidableEq for Except

namespace RustyCalc

/-- Lexical tokens (src/token.rs, `enum Token`). -/
inductive Token where
  | Number (value : ℚ)
  | Symbol (c : Char)
  | Let
  | Name (ident : List Char)
  | EndStatement
  | Quit
  | Noop
deriving DecidableEq

/-- Structured model of the error values the source produces via
`TokenizationError` and `anyhow::bail!` message strings. -/
inductive CalcError where
  | invalidSymbol (c : Char)
  | invalidNumber (raw : List Char)
  | expectedClosingParen
  | undefinedVariable (name : List Char)
  | expectedPrimary
  | expectedNameAfterLet
  | alreadyDefined (name : List Char)
  | notDefinedUseLet (name : List Char)
  | expectedAssign (name : List Char)
deriving DecidableEq

/-- The reserved symbol characters (src/token.rs, `static SYMBOLS`). -/
def SYMBOLS : List Char := ['+', '-', '*', '/', '!', '(', ')', '=', ';', 'q']

/-- src/token.rs `is_beginning_of_literal`. -/
def is_beginning_of_literal (c : Char) : Bool :=
  c.isDigit || c = '.'

/-- src/token.rs `is_part_of_literal`; `ctx` is the literal text read so
far (the Rust code checks `ctx.ends_with('e')`). -/
def is_part_of_literal (c : Char) (ctx : List Char) : Bool :=
  if ctx.getLast? = some 'e' ∨ ctx.getLast? = some 'E' then
    c.isDigit || c = '-' || c = '+'
  else
    c.isDigit || c = '.' || c = 'e' || c = 'E'

/-- src/token.rs `is_valid_symbol`. -/
def is_valid_symbol (c : Char) : Bool :=
  SYMBOLS.contains c

/-- Numeric value of a list of decimal digit characters. -/
def digitsToNat (l : List Char) : ℕ :=
  l.foldl (fun a c => 10 * a + (c.toNat - 48)) 0

/-- Modelled from Rust's `str::parse::<f64>` number grammar, restricted
to the character set `read_number` can produce: digits with at most one
decimal point.  The value is the exact rational; rounding to the nearest
double is not modelled (see the module comment). -/
def parseUnsignedMantissa (l : List Char) : Option ℚ :=
  let ip := l.takeWhile Char.isDigit
  let rest := l.drop ip.length
  match rest with
  | [] => if ip = [] then none else some (digitsToNat ip)
  | '.' :: fp =>
      if fp.all Char.isDigit ∧ (ip ≠ [] ∨ fp ≠ []) then
        some ((digitsToNat ip : ℚ) + (digitsToNat fp : ℚ) / (10 : ℚ) ^ fp.length)
      else none
  | _ => none

/-- Exponent part of a scientific-notation literal: optional sign and a
nonempty run of digits. -/
def parseExponent (l : List Char) : Option ℤ :=
  match l with
  | '+' :: d => if d ≠ [] ∧ d.all Char.isDigit then some (digitsToNat d) else none
  | '-' :: d => if d ≠ [] ∧ d.all Char.isDigit then some (-(digitsToNat d : ℤ)) else none
  | d => if d ≠ [] ∧ d.all Char.isDigit then some (digitsToNat d) else none

/-- Modelled from Rust's `str::parse::<f64>`: optional sign, mantissa,
optional `e`/`E` exponent.  (`inf`/`NaN` spellings cannot arise from
`read_number` and are not modelled.) -/
def parseFloat (l : List Char) : Option ℚ :=
  let core : List Char → Option ℚ := fun s =>
    let m := s.takeWhile (fun c => c ≠ 'e' ∧ c ≠ 'E')
    match s.drop m.length with
    | [] => parseUnsignedMantissa m
    | _ :: ex =>
        match parseUnsignedMantissa m, parseExponent ex with
        | some mv, some e => some (mv * (10 : ℚ) ^ e)
        | _, _ => none
  match l with
  | '+' :: r => core r
  | '-' :: r => (core r).map (fun q => -q)
  | _ => core l

/-- Token stream state (src/token.rs, `struct TokenStream`).  The head
of `put_back` is the top of the Rust `Vec`'s push/pop end. -/
structure TokenStream where
  buffer : List Char
  pos : ℕ
  put_back : List Token
deriving DecidableEq

/-- src/token.rs `TokenStream::new`. -/
def TokenStream.new (input : List Char) : TokenStream :=
  { buffer := input, pos := 0, put_back := [] }

/-- Position after the whitespace-skipping loop at the top of `next`. -/
def skipWs (b : List Char) (pos : ℕ) : ℕ :=
  pos + ((b.drop pos).takeWhile Char.isWhitespace).length

/-- The characters the `read_number` loop consumes, starting from the
given remaining input, with `ctx` the text accumulated so far. -/
def readLiteralChars : List Char → List Char → List Char
  | [], ctx => ctx
  | c :: rest, ctx =>
      if is_part_of_literal c ctx then readLiteralChars rest (ctx ++ [c]) else ctx

/-- src/token.rs `TokenStream::read_number`: consume literal characters,
then parse them; on failure the position stays advanced past them. -/
def TokenStream.read_number (ts : TokenStream) : Except CalcError ℚ × TokenStream :=
  let lit := readLiteralChars (ts.buffer.drop ts.pos) []
  let ts' := { ts with pos := ts.pos + lit.length }
  match parseFloat lit with
  | some q => (.ok q, ts')
  | none => (.error (.invalidNumber lit), ts')

/-- src/token.rs `TokenStream::read_string`: a maximal alphanumeric run. -/
def TokenStream.read_string (ts : TokenStream) : List Char × TokenStream :=
  let s := (ts.buffer.drop ts.pos).takeWhile Char.isAlphanum
  (s, { ts with pos := ts.pos + s.length })

/-- src/token.rs `TokenStream::next`. -/
def TokenStream.next (ts : TokenStream) : Except CalcError (Option Token) × TokenStream :=
  match ts.put_back with
  | t :: rest => (.ok (some t), { ts with put_back := rest })
  | [] =>
    let pos := skipWs ts.buffer ts.pos
    if h : pos < ts.buffer.length then
      let c := ts.buffer.get ⟨pos, h⟩
      let ts1 : TokenStream := { ts with pos := pos + 1 }
      if is_beginning_of_literal c then
        match TokenStream.read_number { ts1 with pos := pos } with
        | (.ok n, ts2) => (.ok (some (Token.Number n)), ts2)
        | (.error e, ts2) => (.error e, ts2)
      else if is_valid_symbol c then
        if c = ';' then
          if ts1.pos < ts.buffer.length - 1 then (.ok (some Token.EndStatement), ts1)
          else (.ok none, ts1)
        else if c = 'q' then (.ok (some Token.Quit), ts1)
        else (.ok (some (Token.Symbol c)), ts1)
      else if c.isAlpha then
        let sr := TokenStream.read_string { ts1 with pos := pos }
        if sr.1 = ['l', 'e', 't'] then (.ok (some Token.Let), sr.2)
        else (.ok (some (Token.Name sr.1)), sr.2)
      else
        (.error (.invalidSymbol c), ts1)
    else
      (.ok none, { ts with pos := pos })

/-- src/token.rs `TokenStream::peek`: call `next` and push the token (if
any) back before returning it. -/
def TokenStream.peek (ts : TokenStream) : Except CalcError (Option Token) × TokenStream :=
  match ts.next with
  | (.ok (some t), ts') => (.ok (some t), { ts' with put_back := t :: ts'.put_back })
  | r => r

/-- src/token.rs `TokenStream::put_back` (named `pushBack` here because
the field of the same name is the stack itself). -/
def TokenStream.pushBack (ts : TokenStream) (t : Token) : TokenStream :=
  { ts with put_back := t :: ts.put_back }

/-- src/token.rs `TokenStream::discard_invalid`: advance the cursor to
the next `;` or the end of the buffer. -/
def TokenStream.discard_invalid (ts : TokenStream) : TokenStream :=
  { ts with pos := ts.pos + ((ts.buffer.drop ts.pos).takeWhile (fun c => c ≠ ';')).length }

/-- src/lib.rs `struct Variable`. -/
structure Variable where
  label : List Char
  value : ℚ
deriving DecidableEq

/-- src/lib.rs `struct VarTable`. -/
structure VarTable where
  vars : List Variable
deriving DecidableEq

/-- Inner loop of `VarTable::store`: overwrite the first entry with this
label in place, else append at the end. -/
def storeAux (label : List Char) (value : ℚ) : List Variable → List Variable
  | [] => [{ label := label, value := value }]
  | v :: rest =>
      if v.label = label then { label := v.label, value := value } :: rest
      else v :: storeAux label value rest

/-- src/lib.rs `VarTable::store`. -/
def VarTable.store (t : VarTable) (label : List Char) (value : ℚ) : VarTable :=
  ⟨storeAux label value t.vars⟩

/-- src/lib.rs `VarTable::contains`. -/
def VarTable.contains (t : VarTable) (label : List Char) : Bool :=
  t.vars.any (fun v => v.label = label)

/-- src/lib.rs `VarTable::retrieve`: value of the first entry with this
label. -/
def VarTable.retrieve (t : VarTable) (label : List Char) : Option ℚ :=
  match t.vars.find? (fun v => v.label = label) with
  | some v => some v.value
  | none => none

/-- Per-statement outcome (src/lib.rs `enum EvaluationResult`).  The two
`format!` strings of `evaluate` are modelled structurally by `EvalError`. -/
inductive EvalError where
  | readingInput (e : CalcError)
  | evaluatingToken (t : Token) (e : CalcError)
deriving DecidableEq

inductive EvaluationResult where
  | Number (value : ℚ)
  | Error (e : EvalError)
  | Quit
deriving DecidableEq

mutual

/-- src/lib.rs `expression`: first summand, then the `+`/`-` loop
(`expressionAuxF`). -/
def expressionF : ℕ → TokenStream → VarTable → Option (Except CalcError ℚ × TokenStream × VarTable)
  | 0, _, _ => none
  | fuel + 1, ts, vt =>
    match termF fuel ts vt with
    | none => none
    | some (.error e, ts1, v1) => some (.error e, ts1, v1)
    | some (.ok value, ts1, v1) => expressionAuxF fuel value ts1 v1

/-- The `loop` inside src/lib.rs `expression`. -/
def expressionAuxF : ℕ → ℚ → TokenStream → VarTable → Option (Except CalcError ℚ × TokenStream × VarTable)
  | 0, _, _, _ => none
  | fuel + 1, value, ts, vt =>
    match ts.peek with
    | (.error e, ts1) => some (.error e, ts1, vt)
    | (.ok (some (Token.Symbol '+')), ts1) =>
        match ts1.next with
        | (.error e, ts2) => some (.error e, ts2, vt)
        | (.ok _, ts2) =>
          match termF fuel ts2 vt with
          | none => none
          | some (.error e, ts3, v3) => some (.error e, ts3, v3)
          | some (.ok rhs, ts3, v3) => expressionAuxF fuel (value + rhs) ts3 v3
    | (.ok (some (Token.Symbol '-')), ts1) =>
        match ts1.next with
        | (.error e, ts2) => some (.error e, ts2, vt)
        | (.ok _, ts2) =>
          match termF fuel ts2 vt with
          | none => none
          | some (.error e, ts3, v3) => some (.error e, ts3, v3)
          | some (.ok rhs, ts3, v3) => expressionAuxF fuel (value - rhs) ts3 v3
    | (.ok _, ts1) => some (.ok value, ts1, vt)

/-- src/lib.rs `term`: first factor, then the `*`/`/` loop (`termAuxF`). -/
def termF : ℕ → TokenStream → VarTable → Option (Except CalcError ℚ × TokenStream × VarTable)
  | 0, _, _ => none
  | fuel + 1, ts, vt =>
    match primaryF fuel ts vt with
    | none => none
    | some (.error e, ts1, v1) => some (.error e, ts1, v1)
    | some (.ok value, ts1, v1) => termAuxF fuel value ts1 v1

/-- The `loop` inside src/lib.rs `term`. -/
def termAuxF : ℕ → ℚ → TokenStream → VarTable → Option (Except CalcError ℚ × TokenStream × VarTable)
  | 0, _, _, _ => none
  | fuel + 1, value, ts, vt =>
    match ts.peek with
    | (.error e, ts1) => some (.error e, ts1, vt)
    | (.ok (some (Token.Symbol '*')), ts1) =>
        match ts1.next with
        | (.error e, ts2) => some (.error e, ts2, vt)
        | (.ok _, ts2) =>
          match primaryF fuel ts2 vt with
          | none => none
          | some (.error e, ts3, v3) => some (.error e, ts3, v3)
          | some (.ok rhs, ts3, v3) => termAuxF fuel (value * rhs) ts3 v3
    | (.ok (some (Token.Symbol '/')), ts1) =>
        match ts1.next with
        | (.error e, ts2) => some (.error e, ts2, vt)
        | (.ok _, ts2) =>
          match primaryF fuel ts2 vt with
          | none => none
          | some (.error e, ts3, v3) => some (.error e, ts3, v3)
          | some (.ok rhs, ts3, v3) => termAuxF fuel (value / rhs) ts3 v3
    | (.ok _, ts1) => some (.ok value, ts1, vt)

/-- src/lib.rs `primary`. -/
def primaryF : ℕ → TokenStream → VarTable → Option (Except CalcError ℚ × TokenStream × VarTable)
  | 0, _, _ => none
  | fuel + 1, ts, vt =>
    match ts.next with
    | (.error e, ts1) => some (.error e, ts1, vt)
    | (.ok (some (Token.Number n)), ts1) => some (.ok n, ts1, vt)
    | (.ok (some (Token.Symbol '(')), ts1) =>
        match expressionF fuel ts1 vt with
        | none => none
        | some (.error e, ts2, v2) => some (.error e, ts2, v2)
        | some (.ok value, ts2, v2) =>
            match ts2.next with
            | (.error e, ts3) => some (.error e, ts3, v2)
            | (.ok (some (Token.Symbol ')')), ts3) => some (.ok value, ts3, v2)
            | (.ok _, ts3) => some (.error .expectedClosingParen, ts3, v2)
    | (.ok (some (Token.Symbol '-')), ts1) =>
        match primaryF fuel ts1 vt with
        | none => none
        | some (.error e, ts2, v2) => some (.error e, ts2, v2)
        | some (.ok value, ts2, v2) => some (.ok (-value), ts2, v2)
    | (.ok (some (Token.Symbol '+')), ts1) =>
        match primaryF fuel ts1 vt with
        | none => none
        | some (.error e, ts2, v2) => some (.error e, ts2, v2)
        | some (.ok value, ts2, v2) => some (.ok value, ts2, v2)
    | (.ok (some (Token.Name name)), ts1) =>
        match vt.retrieve name with
        | some value => some (.ok value, ts1, vt)
        | none => some (.error (.undefinedVariable name), ts1, vt)
    | (.ok _, ts1) => some (.error .expectedPrimary, ts1, vt)

/-- src/lib.rs `statement`. -/
def statementF : ℕ → TokenStream → VarTable → Option (Except CalcError ℚ × TokenStream × VarTable)
  | 0, _, _ => none
  | fuel + 1, ts, vt =>
    match ts.peek with
    | (.error e, ts0) => some (.error e, ts0, vt)
    | (.ok (some Token.Let), ts0) =>
        -- `ts.next().expect(..)` pops the peeked `let` token
        let ts1 := (ts0.next).2
        match ts1.next with
        | (.error e, ts2) => some (.error e, ts2, vt)
        | (.ok (some (Token.Name label)), ts2) =>
            if vt.contains label then
              some (.error (.alreadyDefined label), ts2, vt)
            else
              match ts2.next with
              | (.error e, ts3) => some (.error e, ts3, vt)
              | (.ok t3, ts3) =>
                  -- `is_some_and(|token| token != Token::Symbol('='))`
                  if t3 = none ∨ t3 = some (Token.Symbol '=') then
                    match expressionF fuel ts3 vt with
                    | none => none
                    | some (.error e, ts4, v4) => some (.error e, ts4, v4)
                    | some (.ok value, ts4, v4) => some (.ok value, ts4, v4.store label value)
                  else
                    some (.error (.expectedAssign label), ts3, vt)
        | (.ok _, ts2) => some (.error .expectedNameAfterLet, ts2, vt)
    | (.ok (some (Token.Name label)), ts0) =>
        let ts1 := (ts0.next).2
        match ts1.peek with
        | (.error e, ts2) => some (.error e, ts2, vt)
        | (.ok (some (Token.Symbol '=')), ts2) =>
            let ts3 := (ts2.next).2
            if vt.contains label then
              match expressionF fuel ts3 vt with
              | none => none
              | some (.error e, ts4, v4) => some (.error e, ts4, v4)
              | some (.ok value, ts4, v4) => some (.ok value, ts4, v4.store label value)
            else
              some (.error (.notDefinedUseLet label), ts3, vt)
        | (.ok _, ts2) =>
            match vt.retrieve label with
            | some val => expressionF fuel (ts2.pushBack (Token.Number val)) vt
            | none => some (.error (.undefinedVariable label), ts2, vt)
    | (.ok _, ts0) => expressionF fuel ts0 vt

end

/-- The driver loop of src/lib.rs `evaluate`; `val` is the `val`
variable of the source (initialised to `None`, flushed at
`EndStatement` and at end of input, and never set anywhere — the
statement arm pushes its result directly) and `res` the outcomes
pushed so far. -/
def evalLoopF : ℕ → TokenStream → Option ℚ → VarTable → List EvaluationResult →
    Option (List EvaluationResult × VarTable)
  | 0, _, _, _, _ => none
  | fuel + 1, ts, val, vt, res =>
    match ts.peek with
    | (.error e, ts1) =>
        -- `unwrap_or_else`: record the error, resynchronize, yield `Noop`
        -- (whose match arm does nothing), and loop.
        evalLoopF fuel ts1.discard_invalid val vt (res ++ [.Error (.readingInput e)])
    | (.ok (some Token.Noop), ts1) => evalLoopF fuel ts1 val vt res
    | (.ok (some Token.EndStatement), ts1) =>
        let ts2 := (ts1.next).2
        match val with
        | some v => evalLoopF fuel ts2 none vt (res ++ [.Number v])
        | none => evalLoopF fuel ts2 none vt res
    | (.ok (some Token.Quit), ts1) =>
        let ts2 := (ts1.next).2
        evalLoopF fuel ts2 val vt (res ++ [.Quit])
    | (.ok (some t), ts1) =>
        match statementF fuel ts1 vt with
        | none => none
        | some (.ok value, ts2, v2) => evalLoopF fuel ts2 val v2 (res ++ [.Number value])
        | some (.error e, ts2, v2) =>
            evalLoopF fuel ts2.discard_invalid val v2 (res ++ [.Error (.evaluatingToken t e)])
    | (.ok none, _) =>
        match val with
        | some v => some (res ++ [.Number v], vt)
        | none => some (res, vt)

/-- src/lib.rs `evaluate`: run the driver loop on a fresh stream.  The
fuel bound `6 * length + 6` is proved sufficient below (`none` would
signal that it was not). -/
def evaluate (input : List Char) (vt : VarTable) :
    Option (List EvaluationResult × VarTable) :=
  evalLoopF (6 * input.length + 6) (TokenStream.new input) none vt []

/-! ### Reference syntax and semantics of literal-only expressions

Used to state claim C1: `denote` is the direct evaluation of the
arithmetic (with `*`/`/` applied before `+`/`-` and unary operators on
their operand only, by construction of the tree), and `tokensE` renders
a tree as the token sequence of a source line, parenthesizing exactly
where the grammar requires it. -/

inductive Expr where
  | num (q : ℚ)
  | add (a b : Expr)
  | sub (a b : Expr)
  | mul (a b : Expr)
  | div (a b : Expr)
  | neg (a : Expr)
  | pos (a : Expr)
deriving DecidableEq

/-- Direct evaluation of an expression tree. -/
def Expr.denote : Expr → ℚ
  | .num q => q
  | .add a b => a.denote + b.denote
  | .sub a b => a.denote - b.denote
  | .mul a b => a.denote * b.denote
  | .div a b => a.denote / b.denote
  | .neg a => -a.denote
  | .pos a => a.denote

mutual

/-- Render a tree as a `primary`: parenthesize any binary node. -/
def tokensP : Expr → List Token
  | .num q => [Token.Number q]
  | .neg a => Token.Symbol '-' :: tokensP a
  | .pos a => Token.Symbol '+' :: tokensP a
  | .add a b => Token.Symbol '(' :: ((tokensE a ++ [Token.Symbol '+'] ++ tokensT b) ++ [Token.Symbol ')'])
  | .sub a b => Token.Symbol '(' :: ((tokensE a ++ [Token.Symbol '-'] ++ tokensT b) ++ [Token.Symbol ')'])
  | .mul a b => Token.Symbol '(' :: ((tokensT a ++ [Token.Symbol '*'] ++ tokensP b) ++ [Token.Symbol ')'])
  | .div a b => Token.Symbol '(' :: ((tokensT a ++ [Token.Symbol '/'] ++ tokensP b) ++ [Token.Symbol ')'])

/-- Render a tree as a `term`: `*`/`/` chains stay bare, sums get parens. -/
def tokensT : Expr → List Token
  | .mul a b => tokensT a ++ [Token.Symbol '*'] ++ tokensP b
  | .div a b => tokensT a ++ [Token.Symbol '/'] ++ tokensP b
  | .num q => [Token.Number q]
  | .neg a => Token.Symbol '-' :: tokensP a
  | .pos a => Token.Symbol '+' :: tokensP a
  | .add a b => Token.Symbol '(' :: ((tokensE a ++ [Token.Symbol '+'] ++ tokensT b) ++ [Token.Symbol ')'])
  | .sub a b => Token.Symbol '(' :: ((tokensE a ++ [Token.Symbol '-'] ++ tokensT b) ++ [Token.Symbol ')'])

/-- Render a tree as an `expression`: no parentheses at the top level. -/
def tokensE : Expr → List Token
  | .add a b => tokensE a ++ [Token.Symbol '+'] ++ tokensT b
  | .sub a b => tokensE a ++ [Token.Symbol '-'] ++ tokensT b
  | .mul a b => tokensT a ++ [Token.Symbol '*'] ++ tokensP b
  | .div a b => tokensT a ++ [Token.Symbol '/'] ++ tokensP b
  | .num q => [Token.Number q]
  | .neg a => Token.Symbol '-' :: tokensP a
  | .pos a => Token.Symbol '+' :: tokensP a

end

mutual

/-- Fuel sufficient for `primaryF` on `tokensP e`. -/
def cP : Expr → ℕ
  | .num _ => 2
  | .neg a => cP a + 2
  | .pos a => cP a + 2
  | .add a b => cE a + cT b + 12
  | .sub a b => cE a + cT b + 12
  | .mul a b => cT a + cP b + 12
  | .div a b => cT a + cP b + 12

/-- Fuel sufficient for `termF` on `tokensT e`. -/
def cT : Expr → ℕ
  | .mul a b => cT a + cP b + 6
  | .div a b => cT a + cP b + 6
  | .num _ => 6
  | .neg a => cP a + 6
  | .pos a => cP a + 6
  | .add a b => cE a + cT b + 16
  | .sub a b => cE a + cT b + 16

/-- Fuel sufficient for `expressionF` on `tokensE e`. -/
def cE : Expr → ℕ
  | .add a b => cE a + cT b + 8
  | .sub a b => cE a + cT b + 8
  | .mul a b => cT a + cP b + 8
  | .div a b => cT a + cP b + 8
  | .num _ => 8
  | .neg a => cP a + 8
  | .pos a => cP a + 8

end

/-- Leftmost primary of a `*`/`/` chain. -/
def headT : Expr → Expr
  | .mul a _ => headT a
  | .div a _ => headT a
  | e => e

/-- The `*`/`/` chain of a term, left to right (`true` is `*`). -/
def chainT : Expr → List (Bool × Expr)
  | .mul a b => chainT a ++ [(true, b)]
  | .div a b => chainT a ++ [(false, b)]
  | _ => []

/-- Leftmost term of a `+`/`-` chain. -/
def headE : Expr → Expr
  | .add a _ => headE a
  | .sub a _ => headE a
  | e => e

/-- The `+`/`-` chain of an expression, left to right (`true` is `+`). -/
def chainE : Expr → List (Bool × Expr)
  | .add a b => chainE a ++ [(true, b)]
  | .sub a b => chainE a ++ [(false, b)]
  | _ => []

def chainTTokens (l : List (Bool × Expr)) : List Token :=
  l.foldr (fun x acc => Token.Symbol (if x.1 then '*' else '/') :: (tokensP x.2 ++ acc)) []

def chainETokens (l : List (Bool × Expr)) : List Token :=
  l.foldr (fun x acc => Token.Symbol (if x.1 then '+' else '-') :: (tokensT x.2 ++ acc)) []

/-- Left fold of a `*`/`/` chain, as the `term` loop computes it. -/
def foldT (v : ℚ) (l : List (Bool × Expr)) : ℚ :=
  l.foldl (fun v x => if x.1 then v * x.2.denote else v / x.2.denote) v

/-- Left fold of a `+`/`-` chain, as the `expression` loop computes it. -/
def foldE (v : ℚ) (l : List (Bool × Expr)) : ℚ :=
  l.foldl (fun v x => if x.1 then v + x.2.denote else v - x.2.denote) v

def chainTCost (l : List (Bool × Expr)) : ℕ :=
  (l.map (fun x => cP x.2 + 2)).sum + 2

def chainECost (l : List (Bool × Expr)) : ℕ :=
  (l.map (fun x => cT x.2 + 2)).sum + 2

/-- The continuation does not start with a `*` or `/` symbol (so the
`term` loop stops). -/
def notMulHead (rest : List Token) : Prop :=
  rest.head? ≠ some (Token.Symbol '*') ∧ rest.head? ≠ some (Token.Symbol '/')

/-- The continuation starts with no binary-operator symbol at all. -/
def notOpHead (rest : List Token) : Prop :=
  notMulHead rest ∧ rest.head? ≠ some (Token.Symbol '+') ∧ rest.head? ≠ some (Token.Symbol '-')

/-- Parser correctness statement for `primary` on a rendered tree. -/
def PSpec (e : Expr) : Prop :=
  ∀ fuel rest vt, cP e ≤ fuel →
    primaryF fuel ⟨[], 0, tokensP e ++ rest⟩ vt = some (.ok e.denote, ⟨[], 0, rest⟩, vt)

/-- Parser correctness statement for `term` on a rendered tree. -/
def TSpec (e : Expr) : Prop :=
  ∀ fuel rest vt, cT e ≤ fuel → notMulHead rest →
    termF fuel ⟨[], 0, tokensT e ++ rest⟩ vt = some (.ok e.denote, ⟨[], 0, rest⟩, vt)

/-- Parser correctness statement for `expression` on a rendered tree. -/
def ESpec (e : Expr) : Prop :=
  ∀ fuel rest vt, cE e ≤ fuel → notOpHead rest →
    expressionF fuel ⟨[], 0, tokensE e ++ rest⟩ vt = some (.ok e.denote, ⟨[], 0, rest⟩, vt)

/-- A token that can start a rendered literal-only expression. -/
def startTok (t : Token) : Prop :=
  (∃ q, t = Token.Number q) ∨ t = Token.Symbol '(' ∨ t = Token.Symbol '-' ∨ t = Token.Symbol '+'

/-! ### Basic token-stream lemmas -/

/-- `next` on a non-empty injection stack pops its top. -/
theorem TokenStream.next_cons (s : TokenStream) (t : Token) (pb : List Token)
    (h : s.put_back = t :: pb) :
    s.next = (.ok (some t), { s with put_back := pb }) := by
  obtain ⟨buf, pos, pb'⟩ := s
  cases h
  rfl

/-- `peek` on a non-empty injection stack returns its top and leaves the
stream unchanged. -/
theorem TokenStream.peek_cons (s : TokenStream) (t : Token) (pb : List Token)
    (h : s.put_back = t :: pb) :
    s.peek = (.ok (some t), s) := by
  obtain ⟨buf, pos, pb'⟩ := s
  cases h
  rfl

/-- A successful `peek` is a `next` whose token was pushed back. -/
theorem TokenStream.peek_ok_some (s s' : TokenStream) (t : Token)
    (h : s.peek = (.ok (some t), s')) :
    ∃ ts2, s.next = (.ok (some t), ts2) ∧ s' = ts2.pushBack t := by
  rcases hn : s.next with ⟨r, ts2⟩
  unfold TokenStream.peek at h
  rw [hn] at h
  cases r with
  | error e => simp at h
  | ok o =>
    cases o with
    | none => simp at h
    | some t0 =>
      simp only [Prod.mk.injEq, Except.ok.injEq, Option.some.injEq] at h
      obtain ⟨h1, h2⟩ := h
      cases h1
      exact ⟨ts2, rfl, h2.symm⟩

/-- When `next` yields no token or fails, `peek` is exactly `next`. -/
theorem TokenStream.peek_not_some (s : TokenStream)
    (h : ∀ t ts2, s.next ≠ (.ok (some t), ts2)) :
    s.peek = s.next := by
  rcases hn : s.next with ⟨r, ts2⟩
  unfold TokenStream.peek
  rw [hn]
  cases r with
  | error e => rfl
  | ok o =>
    cases o with
    | none => rfl
    | some t0 => exact absurd hn (h t0 ts2)

/-! ### Variable-table lemmas -/

/-- The labels of the table, in order. -/
def labels (t : VarTable) : List (List Char) :=
  t.vars.map (fun v => v.label)

theorem labels_storeAux_of_mem (lbl : List Char) (q : ℚ) :
    ∀ l : List Variable, lbl ∈ l.map (fun v => v.label) →
      (storeAux lbl q l).map (fun v => v.label) = l.map (fun v => v.label) := by
  intro l
  induction l with
  | nil => intro h; simp at h
  | cons v rest ih =>
      intro h
      by_cases hv : v.label = lbl
      · simp [storeAux, hv]
      · have : lbl ∈ rest.map (fun v => v.label) := by
          rcases List.mem_map.mp h with ⟨w, hw, hwl⟩
          rcases List.mem_cons.mp hw with h1 | h1
          · exact absurd (h1 ▸ hwl) hv
          · exact List.mem_map.mpr ⟨w, h1, hwl⟩
        simp [storeAux, hv, ih this]

theorem storeAux_of_not_mem (lbl : List Char) (q : ℚ) :
    ∀ l : List Variable, lbl ∉ l.map (fun v => v.label) →
      storeAux lbl q l = l ++ [{ label := lbl, value := q }] := by
  intro l
  induction l with
  | nil => intro _; rfl
  | cons v rest ih =>
      intro h
      have hv : v.label ≠ lbl := by
        intro hc
        exact h (List.mem_map.mpr ⟨v, List.mem_cons_self .., hc⟩)
      have hrest : lbl ∉ rest.map (fun v => v.label) := by
        intro hc
        rcases List.mem_map.mp hc with ⟨w, hw, hwl⟩
        exact h (List.mem_map.mpr ⟨w, List.mem_cons_of_mem _ hw, hwl⟩)
      simp [storeAux, hv, ih hrest]

theorem find?_storeAux (lbl : List Char) (q : ℚ) :
    ∀ l : List Variable,
      (storeAux lbl q l).find? (fun v => v.label = lbl) = some { label := lbl, value := q } := by
  intro l
  induction l with
  | nil =>
      unfold storeAux
      rw [List.find?_cons_of_pos _ (by simp)]
  | cons v rest ih =>
      by_cases hv : v.label = lbl
      · unfold storeAux
        rw [if_pos hv]
        rw [List.find?_cons_of_pos _ (by simpa using hv)]
        simp [hv]
      · unfold storeAux
        rw [if_neg hv]
        rw [List.find?_cons_of_neg _ (by simpa using hv)]
        exact ih

theorem contains_iff_mem_labels (t : VarTable) (lbl : List Char) :
    t.contains lbl = true ↔ lbl ∈ labels t := by
  unfold VarTable.contains labels
  rw [List.any_eq_true]
  constructor
  · rintro ⟨v, hv, hl⟩
    exact List.mem_map.mpr ⟨v, hv, of_decide_eq_true hl⟩
  · intro h
    rcases List.mem_map.mp h with ⟨v, hv, hl⟩
    exact ⟨v, hv, decide_eq_true hl⟩

theorem retrieve_eq_some_iff (t : VarTable) (lbl : List Char) (q : ℚ)
    (hnd : (labels t).Nodup) :
    t.retrieve lbl = some q ↔ ({ label := lbl, value := q } : Variable) ∈ t.vars := by
  obtain ⟨l⟩ := t
  unfold VarTable.retrieve labels at *
  simp only at hnd ⊢
  induction l with
  | nil => simp
  | cons v rest ih =>
      simp only [List.map_cons, List.nodup_cons] at hnd
      by_cases hv : v.label = lbl
      · rw [List.find?_cons_of_pos _ (by simpa using hv)]
        simp only [List.mem_cons, Option.some.injEq]
        constructor
        · intro h
          left
          obtain ⟨vl, vv⟩ := v
          simp_all
        · rintro (h | h)
          · rw [← h]
          · exact absurd (hv ▸ List.mem_map.mpr ⟨_, h, rfl⟩) hnd.1
      · rw [List.find?_cons_of_neg _ (by simpa using hv)]
        rw [ih hnd.2]
        simp only [List.mem_cons]
        constructor
        · intro h; right; exact h
        · rintro (h | h)
          · cases h; simp at hv
          · exact h

/-- C7 helper: storing an existing label keeps the label list (hence
each entry's position); storing a new one appends. -/
theorem store_labels (t : VarTable) (lbl : List Char) (q : ℚ) :
    (t.contains lbl = true → labels (t.store lbl q) = labels t)
    ∧ (t.contains lbl = false → (t.store lbl q).vars = t.vars ++ [{ label := lbl, value := q }]) := by
  constructor
  · intro h
    exact labels_storeAux_of_mem lbl q t.vars ((contains_iff_mem_labels t lbl).mp h)
  · intro h
    apply storeAux_of_not_mem lbl q t.vars
    intro hc
    have hc2 : t.contains lbl = true := (contains_iff_mem_labels t lbl).mpr hc
    rw [h] at hc2
    cases hc2

/-- Claim C7: the variable table keeps labels unique: `store` on an
existing label overwrites in place (the ordered label list is unchanged),
`store` on a new label appends at the end, distinctness of labels is
preserved, and `retrieve`/`contains` answer by exact label match. -/
theorem C7_var_table_unique_labels (t : VarTable) (lbl : List Char) (q : ℚ)
    (hnd : (labels t).Nodup) :
    (labels (t.store lbl q)).Nodup
    ∧ (t.contains lbl = true → labels (t.store lbl q) = labels t)
    ∧ (t.contains lbl = false → (t.store lbl q).vars = t.vars ++ [{ label := lbl, value := q }])
    ∧ (t.store lbl q).retrieve lbl = some q
    ∧ (t.contains lbl = true ↔ lbl ∈ labels t)
    ∧ (∀ q', t.retrieve lbl = some q' ↔ ({ label := lbl, value := q' } : Variable) ∈ t.vars) := by
  refine ⟨?_, (store_labels t lbl q).1, (store_labels t lbl q).2, ?_,
    contains_iff_mem_labels t lbl, fun q' => retrieve_eq_some_iff t lbl q' hnd⟩
  · by_cases h : t.contains lbl
    · rw [(store_labels t lbl q).1 h]
      exact hnd
    · have h2 := (store_labels t lbl q).2 (by simpa using h)
      unfold labels at hnd ⊢
      rw [h2]
      simp only [List.map_append, List.map_cons, List.map_nil]
      rw [List.nodup_append]
      refine ⟨hnd, List.nodup_singleton _, ?_⟩
      intro a ha hb
      simp only [List.mem_singleton] at hb
      subst hb
      have ha2 : t.contains a = true := (contains_iff_mem_labels t a).mpr ha
      exact absurd ha2 h
  · unfold VarTable.retrieve VarTable.store
    simp [find?_storeAux]

/-- Witness for C7 at a concrete table. -/
theorem C7_var_table_unique_labels_witness :
    labels (VarTable.store ⟨[⟨['x'], 5⟩]⟩ ['x'] 7) = [['x']]
    ∧ VarTable.retrieve (VarTable.store ⟨[⟨['x'], 5⟩]⟩ ['x'] 7) ['x'] = some 7 := by
  have h := C7_var_table_unique_labels ⟨[⟨['x'], 5⟩]⟩ ['x'] 7 (by decide)
  exact ⟨h.2.1 (by decide), h.2.2.2.1⟩

/-! ### Claim C8: peek never consumes -/

/-- Claim C8: if `peek` returns a token then a subsequent `next` returns
an equal token, and a second `peek` with no intervening consumption
returns the equal token and does not change the stream at all. -/
theorem C8_peek_never_consumes (s s' : TokenStream) (t : Token)
    (h : s.peek = (.ok (some t), s')) :
    s'.next = (.ok (some t), { s' with put_back := s'.put_back.tail })
    ∧ s'.peek = (.ok (some t), s') := by
  rcases TokenStream.peek_ok_some s s' t h with ⟨ts2, _, hs'⟩
  have hpb : s'.put_back = t :: ts2.put_back := by
    rw [hs']; rfl
  constructor
  · have hnx := TokenStream.next_cons s' t ts2.put_back hpb
    rw [hnx, hpb]
    rfl
  · exact TokenStream.peek_cons s' t ts2.put_back hpb

/-- Witness for C8 on the stream for the input `5`. -/
theorem C8_peek_never_consumes_witness :
    (⟨['5'], 1, [Token.Number 5]⟩ : TokenStream).next
        = (.ok (some (Token.Number 5)), ⟨['5'], 1, []⟩)
    ∧ (⟨['5'], 1, [Token.Number 5]⟩ : TokenStream).peek
        = (.ok (some (Token.Number 5)), ⟨['5'], 1, [Token.Number 5]⟩) := by
  have h := C8_peek_never_consumes (TokenStream.new ['5'])
    ⟨['5'], 1, [Token.Number 5]⟩ (Token.Number 5) (by decide)
  exact ⟨h.1, h.2⟩

/-! ### One-step unfolding laws of the parser -/

theorem expressionF_succ (n : ℕ) (ts : TokenStream) (vt : VarTable) :
    expressionF (n + 1) ts vt
      = (match termF n ts vt with
        | none => none
        | some (.error e, ts1, v1) => some (.error e, ts1, v1)
        | some (.ok value, ts1, v1) => expressionAuxF n value ts1 v1) := rfl

theorem expressionAuxF_succ (n : ℕ) (value : ℚ) (ts : TokenStream) (vt : VarTable) :
    expressionAuxF (n + 1) value ts vt
      = (match ts.peek with
        | (.error e, ts1) => some (.error e, ts1, vt)
        | (.ok (some (Token.Symbol '+')), ts1) =>
            match ts1.next with
            | (.error e, ts2) => some (.error e, ts2, vt)
            | (.ok _, ts2) =>
              match termF n ts2 vt with
              | none => none
              | some (.error e, ts3, v3) => some (.error e, ts3, v3)
              | some (.ok rhs, ts3, v3) => expressionAuxF n (value + rhs) ts3 v3
        | (.ok (some (Token.Symbol '-')), ts1) =>
            match ts1.next with
            | (.error e, ts2) => some (.error e, ts2, vt)
            | (.ok _, ts2) =>
              match termF n ts2 vt with
              | none => none
              | some (.error e, ts3, v3) => some (.error e, ts3, v3)
              | some (.ok rhs, ts3, v3) => expressionAuxF n (value - rhs) ts3 v3
        | (.ok _, ts1) => some (.ok value, ts1, vt)) := rfl

theorem termF_succ (n : ℕ) (ts : TokenStream) (vt : VarTable) :
    termF (n + 1) ts vt
      = (match primaryF n ts vt with
        | none => none
        | some (.error e, ts1, v1) => some (.error e, ts1, v1)
        | some (.ok value, ts1, v1) => termAuxF n value ts1 v1) := rfl

theorem termAuxF_succ (n : ℕ) (value : ℚ) (ts : TokenStream) (vt : VarTable) :
    termAuxF (n + 1) value ts vt
      = (match ts.peek with
        | (.error e, ts1) => some (.error e, ts1, vt)
        | (.ok (some (Token.Symbol '*')), ts1) =>
            match ts1.next with
            | (.error e, ts2) => some (.error e, ts2, vt)
            | (.ok _, ts2) =>
              match primaryF n ts2 vt with
              | none => none
              | some (.error e, ts3, v3) => some (.error e, ts3, v3)
              | some (.ok rhs, ts3, v3) => termAuxF n (value * rhs) ts3 v3
        | (.ok (some (Token.Symbol '/')), ts1) =>
            match ts1.next with
            | (.error e, ts2) => some (.error e, ts2, vt)
            | (.ok _, ts2) =>
              match primaryF n ts2 vt with
              | none => none
              | some (.error e, ts3, v3) => some (.error e, ts3, v3)
              | some (.ok rhs, ts3, v3) => termAuxF n (value / rhs) ts3 v3
        | (.ok _, ts1) => some (.ok value, ts1, vt)) := rfl

theorem primaryF_succ (n : ℕ) (ts : TokenStream) (vt : VarTable) :
    primaryF (n + 1) ts vt
      = (match ts.next with
        | (.error e, ts1) => some (.error e, ts1, vt)
        | (.ok (some (Token.Number m)), ts1) => some (.ok m, ts1, vt)
        | (.ok (some (Token.Symbol '(')), ts1) =>
            match expressionF n ts1 vt with
            | none => none
            | some (.error e, ts2, v2) => some (.error e, ts2, v2)
            | some (.ok value, ts2, v2) =>
                match ts2.next with
                | (.error e, ts3) => some (.error e, ts3, v2)
                | (.ok (some (Token.Symbol ')')), ts3) => some (.ok value, ts3, v2)
                | (.ok _, ts3) => some (.error .expectedClosingParen, ts3, v2)
        | (.ok (some (Token.Symbol '-')), ts1) =>
            match primaryF n ts1 vt with
            | none => none
            | some (.error e, ts2, v2) => some (.error e, ts2, v2)
            | some (.ok value, ts2, v2) => some (.ok (-value), ts2, v2)
        | (.ok (some (Token.Symbol '+')), ts1) =>
            match primaryF n ts1 vt with
            | none => none
            | some (.error e, ts2, v2) => some (.error e, ts2, v2)
            | some (.ok value, ts2, v2) => some (.ok value, ts2, v2)
        | (.ok (some (Token.Name name)), ts1) =>
            match vt.retrieve name with
            | some value => some (.ok value, ts1, vt)
            | none => some (.error (.undefinedVariable name), ts1, vt)
        | (.ok _, ts1) => some (.error .expectedPrimary, ts1, vt)) := rfl

theorem statementF_succ (n : ℕ) (ts : TokenStream) (vt : VarTable) :
    statementF (n + 1) ts vt
      = (match ts.peek with
        | (.error e, ts0) => some (.error e, ts0, vt)
        | (.ok (some Token.Let), ts0) =>
            let ts1 := (ts0.next).2
            match ts1.next with
            | (.error e, ts2) => some (.error e, ts2, vt)
            | (.ok (some (Token.Name label)), ts2) =>
                if vt.contains label then
                  some (.error (.alreadyDefined label), ts2, vt)
                else
                  match ts2.next with
                  | (.error e, ts3) => some (.error e, ts3, vt)
                  | (.ok t3, ts3) =>
                      if t3 = none ∨ t3 = some (Token.Symbol '=') then
                        match expressionF n ts3 vt with
                        | none => none
                        | some (.error e, ts4, v4) => some (.error e, ts4, v4)
                        | some (.ok value, ts4, v4) => some (.ok value, ts4, v4.store label value)
                      else
                        some (.error (.expectedAssign label), ts3, vt)
            | (.ok _, ts2) => some (.error .expectedNameAfterLet, ts2, vt)
        | (.ok (some (Token.Name label)), ts0) =>
            let ts1 := (ts0.next).2
            match ts1.peek with
            | (.error e, ts2) => some (.error e, ts2, vt)
            | (.ok (some (Token.Symbol '=')), ts2) =>
                let ts3 := (ts2.next).2
                if vt.contains label then
                  match expressionF n ts3 vt with
                  | none => none
                  | some (.error e, ts4, v4) => some (.error e, ts4, v4)
                  | some (.ok value, ts4, v4) => some (.ok value, ts4, v4.store label value)
                else
                  some (.error (.notDefinedUseLet label), ts3, vt)
            | (.ok _, ts2) =>
                match vt.retrieve label with
                | some val => expressionF n (ts2.pushBack (Token.Number val)) vt
                | none => some (.error (.undefinedVariable label), ts2, vt)
        | (.ok _, ts0) => expressionF n ts0 vt) := rfl

/-! ### One-iteration laws of the driver loop -/

/-- One unfolding of the driver loop. -/
theorem evalLoopF_succ (fuel : ℕ) (ts : TokenStream) (val : Option ℚ) (vt : VarTable)
    (res : List EvaluationResult) :
    evalLoopF (fuel + 1) ts val vt res
      = match ts.peek with
        | (.error e, ts1) =>
            evalLoopF fuel ts1.discard_invalid val vt (res ++ [.Error (.readingInput e)])
        | (.ok (some Token.Noop), ts1) => evalLoopF fuel ts1 val vt res
        | (.ok (some Token.EndStatement), ts1) =>
            match val with
            | some v => evalLoopF fuel (ts1.next).2 none vt (res ++ [.Number v])
            | none => evalLoopF fuel (ts1.next).2 none vt res
        | (.ok (some Token.Quit), ts1) =>
            evalLoopF fuel (ts1.next).2 val vt (res ++ [.Quit])
        | (.ok (some t), ts1) =>
            match statementF fuel ts1 vt with
            | none => none
            | some (.ok value, ts2, v2) => evalLoopF fuel ts2 val v2 (res ++ [.Number value])
            | some (.error e, ts2, v2) =>
                evalLoopF fuel ts2.discard_invalid val v2 (res ++ [.Error (.evaluatingToken t e)])
        | (.ok none, _) =>
            match val with
            | some v => some (res ++ [.Number v], vt)
            | none => some (res, vt)
      := rfl

/-- A loop iteration that peeks an ordinary token runs `statement`. -/
theorem evalLoopF_step_other {ts ts1 : TokenStream} {t : Token} (fuel : ℕ)
    (val : Option ℚ) (vt : VarTable) (res : List EvaluationResult)
    (hpeek : ts.peek = (.ok (some t), ts1))
    (h1 : t ≠ .Noop) (h2 : t ≠ .EndStatement) (h3 : t ≠ .Quit) :
    evalLoopF (fuel + 1) ts val vt res
      = match statementF fuel ts1 vt with
        | none => none
        | some (.ok value, ts2, v2) => evalLoopF fuel ts2 val v2 (res ++ [.Number value])
        | some (.error e, ts2, v2) =>
            evalLoopF fuel ts2.discard_invalid val v2 (res ++ [.Error (.evaluatingToken t e)]) := by
  rw [evalLoopF_succ, hpeek]
  cases t with
  | Noop => exact absurd rfl h1
  | EndStatement => exact absurd rfl h2
  | Quit => exact absurd rfl h3
  | Number q => rfl
  | Symbol c => rfl
  | Let => rfl
  | Name n => rfl

/-- A successful statement pushes its value to the results at once
(`.map(|result| res.push(..))` in the source); the pending value is
left untouched. -/
theorem evalLoopF_step_stmt_ok {ts ts1 ts2 : TokenStream} {t : Token} {v : ℚ}
    {vt vt2 : VarTable} (fuel : ℕ) (val : Option ℚ) (res : List EvaluationResult)
    (hpeek : ts.peek = (.ok (some t), ts1))
    (h1 : t ≠ .Noop) (h2 : t ≠ .EndStatement) (h3 : t ≠ .Quit)
    (hstmt : statementF fuel ts1 vt = some (.ok v, ts2, vt2)) :
    evalLoopF (fuel + 1) ts val vt res
      = evalLoopF fuel ts2 val vt2 (res ++ [.Number v]) := by
  rw [evalLoopF_step_other fuel val vt res hpeek h1 h2 h3, hstmt]

/-- A failed statement emits one `Error`, resynchronizes, and leaves the
pending value alone. -/
theorem evalLoopF_step_stmt_err {ts ts1 ts2 : TokenStream} {t : Token} {e : CalcError}
    {vt vt2 : VarTable} (fuel : ℕ) (val : Option ℚ) (res : List EvaluationResult)
    (hpeek : ts.peek = (.ok (some t), ts1))
    (h1 : t ≠ .Noop) (h2 : t ≠ .EndStatement) (h3 : t ≠ .Quit)
    (hstmt : statementF fuel ts1 vt = some (.error e, ts2, vt2)) :
    evalLoopF (fuel + 1) ts val vt res
      = evalLoopF fuel ts2.discard_invalid val vt2 (res ++ [.Error (.evaluatingToken t e)]) := by
  rw [evalLoopF_step_other fuel val vt res hpeek h1 h2 h3, hstmt]

/-- An `EndStatement` iteration flushes the pending value (if any). -/
theorem evalLoopF_step_end {ts ts1 : TokenStream} (fuel : ℕ) (val : Option ℚ)
    (vt : VarTable) (res : List EvaluationResult)
    (hpeek : ts.peek = (.ok (some Token.EndStatement), ts1)) :
    evalLoopF (fuel + 1) ts val vt res
      = match val with
        | some v => evalLoopF fuel (ts1.next).2 none vt (res ++ [.Number v])
        | none => evalLoopF fuel (ts1.next).2 none vt res := by
  rw [evalLoopF_succ, hpeek]

/-- An end-of-stream iteration flushes the pending value and stops. -/
theorem evalLoopF_step_eos {ts ts1 : TokenStream} (fuel : ℕ) (val : Option ℚ)
    (vt : VarTable) (res : List EvaluationResult)
    (hpeek : ts.peek = (.ok none, ts1)) :
    evalLoopF (fuel + 1) ts val vt res
      = match val with
        | some v => some (res ++ [.Number v], vt)
        | none => some (res, vt) := by
  rw [evalLoopF_succ, hpeek]

/-- A tokenization error iteration records the error and resynchronizes. -/
theorem evalLoopF_step_err {ts ts1 : TokenStream} {e : CalcError} (fuel : ℕ)
    (val : Option ℚ) (vt : VarTable) (res : List EvaluationResult)
    (hpeek : ts.peek = (.error e, ts1)) :
    evalLoopF (fuel + 1) ts val vt res
      = evalLoopF fuel ts1.discard_invalid val vt (res ++ [.Error (.readingInput e)]) := by
  rw [evalLoopF_succ, hpeek]

/-! ### Claim C2: unseparated statements -/

/-- Claim C2 is wrong about the code: the statement arm of `evaluate`
pushes a successful statement's value to the results immediately
(`.map(|result| res.push(..))`), and nothing in the loop ever sets the
`val` variable to `Some`, so the `EndStatement` and end-of-input
flushes never emit anything.  Consequently, when two successive valid
statements are not separated by `;`, nothing is overwritten: BOTH
values are emitted, in order, and TWO `Number` outcomes appear for the
pair (the line `1 2` yields `[Number 1, Number 2]`). -/
theorem C2_unseparated_statements_both_emitted
    {ts ts1 ts2 ts3 ts4 ts5 : TokenStream} {t t' : Token} {v1 v2 : ℚ}
    {vt vt1 vt2 : VarTable} (fuel : ℕ) (res0 : List EvaluationResult)
    (hpeek1 : ts.peek = (.ok (some t), ts1))
    (ht1 : t ≠ .Noop) (ht2 : t ≠ .EndStatement) (ht3 : t ≠ .Quit)
    (hstmt1 : statementF (fuel + 2) ts1 vt = some (.ok v1, ts2, vt1))
    (hpeek2 : ts2.peek = (.ok (some t'), ts3))
    (ht1' : t' ≠ .Noop) (ht2' : t' ≠ .EndStatement) (ht3' : t' ≠ .Quit)
    (hstmt2 : statementF (fuel + 1) ts3 vt1 = some (.ok v2, ts4, vt2))
    (heos : ts4.peek = (.ok none, ts5)) :
    evalLoopF (fuel + 3) ts none vt res0
      = some (res0 ++ [.Number v1, .Number v2], vt2) := by
  rw [evalLoopF_step_stmt_ok (fuel + 2) none res0 hpeek1 ht1 ht2 ht3 hstmt1]
  rw [evalLoopF_step_stmt_ok (fuel + 1) none (res0 ++ [EvaluationResult.Number v1]) hpeek2 ht1' ht2' ht3' hstmt2]
  rw [evalLoopF_step_eos fuel none vt2 ((res0 ++ [EvaluationResult.Number v1]) ++ [EvaluationResult.Number v2]) heos]
  simp

/-- Witness/counterexample for C2 on the line `1 2`: two outcomes. -/
theorem C2_unseparated_statements_both_emitted_witness :
    evalLoopF 7 (TokenStream.new ['1', ' ', '2']) none ⟨[]⟩ []
      = some ([.Number 1, .Number 2], ⟨[]⟩) := by
  have h := @C2_unseparated_statements_both_emitted
    (TokenStream.new ['1', ' ', '2'])
    ⟨['1', ' ', '2'], 1, [.Number 1]⟩
    ⟨['1', ' ', '2'], 3, [.Number 2]⟩
    ⟨['1', ' ', '2'], 3, [.Number 2]⟩
    ⟨['1', ' ', '2'], 3, []⟩
    ⟨['1', ' ', '2'], 3, []⟩
    (.Number 1) (.Number 2) 1 2 ⟨[]⟩ ⟨[]⟩ ⟨[]⟩
    4 []
    (by decide) (by decide) (by decide) (by decide)
    (by decide)
    (by decide) (by decide) (by decide) (by decide)
    (by decide) (by decide)
  simpa using h

/-! ### Claim C3: the semicolon/end-of-buffer special case -/

/-- Claim C3 is wrong about the code: `next` compares the *incremented*
position against `len - 1`, so a `;` that is second-to-last (here the
`;` of `1;2`, which is not the last character) also yields "no token"
instead of `EndStatement`: the `;` is swallowed mid-buffer, and the
line `1;2` evaluates to `[Number 1, Number 2]` with no statement
boundary ever tokenized.  A `;` with at least two following characters
does yield `EndStatement`, and a trailing `;` yields "no token". -/
theorem C3_semicolon_swallowed_when_second_to_last :
    (TokenStream.next ⟨['1', ';', '2'], 1, []⟩
        = (.ok none, ⟨['1', ';', '2'], 2, []⟩))
    ∧ (['1', ';', '2'].get ⟨1, by decide⟩ = ';' ∧ (1 : ℕ) + 1 ≠ ['1', ';', '2'].length)
    ∧ evaluate ['1', ';', '2'] ⟨[]⟩ = some ([.Number 1, .Number 2], ⟨[]⟩)
    ∧ (TokenStream.next ⟨['1', ';', ' ', '2'], 1, []⟩
        = (.ok (some Token.EndStatement), ⟨['1', ';', ' ', '2'], 2, []⟩))
    ∧ (TokenStream.next ⟨['1', ';'], 1, []⟩ = (.ok none, ⟨['1', ';'], 2, []⟩)) := by
  refine ⟨by decide, ⟨by decide, by decide⟩, ?_, by decide, by decide⟩
  show evalLoopF 24 (TokenStream.new ['1', ';', '2']) none ⟨[]⟩ []
    = some ([.Number 1, .Number 2], ⟨[]⟩)
  rw [evalLoopF_step_stmt_ok 23 none []
    (by decide : (TokenStream.new ['1', ';', '2']).peek
      = (.ok (some (.Number 1)), ⟨['1', ';', '2'], 1, [.Number 1]⟩))
    (by decide) (by decide) (by decide)
    (by decide : statementF 23 ⟨['1', ';', '2'], 1, [.Number 1]⟩ ⟨[]⟩
      = some (.ok 1, ⟨['1', ';', '2'], 3, [.Number 2]⟩, ⟨[]⟩))]
  rw [evalLoopF_step_stmt_ok 22 none ([] ++ [EvaluationResult.Number 1])
    (by decide : (⟨['1', ';', '2'], 3, [.Number 2]⟩ : TokenStream).peek
      = (.ok (some (.Number 2)), ⟨['1', ';', '2'], 3, [.Number 2]⟩))
    (by decide) (by decide) (by decide)
    (by decide : statementF 22 ⟨['1', ';', '2'], 3, [.Number 2]⟩ ⟨[]⟩
      = some (.ok 2, ⟨['1', ';', '2'], 3, []⟩, ⟨[]⟩))]
  rw [evalLoopF_step_eos 21 none ⟨[]⟩ (([] ++ [EvaluationResult.Number 1]) ++ [EvaluationResult.Number 2])
    (by decide : (⟨['1', ';', '2'], 3, []⟩ : TokenStream).peek
      = (.ok none, ⟨['1', ';', '2'], 3, []⟩))]
  rfl

/-! ### Parser soundness on rendered literal expressions -/

theorem chainTTokens_append (l1 l2 : List (Bool × Expr)) :
    chainTTokens (l1 ++ l2) = chainTTokens l1 ++ chainTTokens l2 := by
  induction l1 with
  | nil => rfl
  | cons x xs ih =>
      simp only [chainTTokens] at ih ⊢
      simp [ih, List.append_assoc]

theorem chainETokens_append (l1 l2 : List (Bool × Expr)) :
    chainETokens (l1 ++ l2) = chainETokens l1 ++ chainETokens l2 := by
  induction l1 with
  | nil => rfl
  | cons x xs ih =>
      simp only [chainETokens] at ih ⊢
      simp [ih, List.append_assoc]

theorem tokensT_flatten : ∀ e, tokensT e = tokensP (headT e) ++ chainTTokens (chainT e)
  | .num q => by simp [tokensT, tokensP, headT, chainT, chainTTokens]
  | .neg a => by simp [tokensT, tokensP, headT, chainT, chainTTokens]
  | .pos a => by simp [tokensT, tokensP, headT, chainT, chainTTokens]
  | .add a b => by simp [tokensT, tokensP, headT, chainT, chainTTokens]
  | .sub a b => by simp [tokensT, tokensP, headT, chainT, chainTTokens]
  | .mul a b => by
      rw [show tokensT (.mul a b) = tokensT a ++ [Token.Symbol '*'] ++ tokensP b from rfl]
      rw [tokensT_flatten a]
      rw [show headT (.mul a b) = headT a from rfl,
          show chainT (.mul a b) = chainT a ++ [(true, b)] from rfl]
      rw [chainTTokens_append]
      simp [chainTTokens]
  | .div a b => by
      rw [show tokensT (.div a b) = tokensT a ++ [Token.Symbol '/'] ++ tokensP b from rfl]
      rw [tokensT_flatten a]
      rw [show headT (.div a b) = headT a from rfl,
          show chainT (.div a b) = chainT a ++ [(false, b)] from rfl]
      rw [chainTTokens_append]
      simp [chainTTokens]

theorem tokensE_flatten : ∀ e, tokensE e = tokensT (headE e) ++ chainETokens (chainE e)
  | .num q => by simp [tokensE, tokensT, headE, chainE, chainETokens]
  | .neg a => by simp [tokensE, tokensT, headE, chainE, chainETokens]
  | .pos a => by simp [tokensE, tokensT, headE, chainE, chainETokens]
  | .mul a b => by simp [tokensE, tokensT, headE, chainE, chainETokens]
  | .div a b => by simp [tokensE, tokensT, headE, chainE, chainETokens]
  | .add a b => by
      rw [show tokensE (.add a b) = tokensE a ++ [Token.Symbol '+'] ++ tokensT b from rfl]
      rw [tokensE_flatten a]
      rw [show headE (.add a b) = headE a from rfl,
          show chainE (.add a b) = chainE a ++ [(true, b)] from rfl]
      rw [chainETokens_append]
      simp [chainETokens]
  | .sub a b => by
      rw [show tokensE (.sub a b) = tokensE a ++ [Token.Symbol '-'] ++ tokensT b from rfl]
      rw [tokensE_flatten a]
      rw [show headE (.sub a b) = headE a from rfl,
          show chainE (.sub a b) = chainE a ++ [(false, b)] from rfl]
      rw [chainETokens_append]
      simp [chainETokens]

theorem denote_foldT : ∀ e : Expr, e.denote = foldT ((headT e).denote) (chainT e)
  | .num q => rfl
  | .neg a => rfl
  | .pos a => rfl
  | .add a b => rfl
  | .sub a b => rfl
  | .mul a b => by
      rw [show (Expr.mul a b).denote = a.denote * b.denote from rfl, denote_foldT a]
      rw [show headT (.mul a b) = headT a from rfl,
          show chainT (.mul a b) = chainT a ++ [(true, b)] from rfl]
      simp [foldT, List.foldl_append]
  | .div a b => by
      rw [show (Expr.div a b).denote = a.denote / b.denote from rfl, denote_foldT a]
      rw [show headT (.div a b) = headT a from rfl,
          show chainT (.div a b) = chainT a ++ [(false, b)] from rfl]
      simp [foldT, List.foldl_append]

theorem denote_foldE : ∀ e : Expr, e.denote = foldE ((headE e).denote) (chainE e)
  | .num q => rfl
  | .neg a => rfl
  | .pos a => rfl
  | .mul a b => rfl
  | .div a b => rfl
  | .add a b => by
      rw [show (Expr.add a b).denote = a.denote + b.denote from rfl, denote_foldE a]
      rw [show headE (.add a b) = headE a from rfl,
          show chainE (.add a b) = chainE a ++ [(true, b)] from rfl]
      simp [foldE, List.foldl_append]
  | .sub a b => by
      rw [show (Expr.sub a b).denote = a.denote - b.denote from rfl, denote_foldE a]
      rw [show headE (.sub a b) = headE a from rfl,
          show chainE (.sub a b) = chainE a ++ [(false, b)] from rfl]
      simp [foldE, List.foldl_append]

theorem chainTCost_append (l1 l2 : List (Bool × Expr)) :
    chainTCost (l1 ++ l2) + 2 = chainTCost l1 + chainTCost l2 := by
  simp [chainTCost]
  omega

theorem chainECost_append (l1 l2 : List (Bool × Expr)) :
    chainECost (l1 ++ l2) + 2 = chainECost l1 + chainECost l2 := by
  simp [chainECost]
  omega

theorem cT_flatten : ∀ e : Expr, cP (headT e) + 1 ≤ cT e ∧ chainTCost (chainT e) + 1 ≤ cT e
  | .num q => by simp [cP, cT, headT, chainT, chainTCost]
  | .neg a => by simp [cP, cT, headT, chainT, chainTCost]
  | .pos a => by simp [cP, cT, headT, chainT, chainTCost]
  | .add a b => by simp [cP, cT, headT, chainT, chainTCost]
  | .sub a b => by simp [cP, cT, headT, chainT, chainTCost]
  | .mul a b => by
      obtain ⟨h1, h2⟩ := cT_flatten a
      constructor
      · rw [show headT (.mul a b) = headT a from rfl, show cT (.mul a b) = cT a + cP b + 6 from rfl]
        omega
      · rw [show chainT (.mul a b) = chainT a ++ [(true, b)] from rfl,
            show cT (.mul a b) = cT a + cP b + 6 from rfl]
        have h3 := chainTCost_append (chainT a) [(true, b)]
        have h4 : chainTCost [(true, b)] = cP b + 4 := by simp [chainTCost]
        omega
  | .div a b => by
      obtain ⟨h1, h2⟩ := cT_flatten a
      constructor
      · rw [show headT (.div a b) = headT a from rfl, show cT (.div a b) = cT a + cP b + 6 from rfl]
        omega
      · rw [show chainT (.div a b) = chainT a ++ [(false, b)] from rfl,
            show cT (.div a b) = cT a + cP b + 6 from rfl]
        have h3 := chainTCost_append (chainT a) [(false, b)]
        have h4 : chainTCost [(false, b)] = cP b + 4 := by simp [chainTCost]
        omega

theorem cE_flatten : ∀ e : Expr, cT (headE e) + 1 ≤ cE e ∧ chainECost (chainE e) + 1 ≤ cE e
  | .num q => by simp [cT, cE, headE, chainE, chainECost]
  | .neg a => by simp [cT, cE, headE, chainE, chainECost]
  | .pos a => by simp [cT, cE, headE, chainE, chainECost]
  | .mul a b => by simp [cT, cE, headE, chainE, chainECost]
  | .div a b => by simp [cT, cE, headE, chainE, chainECost]
  | .add a b => by
      obtain ⟨h1, h2⟩ := cE_flatten a
      constructor
      · rw [show headE (.add a b) = headE a from rfl, show cE (.add a b) = cE a + cT b + 8 from rfl]
        omega
      · rw [show chainE (.add a b) = chainE a ++ [(true, b)] from rfl,
            show cE (.add a b) = cE a + cT b + 8 from rfl]
        have h3 := chainECost_append (chainE a) [(true, b)]
        have h4 : chainECost [(true, b)] = cT b + 4 := by simp [chainECost]
        omega
  | .sub a b => by
      obtain ⟨h1, h2⟩ := cE_flatten a
      constructor
      · rw [show headE (.sub a b) = headE a from rfl, show cE (.sub a b) = cE a + cT b + 8 from rfl]
        omega
      · rw [show chainE (.sub a b) = chainE a ++ [(false, b)] from rfl,
            show cE (.sub a b) = cE a + cT b + 8 from rfl]
        have h3 := chainECost_append (chainE a) [(false, b)]
        have h4 : chainECost [(false, b)] = cT b + 4 := by simp [chainECost]
        omega

theorem sizeOf_headT_le : ∀ e : Expr, sizeOf (headT e) ≤ sizeOf e
  | .num q => le_refl _
  | .neg a => le_refl _
  | .pos a => le_refl _
  | .add a b => le_refl _
  | .sub a b => le_refl _
  | .mul a b => by
      have := sizeOf_headT_le a
      rw [show headT (.mul a b) = headT a from rfl]
      simp only [Expr.mul.sizeOf_spec]
      omega
  | .div a b => by
      have := sizeOf_headT_le a
      rw [show headT (.div a b) = headT a from rfl]
      simp only [Expr.div.sizeOf_spec]
      omega

theorem sizeOf_headE_le : ∀ e : Expr, sizeOf (headE e) ≤ sizeOf e
  | .num q => le_refl _
  | .neg a => le_refl _
  | .pos a => le_refl _
  | .mul a b => le_refl _
  | .div a b => le_refl _
  | .add a b => by
      have := sizeOf_headE_le a
      rw [show headE (.add a b) = headE a from rfl]
      simp only [Expr.add.sizeOf_spec]
      omega
  | .sub a b => by
      have := sizeOf_headE_le a
      rw [show headE (.sub a b) = headE a from rfl]
      simp only [Expr.sub.sizeOf_spec]
      omega

theorem chainT_sizeOf_lt : ∀ e : Expr, ∀ x ∈ chainT e, sizeOf x.2 < sizeOf e
  | .num q => by intro x hx; simp [chainT] at hx
  | .neg a => by intro x hx; simp [chainT] at hx
  | .pos a => by intro x hx; simp [chainT] at hx
  | .add a b => by intro x hx; simp [chainT] at hx
  | .sub a b => by intro x hx; simp [chainT] at hx
  | .mul a b => by
      intro x hx
      rw [show chainT (.mul a b) = chainT a ++ [(true, b)] from rfl] at hx
      rcases List.mem_append.mp hx with h | h
      · have := chainT_sizeOf_lt a x h
        simp only [Expr.mul.sizeOf_spec]
        omega
      · simp at h
        subst h
        simp only [Expr.mul.sizeOf_spec]
        omega
  | .div a b => by
      intro x hx
      rw [show chainT (.div a b) = chainT a ++ [(false, b)] from rfl] at hx
      rcases List.mem_append.mp hx with h | h
      · have := chainT_sizeOf_lt a x h
        simp only [Expr.div.sizeOf_spec]
        omega
      · simp at h
        subst h
        simp only [Expr.div.sizeOf_spec]
        omega

theorem chainE_sizeOf_lt : ∀ e : Expr, ∀ x ∈ chainE e, sizeOf x.2 < sizeOf e
  | .num q => by intro x hx; simp [chainE] at hx
  | .neg a => by intro x hx; simp [chainE] at hx
  | .pos a => by intro x hx; simp [chainE] at hx
  | .mul a b => by intro x hx; simp [chainE] at hx
  | .div a b => by intro x hx; simp [chainE] at hx
  | .add a b => by
      intro x hx
      rw [show chainE (.add a b) = chainE a ++ [(true, b)] from rfl] at hx
      rcases List.mem_append.mp hx with h | h
      · have := chainE_sizeOf_lt a x h
        simp only [Expr.add.sizeOf_spec]
        omega
      · simp at h
        subst h
        simp only [Expr.add.sizeOf_spec]
        omega
  | .sub a b => by
      intro x hx
      rw [show chainE (.sub a b) = chainE a ++ [(false, b)] from rfl] at hx
      rcases List.mem_append.mp hx with h | h
      · have := chainE_sizeOf_lt a x h
        simp only [Expr.sub.sizeOf_spec]
        omega
      · simp at h
        subst h
        simp only [Expr.sub.sizeOf_spec]
        omega


theorem peek_empty : TokenStream.peek ⟨[], 0, []⟩ = (.ok none, ⟨[], 0, []⟩) := by decide

theorem termAuxF_stop (fuel : ℕ) (v : ℚ) (rest : List Token) (vt : VarTable)
    (hf : 1 ≤ fuel) (hrest : notMulHead rest) :
    termAuxF fuel v ⟨[], 0, rest⟩ vt = some (.ok v, ⟨[], 0, rest⟩, vt) := by
  obtain ⟨n, rfl⟩ : ∃ n, fuel = n + 1 := ⟨fuel - 1, by omega⟩
  rw [termAuxF_succ]
  cases rest with
  | nil => rw [peek_empty]
  | cons t rest' =>
      rw [TokenStream.peek_cons ⟨[], 0, t :: rest'⟩ t rest' rfl]
      obtain ⟨h1, h2⟩ := hrest
      simp only [List.head?] at h1 h2
      split
      · rename_i heq
        cases heq
      · rename_i heq
        cases heq
        simp at h1
      · rename_i heq
        cases heq
        simp at h2
      · rename_i heq
        cases heq
        rfl

theorem exprAuxF_stop (fuel : ℕ) (v : ℚ) (rest : List Token) (vt : VarTable)
    (hf : 1 ≤ fuel) (hrest : rest.head? ≠ some (Token.Symbol '+') ∧ rest.head? ≠ some (Token.Symbol '-')) :
    expressionAuxF fuel v ⟨[], 0, rest⟩ vt = some (.ok v, ⟨[], 0, rest⟩, vt) := by
  obtain ⟨n, rfl⟩ : ∃ n, fuel = n + 1 := ⟨fuel - 1, by omega⟩
  rw [expressionAuxF_succ]
  cases rest with
  | nil => rw [peek_empty]
  | cons t rest' =>
      rw [TokenStream.peek_cons ⟨[], 0, t :: rest'⟩ t rest' rfl]
      obtain ⟨h1, h2⟩ := hrest
      simp only [List.head?] at h1 h2
      split
      · rename_i heq
        cases heq
      · rename_i heq
        cases heq
        simp at h1
      · rename_i heq
        cases heq
        simp at h2
      · rename_i heq
        cases heq
        rfl


theorem termAuxF_chain : ∀ (l : List (Bool × Expr)),
    (∀ x ∈ l, PSpec x.2) →
    ∀ (fuel : ℕ) (v : ℚ) (rest : List Token) (vt : VarTable),
      chainTCost l ≤ fuel → notMulHead rest →
      termAuxF fuel v ⟨[], 0, chainTTokens l ++ rest⟩ vt
        = some (.ok (foldT v l), ⟨[], 0, rest⟩, vt) := by
  intro l
  induction l with
  | nil =>
      intro _ fuel v rest vt hc hrest
      rw [show chainTTokens [] = [] from rfl, List.nil_append]
      exact termAuxF_stop fuel v rest vt (by simp [chainTCost] at hc; omega) hrest
  | cons x tl ih =>
      obtain ⟨op, p⟩ := x
      intro hl fuel v rest vt hc hrest
      have hcp : cP p ≤ fuel - 1 := by simp [chainTCost] at hc; omega
      have hctl : chainTCost tl ≤ fuel - 1 := by simp [chainTCost] at hc ⊢; omega
      obtain ⟨n, rfl⟩ : ∃ n, fuel = n + 1 := ⟨fuel - 1, by simp [chainTCost] at hc; omega⟩
      simp only [Nat.add_sub_cancel] at hcp hctl
      cases op with
      | true =>
          have hTok : chainTTokens ((true, p) :: tl) ++ rest
              = Token.Symbol '*' :: (tokensP p ++ (chainTTokens tl ++ rest)) := by
            simp [chainTTokens, List.append_assoc]
          rw [hTok, termAuxF_succ,
            TokenStream.peek_cons ⟨[], 0, Token.Symbol '*'
              :: (tokensP p ++ (chainTTokens tl ++ rest))⟩ _ _ rfl]
          split
          · rename_i heq; simp at heq
          · rename_i heq
            cases heq
            rw [TokenStream.next_cons ⟨[], 0, Token.Symbol '*'
                :: (tokensP p ++ (chainTTokens tl ++ rest))⟩ _ _ rfl]
            split
            · rename_i heq2; simp at heq2
            · rename_i heq2
              cases heq2
              rw [hl (true, p) (List.mem_cons_self ..) n (chainTTokens tl ++ rest) vt hcp]
              split
              · rename_i heq3; simp at heq3
              · rename_i heq3; simp at heq3
              · rename_i heq3
                rw [Option.some_inj, Prod.mk.injEq, Prod.mk.injEq, Except.ok.injEq] at heq3
                obtain ⟨hrhs, hts3, hv3⟩ := heq3
                subst hrhs hts3 hv3
                rw [ih (fun x hx => hl x (List.mem_cons_of_mem _ hx)) n (v * p.denote) rest vt hctl hrest]
                rfl
          · rename_i heq; simp at heq
          · rename_i hne1 hne2 heq
            cases heq
            exact absurd rfl hne1
      | false =>
          have hTok : chainTTokens ((false, p) :: tl) ++ rest
              = Token.Symbol '/' :: (tokensP p ++ (chainTTokens tl ++ rest)) := by
            simp [chainTTokens, List.append_assoc]
          rw [hTok, termAuxF_succ,
            TokenStream.peek_cons ⟨[], 0, Token.Symbol '/'
              :: (tokensP p ++ (chainTTokens tl ++ rest))⟩ _ _ rfl]
          split
          · rename_i heq; simp at heq
          · rename_i heq; simp at heq
          · rename_i heq
            cases heq
            rw [TokenStream.next_cons ⟨[], 0, Token.Symbol '/'
                :: (tokensP p ++ (chainTTokens tl ++ rest))⟩ _ _ rfl]
            split
            · rename_i heq2; simp at heq2
            · rename_i heq2
              cases heq2
              rw [hl (false, p) (List.mem_cons_self ..) n (chainTTokens tl ++ rest) vt hcp]
              split
              · rename_i heq3; simp at heq3
              · rename_i heq3; simp at heq3
              · rename_i heq3
                rw [Option.some_inj, Prod.mk.injEq, Prod.mk.injEq, Except.ok.injEq] at heq3
                obtain ⟨hrhs, hts3, hv3⟩ := heq3
                subst hrhs hts3 hv3
                rw [ih (fun x hx => hl x (List.mem_cons_of_mem _ hx)) n (v / p.denote) rest vt hctl hrest]
                rfl
          · rename_i hne1 hne2 heq
            cases heq
            exact absurd rfl hne2


theorem notMulHead_chainE (tl : List (Bool × Expr)) (rest : List Token) (h : notMulHead rest) :
    notMulHead (chainETokens tl ++ rest) := by
  cases tl with
  | nil => simpa [chainETokens] using h
  | cons x xs =>
      obtain ⟨op, p⟩ := x
      cases op <;> simp [chainETokens, notMulHead]

theorem exprAuxF_chain : ∀ (l : List (Bool × Expr)),
    (∀ x ∈ l, TSpec x.2) →
    ∀ (fuel : ℕ) (v : ℚ) (rest : List Token) (vt : VarTable),
      chainECost l ≤ fuel → notOpHead rest →
      expressionAuxF fuel v ⟨[], 0, chainETokens l ++ rest⟩ vt
        = some (.ok (foldE v l), ⟨[], 0, rest⟩, vt) := by
  intro l
  induction l with
  | nil =>
      intro _ fuel v rest vt hc hrest
      rw [show chainETokens [] = [] from rfl, List.nil_append]
      exact exprAuxF_stop fuel v rest vt (by simp [chainECost] at hc; omega) ⟨hrest.2.1, hrest.2.2⟩
  | cons x tl ih =>
      obtain ⟨op, p⟩ := x
      intro hl fuel v rest vt hc hrest
      have hcp : cT p ≤ fuel - 1 := by simp [chainECost] at hc; omega
      have hctl : chainECost tl ≤ fuel - 1 := by simp [chainECost] at hc ⊢; omega
      obtain ⟨n, rfl⟩ : ∃ n, fuel = n + 1 := ⟨fuel - 1, by simp [chainECost] at hc; omega⟩
      simp only [Nat.add_sub_cancel] at hcp hctl
      have hmul : notMulHead (chainETokens tl ++ rest) := notMulHead_chainE tl rest hrest.1
      cases op with
      | true =>
          have hTok : chainETokens ((true, p) :: tl) ++ rest
              = Token.Symbol '+' :: (tokensT p ++ (chainETokens tl ++ rest)) := by
            simp [chainETokens, List.append_assoc]
          rw [hTok, expressionAuxF_succ,
            TokenStream.peek_cons ⟨[], 0, Token.Symbol '+'
              :: (tokensT p ++ (chainETokens tl ++ rest))⟩ _ _ rfl]
          split
          · rename_i heq; simp at heq
          · rename_i heq
            cases heq
            rw [TokenStream.next_cons ⟨[], 0, Token.Symbol '+'
                :: (tokensT p ++ (chainETokens tl ++ rest))⟩ _ _ rfl]
            split
            · rename_i heq2; simp at heq2
            · rename_i heq2
              cases heq2
              rw [hl (true, p) (List.mem_cons_self ..) n (chainETokens tl ++ rest) vt hcp hmul]
              split
              · rename_i heq3; simp at heq3
              · rename_i heq3; simp at heq3
              · rename_i heq3
                rw [Option.some_inj, Prod.mk.injEq, Prod.mk.injEq, Except.ok.injEq] at heq3
                obtain ⟨hrhs, hts3, hv3⟩ := heq3
                subst hrhs hts3 hv3
                rw [ih (fun x hx => hl x (List.mem_cons_of_mem _ hx)) n (v + p.denote) rest vt hctl hrest]
                rfl
          · rename_i heq; simp at heq
          · rename_i hne1 hne2 heq
            cases heq
            exact absurd rfl hne1
      | false =>
          have hTok : chainETokens ((false, p) :: tl) ++ rest
              = Token.Symbol '-' :: (tokensT p ++ (chainETokens tl ++ rest)) := by
            simp [chainETokens, List.append_assoc]
          rw [hTok, expressionAuxF_succ,
            TokenStream.peek_cons ⟨[], 0, Token.Symbol '-'
              :: (tokensT p ++ (chainETokens tl ++ rest))⟩ _ _ rfl]
          split
          · rename_i heq; simp at heq
          · rename_i heq; simp at heq
          · rename_i heq
            cases heq
            rw [TokenStream.next_cons ⟨[], 0, Token.Symbol '-'
                :: (tokensT p ++ (chainETokens tl ++ rest))⟩ _ _ rfl]
            split
            · rename_i heq2; simp at heq2
            · rename_i heq2
              cases heq2
              rw [hl (false, p) (List.mem_cons_self ..) n (chainETokens tl ++ rest) vt hcp hmul]
              split
              · rename_i heq3; simp at heq3
              · rename_i heq3; simp at heq3
              · rename_i heq3
                rw [Option.some_inj, Prod.mk.injEq, Prod.mk.injEq, Except.ok.injEq] at heq3
                obtain ⟨hrhs, hts3, hv3⟩ := heq3
                subst hrhs hts3 hv3
                rw [ih (fun x hx => hl x (List.mem_cons_of_mem _ hx)) n (v - p.denote) rest vt hctl hrest]
                rfl
          · rename_i hne1 hne2 heq
            cases heq
            exact absurd rfl hne2


theorem TSpec_of_flatten (e : Expr) (hhead : PSpec (headT e))
    (hchain : ∀ x ∈ chainT e, PSpec x.2) : TSpec e := by
  intro fuel rest vt hc hrest
  obtain ⟨hc1, hc2⟩ := cT_flatten e
  obtain ⟨n, rfl⟩ : ∃ n, fuel = n + 1 := ⟨fuel - 1, by omega⟩
  rw [tokensT_flatten e, List.append_assoc, termF_succ]
  rw [hhead n (chainTTokens (chainT e) ++ rest) vt (by omega)]
  show termAuxF n ((headT e).denote) ⟨[], 0, chainTTokens (chainT e) ++ rest⟩ vt = _
  rw [termAuxF_chain (chainT e) hchain n ((headT e).denote) rest vt (by omega) hrest]
  rw [← denote_foldT e]

theorem ESpec_of_flatten (e : Expr) (hhead : TSpec (headE e))
    (hchain : ∀ x ∈ chainE e, TSpec x.2) : ESpec e := by
  intro fuel rest vt hc hrest
  obtain ⟨hc1, hc2⟩ := cE_flatten e
  obtain ⟨n, rfl⟩ : ∃ n, fuel = n + 1 := ⟨fuel - 1, by omega⟩
  rw [tokensE_flatten e, List.append_assoc, expressionF_succ]
  rw [hhead n (chainETokens (chainE e) ++ rest) vt (by omega)
    (notMulHead_chainE (chainE e) rest hrest.1)]
  show expressionAuxF n ((headE e).denote) ⟨[], 0, chainETokens (chainE e) ++ rest⟩ vt = _
  rw [exprAuxF_chain (chainE e) hchain n ((headE e).denote) rest vt (by omega) hrest]
  rw [← denote_foldE e]

theorem PSpec_num (q : ℚ) : PSpec (.num q) := by
  intro fuel rest vt hc
  obtain ⟨n, rfl⟩ : ∃ n, fuel = n + 1 := ⟨fuel - 1, by simp [cP] at hc; omega⟩
  rw [show tokensP (.num q) ++ rest = Token.Number q :: rest from rfl, primaryF_succ,
    TokenStream.next_cons ⟨[], 0, Token.Number q :: rest⟩ _ _ rfl]
  rfl

theorem PSpec_neg (a : Expr) (ha : PSpec a) : PSpec (.neg a) := by
  intro fuel rest vt hc
  obtain ⟨n, rfl⟩ : ∃ n, fuel = n + 1 := ⟨fuel - 1, by simp [cP] at hc; omega⟩
  rw [show tokensP (.neg a) ++ rest = Token.Symbol '-' :: (tokensP a ++ rest) from rfl, primaryF_succ,
    TokenStream.next_cons ⟨[], 0, Token.Symbol '-' :: (tokensP a ++ rest)⟩ _ _ rfl]
  show (match primaryF n ⟨[], 0, tokensP a ++ rest⟩ vt with
    | none => none
    | some (Except.error e, ts2, v2) => some (Except.error e, ts2, v2)
    | some (Except.ok value, ts2, v2) => some (Except.ok (-value), ts2, v2)) = _
  rw [ha n rest vt (by simp [cP] at hc; omega)]
  rfl

theorem PSpec_pos (a : Expr) (ha : PSpec a) : PSpec (.pos a) := by
  intro fuel rest vt hc
  obtain ⟨n, rfl⟩ : ∃ n, fuel = n + 1 := ⟨fuel - 1, by simp [cP] at hc; omega⟩
  rw [show tokensP (.pos a) ++ rest = Token.Symbol '+' :: (tokensP a ++ rest) from rfl, primaryF_succ,
    TokenStream.next_cons ⟨[], 0, Token.Symbol '+' :: (tokensP a ++ rest)⟩ _ _ rfl]
  show (match primaryF n ⟨[], 0, tokensP a ++ rest⟩ vt with
    | none => none
    | some (Except.error e, ts2, v2) => some (Except.error e, ts2, v2)
    | some (Except.ok value, ts2, v2) => some (Except.ok value, ts2, v2)) = _
  rw [ha n rest vt (by simp [cP] at hc; omega)]
  rfl

theorem PSpec_of_paren (e : Expr)
    (htok : tokensP e = Token.Symbol '(' :: (tokensE e ++ [Token.Symbol ')']))
    (hcost : cE e + 1 ≤ cP e) (he : ESpec e) : PSpec e := by
  intro fuel rest vt hc
  obtain ⟨n, rfl⟩ : ∃ n, fuel = n + 1 := ⟨fuel - 1, by omega⟩
  have hsplit : tokensP e ++ rest
      = Token.Symbol '(' :: (tokensE e ++ (Token.Symbol ')' :: rest)) := by
    rw [htok]
    simp [List.append_assoc]
  rw [hsplit, primaryF_succ,
    TokenStream.next_cons ⟨[], 0, Token.Symbol '('
      :: (tokensE e ++ (Token.Symbol ')' :: rest))⟩ _ _ rfl]
  show (match expressionF n ⟨[], 0, tokensE e ++ (Token.Symbol ')' :: rest)⟩ vt with
    | none => none
    | some (Except.error e2, ts2, v2) => some (Except.error e2, ts2, v2)
    | some (Except.ok value, ts2, v2) =>
        match ts2.next with
        | (Except.error e2, ts3) => some (Except.error e2, ts3, v2)
        | (Except.ok (some (Token.Symbol ')')), ts3) => some (Except.ok value, ts3, v2)
        | (Except.ok _, ts3) => some (Except.error CalcError.expectedClosingParen, ts3, v2)) = _
  rw [he n (Token.Symbol ')' :: rest) vt (by omega) (by simp [notOpHead, notMulHead])]
  show (match TokenStream.next ⟨[], 0, Token.Symbol ')' :: rest⟩ with
    | (Except.error e2, ts3) => some (Except.error e2, ts3, vt)
    | (Except.ok (some (Token.Symbol ')')), ts3) => some (Except.ok e.denote, ts3, vt)
    | (Except.ok _, ts3) => some (Except.error CalcError.expectedClosingParen, ts3, vt)) = _
  rw [TokenStream.next_cons ⟨[], 0, Token.Symbol ')' :: rest⟩ _ _ rfl]
  rfl


theorem parse_sound : ∀ n : ℕ, ∀ e : Expr, sizeOf e < n → PSpec e ∧ TSpec e ∧ ESpec e := by
  intro n
  induction n with
  | zero => intro e he; omega
  | succ n ih =>
      intro e he
      cases e with
      | num q =>
          have hP : PSpec (.num q) := PSpec_num q
          have hT : TSpec (.num q) := TSpec_of_flatten _ hP (by intro x hx; simp [chainT] at hx)
          have hE : ESpec (.num q) := ESpec_of_flatten _ hT (by intro x hx; simp [chainE] at hx)
          exact ⟨hP, hT, hE⟩
      | neg a =>
          have ha := ih a (by simp only [Expr.neg.sizeOf_spec] at he; omega)
          have hP := PSpec_neg a ha.1
          have hT : TSpec (.neg a) := TSpec_of_flatten _ hP (by intro x hx; simp [chainT] at hx)
          have hE : ESpec (.neg a) := ESpec_of_flatten _ hT (by intro x hx; simp [chainE] at hx)
          exact ⟨hP, hT, hE⟩
      | pos a =>
          have ha := ih a (by simp only [Expr.pos.sizeOf_spec] at he; omega)
          have hP := PSpec_pos a ha.1
          have hT : TSpec (.pos a) := TSpec_of_flatten _ hP (by intro x hx; simp [chainT] at hx)
          have hE : ESpec (.pos a) := ESpec_of_flatten _ hT (by intro x hx; simp [chainE] at hx)
          exact ⟨hP, hT, hE⟩
      | add a b =>
          have hE : ESpec (.add a b) := ESpec_of_flatten _
            ((ih (headE a) (by
                have h1 := sizeOf_headE_le a
                simp only [Expr.add.sizeOf_spec] at he
                omega)).2.1)
            (by intro x hx
                have hlt := chainE_sizeOf_lt (.add a b) x hx
                exact (ih x.2 (by omega)).2.1)
          have hP : PSpec (.add a b) := PSpec_of_paren _ rfl (by simp [cP, cE]) hE
          have hT : TSpec (.add a b) := TSpec_of_flatten _ hP (by intro x hx; simp [chainT] at hx)
          exact ⟨hP, hT, hE⟩
      | sub a b =>
          have hE : ESpec (.sub a b) := ESpec_of_flatten _
            ((ih (headE a) (by
                have h1 := sizeOf_headE_le a
                simp only [Expr.sub.sizeOf_spec] at he
                omega)).2.1)
            (by intro x hx
                have hlt := chainE_sizeOf_lt (.sub a b) x hx
                exact (ih x.2 (by omega)).2.1)
          have hP : PSpec (.sub a b) := PSpec_of_paren _ rfl (by simp [cP, cE]) hE
          have hT : TSpec (.sub a b) := TSpec_of_flatten _ hP (by intro x hx; simp [chainT] at hx)
          exact ⟨hP, hT, hE⟩
      | mul a b =>
          have hT : TSpec (.mul a b) := TSpec_of_flatten _
            ((ih (headT a) (by
                have h1 := sizeOf_headT_le a
                simp only [Expr.mul.sizeOf_spec] at he
                omega)).1)
            (by intro x hx
                have hlt := chainT_sizeOf_lt (.mul a b) x hx
                exact (ih x.2 (by omega)).1)
          have hE : ESpec (.mul a b) := ESpec_of_flatten _ hT (by intro x hx; simp [chainE] at hx)
          have hP : PSpec (.mul a b) := PSpec_of_paren _ rfl (by simp [cP, cE]) hE
          exact ⟨hP, hT, hE⟩
      | div a b =>
          have hT : TSpec (.div a b) := TSpec_of_flatten _
            ((ih (headT a) (by
                have h1 := sizeOf_headT_le a
                simp only [Expr.div.sizeOf_spec] at he
                omega)).1)
            (by intro x hx
                have hlt := chainT_sizeOf_lt (.div a b) x hx
                exact (ih x.2 (by omega)).1)
          have hE : ESpec (.div a b) := ESpec_of_flatten _ hT (by intro x hx; simp [chainE] at hx)
          have hP : PSpec (.div a b) := PSpec_of_paren _ rfl (by simp [cP, cE]) hE
          exact ⟨hP, hT, hE⟩

theorem ESpec_all (e : Expr) : ESpec e := (parse_sound (sizeOf e + 1) e (by omega)).2.2

theorem PSpec_all (e : Expr) : PSpec e := (parse_sound (sizeOf e + 1) e (by omega)).1


theorem tokens_head : ∀ e : Expr,
    (∃ t r, tokensP e = t :: r ∧ startTok t)
    ∧ (∃ t r, tokensT e = t :: r ∧ startTok t)
    ∧ (∃ t r, tokensE e = t :: r ∧ startTok t)
  | .num q =>
      ⟨⟨_, _, rfl, .inl ⟨q, rfl⟩⟩, ⟨_, _, rfl, .inl ⟨q, rfl⟩⟩, ⟨_, _, rfl, .inl ⟨q, rfl⟩⟩⟩
  | .neg a =>
      ⟨⟨_, _, rfl, .inr (.inr (.inl rfl))⟩, ⟨_, _, rfl, .inr (.inr (.inl rfl))⟩,
        ⟨_, _, rfl, .inr (.inr (.inl rfl))⟩⟩
  | .pos a =>
      ⟨⟨_, _, rfl, .inr (.inr (.inr rfl))⟩, ⟨_, _, rfl, .inr (.inr (.inr rfl))⟩,
        ⟨_, _, rfl, .inr (.inr (.inr rfl))⟩⟩
  | .add a b => by
      refine ⟨⟨_, _, rfl, .inr (.inl rfl)⟩, ⟨_, _, rfl, .inr (.inl rfl)⟩, ?_⟩
      obtain ⟨t, r, heq, hs⟩ := (tokens_head a).2.2
      exact ⟨t, r ++ [Token.Symbol '+'] ++ tokensT b, by
        rw [show tokensE (.add a b) = tokensE a ++ [Token.Symbol '+'] ++ tokensT b from rfl, heq]
        simp, hs⟩
  | .sub a b => by
      refine ⟨⟨_, _, rfl, .inr (.inl rfl)⟩, ⟨_, _, rfl, .inr (.inl rfl)⟩, ?_⟩
      obtain ⟨t, r, heq, hs⟩ := (tokens_head a).2.2
      exact ⟨t, r ++ [Token.Symbol '-'] ++ tokensT b, by
        rw [show tokensE (.sub a b) = tokensE a ++ [Token.Symbol '-'] ++ tokensT b from rfl, heq]
        simp, hs⟩
  | .mul a b => by
      refine ⟨⟨_, _, rfl, .inr (.inl rfl)⟩, ?_, ?_⟩
      · obtain ⟨t, r, heq, hs⟩ := (tokens_head a).2.1
        exact ⟨t, r ++ [Token.Symbol '*'] ++ tokensP b, by
          rw [show tokensT (.mul a b) = tokensT a ++ [Token.Symbol '*'] ++ tokensP b from rfl, heq]
          simp, hs⟩
      · obtain ⟨t, r, heq, hs⟩ := (tokens_head a).2.1
        exact ⟨t, r ++ [Token.Symbol '*'] ++ tokensP b, by
          rw [show tokensE (.mul a b) = tokensT a ++ [Token.Symbol '*'] ++ tokensP b from rfl, heq]
          simp, hs⟩
  | .div a b => by
      refine ⟨⟨_, _, rfl, .inr (.inl rfl)⟩, ?_, ?_⟩
      · obtain ⟨t, r, heq, hs⟩ := (tokens_head a).2.1
        exact ⟨t, r ++ [Token.Symbol '/'] ++ tokensP b, by
          rw [show tokensT (.div a b) = tokensT a ++ [Token.Symbol '/'] ++ tokensP b from rfl, heq]
          simp, hs⟩
      · obtain ⟨t, r, heq, hs⟩ := (tokens_head a).2.1
        exact ⟨t, r ++ [Token.Symbol '/'] ++ tokensP b, by
          rw [show tokensE (.div a b) = tokensT a ++ [Token.Symbol '/'] ++ tokensP b from rfl, heq]
          simp, hs⟩

theorem statementF_expr (e : Expr) (fuel : ℕ) (vt : VarTable) (hc : cE e + 1 ≤ fuel) :
    statementF fuel ⟨[], 0, tokensE e⟩ vt = some (.ok e.denote, ⟨[], 0, []⟩, vt) := by
  obtain ⟨n, rfl⟩ : ∃ n, fuel = n + 1 := ⟨fuel - 1, by omega⟩
  obtain ⟨t, r, heq, hs⟩ := (tokens_head e).2.2
  have hE := ESpec_all e n [] vt (by omega) (by simp [notOpHead, notMulHead])
  rw [List.append_nil] at hE
  rw [statementF_succ, heq, TokenStream.peek_cons ⟨[], 0, t :: r⟩ t r rfl]
  rcases hs with ⟨q, rfl⟩ | rfl | rfl | rfl
  · show expressionF n ⟨[], 0, Token.Number q :: r⟩ vt = _
    rw [← heq]
    exact hE
  · show expressionF n ⟨[], 0, Token.Symbol '(' :: r⟩ vt = _
    rw [← heq]
    exact hE
  · show expressionF n ⟨[], 0, Token.Symbol '-' :: r⟩ vt = _
    rw [← heq]
    exact hE
  · show expressionF n ⟨[], 0, Token.Symbol '+' :: r⟩ vt = _
    rw [← heq]
    exact hE

theorem evalLoop_literal (e : Expr) (fuel : ℕ) (vt : VarTable) (hc : cE e + 3 ≤ fuel) :
    evalLoopF fuel ⟨[], 0, tokensE e⟩ none vt [] = some ([.Number e.denote], vt) := by
  obtain ⟨n, rfl⟩ : ∃ n, fuel = n + 1 := ⟨fuel - 1, by omega⟩
  obtain ⟨t, r, heq, hs⟩ := (tokens_head e).2.2
  have hpeek : TokenStream.peek ⟨[], 0, tokensE e⟩ = (.ok (some t), ⟨[], 0, tokensE e⟩) := by
    rw [heq]
    exact TokenStream.peek_cons ⟨[], 0, t :: r⟩ t r rfl
  have ht1 : t ≠ Token.Noop := by rcases hs with ⟨q, rfl⟩ | rfl | rfl | rfl <;> simp
  have ht2 : t ≠ Token.EndStatement := by rcases hs with ⟨q, rfl⟩ | rfl | rfl | rfl <;> simp
  have ht3 : t ≠ Token.Quit := by rcases hs with ⟨q, rfl⟩ | rfl | rfl | rfl <;> simp
  rw [evalLoopF_step_stmt_ok n none [] hpeek ht1 ht2 ht3 (statementF_expr e n vt (by omega))]
  obtain ⟨m, rfl⟩ : ∃ m, n = m + 1 := ⟨n - 1, by omega⟩
  rw [evalLoopF_step_eos m none vt ([] ++ [EvaluationResult.Number e.denote]) peek_empty]
  rfl


/-! ### Single-step laws of the parser on explicit stream states -/

theorem expressionF_step_ok {s s1 : TokenStream} {vt vt1 : VarTable} {v : ℚ} (n : ℕ)
    (htm : termF n s vt = some (.ok v, s1, vt1)) :
    expressionF (n + 1) s vt = expressionAuxF n v s1 vt1 := by
  rw [expressionF_succ, htm]

theorem expressionF_step_err {s s1 : TokenStream} {vt vt1 : VarTable} {e : CalcError} (n : ℕ)
    (htm : termF n s vt = some (.error e, s1, vt1)) :
    expressionF (n + 1) s vt = some (.error e, s1, vt1) := by
  rw [expressionF_succ, htm]

theorem termF_step_ok {s s1 : TokenStream} {vt vt1 : VarTable} {v : ℚ} (n : ℕ)
    (hpr : primaryF n s vt = some (.ok v, s1, vt1)) :
    termF (n + 1) s vt = termAuxF n v s1 vt1 := by
  rw [termF_succ, hpr]

theorem termF_step_err {s s1 : TokenStream} {vt vt1 : VarTable} {e : CalcError} (n : ℕ)
    (hpr : primaryF n s vt = some (.error e, s1, vt1)) :
    termF (n + 1) s vt = some (.error e, s1, vt1) := by
  rw [termF_succ, hpr]

theorem primaryF_num {s s1 : TokenStream} {q : ℚ} (n : ℕ) (vt : VarTable)
    (hnx : s.next = (.ok (some (.Number q)), s1)) :
    primaryF (n + 1) s vt = some (.ok q, s1, vt) := by
  rw [primaryF_succ, hnx]

theorem primaryF_neg {s s1 s2 : TokenStream} {vt vt2 : VarTable} {v : ℚ} (n : ℕ)
    (hnx : s.next = (.ok (some (.Symbol '-')), s1))
    (h2 : primaryF n s1 vt = some (.ok v, s2, vt2)) :
    primaryF (n + 1) s vt = some (.ok (-v), s2, vt2) := by
  rw [primaryF_succ, hnx]
  show (match primaryF n s1 vt with
    | none => none
    | some (Except.error e, ts2, v2) => some (Except.error e, ts2, v2)
    | some (Except.ok value, ts2, v2) => some (Except.ok (-value), ts2, v2)) = _
  rw [h2]

theorem primaryF_paren {s s1 s2 s3 : TokenStream} {vt vt2 : VarTable} {v : ℚ} (n : ℕ)
    (hnx : s.next = (.ok (some (.Symbol '(')), s1))
    (hex : expressionF n s1 vt = some (.ok v, s2, vt2))
    (hnx2 : s2.next = (.ok (some (.Symbol ')')), s3)) :
    primaryF (n + 1) s vt = some (.ok v, s3, vt2) := by
  rw [primaryF_succ, hnx]
  show (match expressionF n s1 vt with
    | none => none
    | some (Except.error e, ts2, v2) => some (Except.error e, ts2, v2)
    | some (Except.ok value, ts2, v2) =>
        match ts2.next with
        | (Except.error e, ts3) => some (Except.error e, ts3, v2)
        | (Except.ok (some (Token.Symbol ')')), ts3) => some (Except.ok value, ts3, v2)
        | (Except.ok _, ts3) => some (Except.error CalcError.expectedClosingParen, ts3, v2)) = _
  rw [hex]
  show (match s2.next with
    | (Except.error e, ts3) => some (Except.error e, ts3, vt2)
    | (Except.ok (some (Token.Symbol ')')), ts3) => some (Except.ok v, ts3, vt2)
    | (Except.ok _, ts3) => some (Except.error CalcError.expectedClosingParen, ts3, vt2)) = _
  rw [hnx2]
  rfl

theorem primaryF_name_some {s s1 : TokenStream} {lbl : List Char} {v : ℚ} (n : ℕ) (vt : VarTable)
    (hnx : s.next = (.ok (some (.Name lbl)), s1))
    (hr : vt.retrieve lbl = some v) :
    primaryF (n + 1) s vt = some (.ok v, s1, vt) := by
  rw [primaryF_succ, hnx]
  show (match vt.retrieve lbl with
    | some value => some (Except.ok value, s1, vt)
    | none => some (Except.error (CalcError.undefinedVariable lbl), s1, vt)) = _
  rw [hr]

theorem primaryF_name_none {s s1 : TokenStream} {lbl : List Char} (n : ℕ) (vt : VarTable)
    (hnx : s.next = (.ok (some (.Name lbl)), s1))
    (hr : vt.retrieve lbl = none) :
    primaryF (n + 1) s vt = some (.error (.undefinedVariable lbl), s1, vt) := by
  rw [primaryF_succ, hnx]
  show (match vt.retrieve lbl with
    | some value => some (Except.ok value, s1, vt)
    | none => some (Except.error (CalcError.undefinedVariable lbl), s1, vt)) = _
  rw [hr]

theorem termAuxF_stop_at {s s1 : TokenStream} (n : ℕ) (v : ℚ) (vt : VarTable) (o : Option Token)
    (hp : s.peek = (.ok o, s1))
    (h1 : o ≠ some (.Symbol '*')) (h2 : o ≠ some (.Symbol '/')) :
    termAuxF (n + 1) v s vt = some (.ok v, s1, vt) := by
  rw [termAuxF_succ, hp]
  split
  · rename_i heq; cases heq
  · rename_i heq
    rw [Prod.mk.injEq, Except.ok.injEq] at heq
    exact absurd heq.1 h1
  · rename_i heq
    rw [Prod.mk.injEq, Except.ok.injEq] at heq
    exact absurd heq.1 h2
  · rename_i heq
    cases heq
    rfl

theorem termAuxF_step_mul {s s1 s2 s3 : TokenStream} {o2 : Option Token}
    {vt vt3 : VarTable} {q : ℚ} (n : ℕ) (v : ℚ)
    (hp : s.peek = (.ok (some (.Symbol '*')), s1))
    (hnx : s1.next = (.ok o2, s2))
    (hpr : primaryF n s2 vt = some (.ok q, s3, vt3)) :
    termAuxF (n + 1) v s vt = termAuxF n (v * q) s3 vt3 := by
  rw [termAuxF_succ, hp]
  show (match s1.next with
    | (Except.error e, ts2) => some (Except.error e, ts2, vt)
    | (Except.ok _, ts2) =>
      match primaryF n ts2 vt with
      | none => none
      | some (Except.error e, ts3, v3) => some (Except.error e, ts3, v3)
      | some (Except.ok rhs, ts3, v3) => termAuxF n (v * rhs) ts3 v3) = _
  rw [hnx]
  show (match primaryF n s2 vt with
    | none => none
    | some (Except.error e, ts3, v3) => some (Except.error e, ts3, v3)
    | some (Except.ok rhs, ts3, v3) => termAuxF n (v * rhs) ts3 v3) = _
  rw [hpr]

theorem termAuxF_step_div {s s1 s2 s3 : TokenStream} {o2 : Option Token}
    {vt vt3 : VarTable} {q : ℚ} (n : ℕ) (v : ℚ)
    (hp : s.peek = (.ok (some (.Symbol '/')), s1))
    (hnx : s1.next = (.ok o2, s2))
    (hpr : primaryF n s2 vt = some (.ok q, s3, vt3)) :
    termAuxF (n + 1) v s vt = termAuxF n (v / q) s3 vt3 := by
  rw [termAuxF_succ, hp]
  show (match s1.next with
    | (Except.error e, ts2) => some (Except.error e, ts2, vt)
    | (Except.ok _, ts2) =>
      match primaryF n ts2 vt with
      | none => none
      | some (Except.error e, ts3, v3) => some (Except.error e, ts3, v3)
      | some (Except.ok rhs, ts3, v3) => termAuxF n (v / rhs) ts3 v3) = _
  rw [hnx]
  show (match primaryF n s2 vt with
    | none => none
    | some (Except.error e, ts3, v3) => some (Except.error e, ts3, v3)
    | some (Except.ok rhs, ts3, v3) => termAuxF n (v / rhs) ts3 v3) = _
  rw [hpr]

theorem termAuxF_step_mul_err {s s1 s2 s3 : TokenStream} {o2 : Option Token}
    {vt vt3 : VarTable} {e : CalcError} (n : ℕ) (v : ℚ)
    (hp : s.peek = (.ok (some (.Symbol '*')), s1))
    (hnx : s1.next = (.ok o2, s2))
    (hpr : primaryF n s2 vt = some (.error e, s3, vt3)) :
    termAuxF (n + 1) v s vt = some (.error e, s3, vt3) := by
  rw [termAuxF_succ, hp]
  show (match s1.next with
    | (Except.error e, ts2) => some (Except.error e, ts2, vt)
    | (Except.ok _, ts2) =>
      match primaryF n ts2 vt with
      | none => none
      | some (Except.error e, ts3, v3) => some (Except.error e, ts3, v3)
      | some (Except.ok rhs, ts3, v3) => termAuxF n (v * rhs) ts3 v3) = _
  rw [hnx]
  show (match primaryF n s2 vt with
    | none => none
    | some (Except.error e, ts3, v3) => some (Except.error e, ts3, v3)
    | some (Except.ok rhs, ts3, v3) => termAuxF n (v * rhs) ts3 v3) = _
  rw [hpr]

theorem exprAuxF_stop_at {s s1 : TokenStream} (n : ℕ) (v : ℚ) (vt : VarTable) (o : Option Token)
    (hp : s.peek = (.ok o, s1))
    (h1 : o ≠ some (.Symbol '+')) (h2 : o ≠ some (.Symbol '-')) :
    expressionAuxF (n + 1) v s vt = some (.ok v, s1, vt) := by
  rw [expressionAuxF_succ, hp]
  split
  · rename_i heq; cases heq
  · rename_i heq
    rw [Prod.mk.injEq, Except.ok.injEq] at heq
    exact absurd heq.1 h1
  · rename_i heq
    rw [Prod.mk.injEq, Except.ok.injEq] at heq
    exact absurd heq.1 h2
  · rename_i heq
    cases heq
    rfl

theorem exprAuxF_step_add {s s1 s2 s3 : TokenStream} {o2 : Option Token}
    {vt vt3 : VarTable} {q : ℚ} (n : ℕ) (v : ℚ)
    (hp : s.peek = (.ok (some (.Symbol '+')), s1))
    (hnx : s1.next = (.ok o2, s2))
    (htm : termF n s2 vt = some (.ok q, s3, vt3)) :
    expressionAuxF (n + 1) v s vt = expressionAuxF n (v + q) s3 vt3 := by
  rw [expressionAuxF_succ, hp]
  show (match s1.next with
    | (Except.error e, ts2) => some (Except.error e, ts2, vt)
    | (Except.ok _, ts2) =>
      match termF n ts2 vt with
      | none => none
      | some (Except.error e, ts3, v3) => some (Except.error e, ts3, v3)
      | some (Except.ok rhs, ts3, v3) => expressionAuxF n (v + rhs) ts3 v3) = _
  rw [hnx]
  show (match termF n s2 vt with
    | none => none
    | some (Except.error e, ts3, v3) => some (Except.error e, ts3, v3)
    | some (Except.ok rhs, ts3, v3) => expressionAuxF n (v + rhs) ts3 v3) = _
  rw [htm]

theorem exprAuxF_step_sub {s s1 s2 s3 : TokenStream} {o2 : Option Token}
    {vt vt3 : VarTable} {q : ℚ} (n : ℕ) (v : ℚ)
    (hp : s.peek = (.ok (some (.Symbol '-')), s1))
    (hnx : s1.next = (.ok o2, s2))
    (htm : termF n s2 vt = some (.ok q, s3, vt3)) :
    expressionAuxF (n + 1) v s vt = expressionAuxF n (v - q) s3 vt3 := by
  rw [expressionAuxF_succ, hp]
  show (match s1.next with
    | (Except.error e, ts2) => some (Except.error e, ts2, vt)
    | (Except.ok _, ts2) =>
      match termF n ts2 vt with
      | none => none
      | some (Except.error e, ts3, v3) => some (Except.error e, ts3, v3)
      | some (Except.ok rhs, ts3, v3) => expressionAuxF n (v - rhs) ts3 v3) = _
  rw [hnx]
  show (match termF n s2 vt with
    | none => none
    | some (Except.error e, ts3, v3) => some (Except.error e, ts3, v3)
    | some (Except.ok rhs, ts3, v3) => expressionAuxF n (v - rhs) ts3 v3) = _
  rw [htm]


theorem statementF_other {s s1 : TokenStream} {t : Token} (n : ℕ) (vt : VarTable)
    (hp : s.peek = (.ok (some t), s1))
    (h1 : t ≠ .Let) (h2 : ∀ lbl, t ≠ .Name lbl) :
    statementF (n + 1) s vt = expressionF n s1 vt := by
  rw [statementF_succ, hp]
  cases t with
  | Let => exact absurd rfl h1
  | Name lbl => exact absurd rfl (h2 lbl)
  | Number q => rfl
  | Symbol c => rfl
  | EndStatement => rfl
  | Quit => rfl
  | Noop => rfl

theorem statementF_let_dup {s s0 s2 : TokenStream} {lbl : List Char} (n : ℕ) (vt : VarTable)
    (hp : s.peek = (.ok (some .Let), s0))
    (hn1 : ((s0.next).2).next = (.ok (some (.Name lbl)), s2))
    (hc : vt.contains lbl = true) :
    statementF (n + 1) s vt = some (.error (.alreadyDefined lbl), s2, vt) := by
  rw [statementF_succ, hp]
  show (match ((s0.next).2).next with
    | (Except.error e, ts2) => some (Except.error e, ts2, vt)
    | (Except.ok (some (Token.Name label)), ts2) =>
        if vt.contains label = true then
          some (Except.error (CalcError.alreadyDefined label), ts2, vt)
        else
          match ts2.next with
          | (Except.error e, ts3) => some (Except.error e, ts3, vt)
          | (Except.ok t3, ts3) =>
              if t3 = none ∨ t3 = some (Token.Symbol '=') then
                match expressionF n ts3 vt with
                | none => none
                | some (Except.error e, ts4, v4) => some (Except.error e, ts4, v4)
                | some (Except.ok value, ts4, v4) => some (Except.ok value, ts4, v4.store label value)
              else
                some (Except.error (CalcError.expectedAssign label), ts3, vt)
    | (Except.ok _, ts2) => some (Except.error CalcError.expectedNameAfterLet, ts2, vt)) = _
  rw [hn1]
  show (if vt.contains lbl = true then
      some (Except.error (CalcError.alreadyDefined lbl), s2, vt)
    else
      match s2.next with
      | (Except.error e, ts3) => some (Except.error e, ts3, vt)
      | (Except.ok t3, ts3) =>
          if t3 = none ∨ t3 = some (Token.Symbol '=') then
            match expressionF n ts3 vt with
            | none => none
            | some (Except.error e, ts4, v4) => some (Except.error e, ts4, v4)
            | some (Except.ok value, ts4, v4) => some (Except.ok value, ts4, v4.store lbl value)
          else
            some (Except.error (CalcError.expectedAssign lbl), ts3, vt)) = _
  rw [if_pos hc]

theorem statementF_let_new {s s0 s2 s3 s4 : TokenStream} {lbl : List Char}
    {o3 : Option Token} {v : ℚ} {vt4 : VarTable} (n : ℕ) (vt : VarTable)
    (hp : s.peek = (.ok (some .Let), s0))
    (hn1 : ((s0.next).2).next = (.ok (some (.Name lbl)), s2))
    (hc : vt.contains lbl = false)
    (hn2 : s2.next = (.ok o3, s3))
    (ho3 : o3 = none ∨ o3 = some (.Symbol '='))
    (hex : expressionF n s3 vt = some (.ok v, s4, vt4)) :
    statementF (n + 1) s vt = some (.ok v, s4, vt4.store lbl v) := by
  rw [statementF_succ, hp]
  show (match ((s0.next).2).next with
    | (Except.error e, ts2) => some (Except.error e, ts2, vt)
    | (Except.ok (some (Token.Name label)), ts2) =>
        if vt.contains label = true then
          some (Except.error (CalcError.alreadyDefined label), ts2, vt)
        else
          match ts2.next with
          | (Except.error e, ts3) => some (Except.error e, ts3, vt)
          | (Except.ok t3, ts3) =>
              if t3 = none ∨ t3 = some (Token.Symbol '=') then
                match expressionF n ts3 vt with
                | none => none
                | some (Except.error e, ts4, v4) => some (Except.error e, ts4, v4)
                | some (Except.ok value, ts4, v4) => some (Except.ok value, ts4, v4.store label value)
              else
                some (Except.error (CalcError.expectedAssign label), ts3, vt)
    | (Except.ok _, ts2) => some (Except.error CalcError.expectedNameAfterLet, ts2, vt)) = _
  rw [hn1]
  show (if vt.contains lbl = true then
      some (Except.error (CalcError.alreadyDefined lbl), s2, vt)
    else
      match s2.next with
      | (Except.error e, ts3) => some (Except.error e, ts3, vt)
      | (Except.ok t3, ts3) =>
          if t3 = none ∨ t3 = some (Token.Symbol '=') then
            match expressionF n ts3 vt with
            | none => none
            | some (Except.error e, ts4, v4) => some (Except.error e, ts4, v4)
            | some (Except.ok value, ts4, v4) => some (Except.ok value, ts4, v4.store lbl value)
          else
            some (Except.error (CalcError.expectedAssign lbl), ts3, vt)) = _
  rw [if_neg (by simp [hc]), hn2]
  show (if o3 = none ∨ o3 = some (Token.Symbol '=') then
      match expressionF n s3 vt with
      | none => none
      | some (Except.error e, ts4, v4) => some (Except.error e, ts4, v4)
      | some (Except.ok value, ts4, v4) => some (Except.ok value, ts4, v4.store lbl value)
    else
      some (Except.error (CalcError.expectedAssign lbl), s3, vt)) = _
  rw [if_pos ho3, hex]

theorem statementF_assign {s s0 s2 s4 : TokenStream} {lbl : List Char}
    {v : ℚ} {vt4 : VarTable} (n : ℕ) (vt : VarTable)
    (hp : s.peek = (.ok (some (.Name lbl)), s0))
    (hn1 : ((s0.next).2).peek = (.ok (some (.Symbol '=')), s2))
    (hc : vt.contains lbl = true)
    (hex : expressionF n ((s2.next).2) vt = some (.ok v, s4, vt4)) :
    statementF (n + 1) s vt = some (.ok v, s4, vt4.store lbl v) := by
  rw [statementF_succ, hp]
  show (match ((s0.next).2).peek with
    | (Except.error e, ts2) => some (Except.error e, ts2, vt)
    | (Except.ok (some (Token.Symbol '=')), ts2) =>
        if vt.contains lbl = true then
          match expressionF n ((ts2.next).2) vt with
          | none => none
          | some (Except.error e, ts4, v4) => some (Except.error e, ts4, v4)
          | some (Except.ok value, ts4, v4) => some (Except.ok value, ts4, v4.store lbl value)
        else
          some (Except.error (CalcError.notDefinedUseLet lbl), (ts2.next).2, vt)
    | (Except.ok _, ts2) =>
        match vt.retrieve lbl with
        | some val => expressionF n (ts2.pushBack (Token.Number val)) vt
        | none => some (Except.error (CalcError.undefinedVariable lbl), ts2, vt)) = _
  rw [hn1]
  show (if vt.contains lbl = true then
      match expressionF n ((s2.next).2) vt with
      | none => none
      | some (Except.error e, ts4, v4) => some (Except.error e, ts4, v4)
      | some (Except.ok value, ts4, v4) => some (Except.ok value, ts4, v4.store lbl value)
    else
      some (Except.error (CalcError.notDefinedUseLet lbl), (s2.next).2, vt)) = _
  rw [if_pos hc, hex]

theorem statementF_name_ref {s s0 s2 : TokenStream} {lbl : List Char}
    {o : Option Token} {v : ℚ} (n : ℕ) (vt : VarTable)
    (hp : s.peek = (.ok (some (.Name lbl)), s0))
    (hn1 : ((s0.next).2).peek = (.ok o, s2))
    (ho : o ≠ some (.Symbol '='))
    (hr : vt.retrieve lbl = some v) :
    statementF (n + 1) s vt = expressionF n (s2.pushBack (Token.Number v)) vt := by
  rw [statementF_succ, hp]
  show (match ((s0.next).2).peek with
    | (Except.error e, ts2) => some (Except.error e, ts2, vt)
    | (Except.ok (some (Token.Symbol '=')), ts2) =>
        if vt.contains lbl = true then
          match expressionF n ((ts2.next).2) vt with
          | none => none
          | some (Except.error e, ts4, v4) => some (Except.error e, ts4, v4)
          | some (Except.ok value, ts4, v4) => some (Except.ok value, ts4, v4.store lbl value)
        else
          some (Except.error (CalcError.notDefinedUseLet lbl), (ts2.next).2, vt)
    | (Except.ok _, ts2) =>
        match vt.retrieve lbl with
        | some val => expressionF n (ts2.pushBack (Token.Number val)) vt
        | none => some (Except.error (CalcError.undefinedVariable lbl), ts2, vt)) = _
  rw [hn1]
  split
  · rename_i heq; cases heq
  · rename_i heq
    rw [Prod.mk.injEq, Except.ok.injEq] at heq
    exact absurd heq.1 ho
  · rename_i heq
    rw [Prod.mk.injEq, Except.ok.injEq] at heq
    obtain ⟨h1, h2⟩ := heq
    subst h2
    show (match vt.retrieve lbl with
      | some val => expressionF n (s2.pushBack (Token.Number val)) vt
      | none => some (Except.error (CalcError.undefinedVariable lbl), s2, vt)) = _
    rw [hr]

theorem statementF_name_undef {s s0 s2 : TokenStream} {lbl : List Char}
    {o : Option Token} (n : ℕ) (vt : VarTable)
    (hp : s.peek = (.ok (some (.Name lbl)), s0))
    (hn1 : ((s0.next).2).peek = (.ok o, s2))
    (ho : o ≠ some (.Symbol '='))
    (hr : vt.retrieve lbl = none) :
    statementF (n + 1) s vt = some (.error (.undefinedVariable lbl), s2, vt) := by
  rw [statementF_succ, hp]
  show (match ((s0.next).2).peek with
    | (Except.error e, ts2) => some (Except.error e, ts2, vt)
    | (Except.ok (some (Token.Symbol '=')), ts2) =>
        if vt.contains lbl = true then
          match expressionF n ((ts2.next).2) vt with
          | none => none
          | some (Except.error e, ts4, v4) => some (Except.error e, ts4, v4)
          | some (Except.ok value, ts4, v4) => some (Except.ok value, ts4, v4.store lbl value)
        else
          some (Except.error (CalcError.notDefinedUseLet lbl), (ts2.next).2, vt)
    | (Except.ok _, ts2) =>
        match vt.retrieve lbl with
        | some val => expressionF n (ts2.pushBack (Token.Number val)) vt
        | none => some (Except.error (CalcError.undefinedVariable lbl), ts2, vt)) = _
  rw [hn1]
  split
  · rename_i heq; cases heq
  · rename_i heq
    rw [Prod.mk.injEq, Except.ok.injEq] at heq
    exact absurd heq.1 ho
  · rename_i heq
    rw [Prod.mk.injEq, Except.ok.injEq] at heq
    obtain ⟨h1, h2⟩ := heq
    subst h2
    show (match vt.retrieve lbl with
      | some val => expressionF n (s2.pushBack (Token.Number val)) vt
      | none => some (Except.error (CalcError.undefinedVariable lbl), s2, vt)) = _
    rw [hr]


/-! ### Claim C9: statement evaluation is atomic on the variable table -/

/-- `expression`, `term`, `primary` and their operator loops never write
the variable table (they only `retrieve`): the returned table is the
input table. -/
theorem parser_vt_eq : ∀ fuel : ℕ,
    (∀ ts vt r ts' vt', expressionF fuel ts vt = some (r, ts', vt') → vt' = vt)
    ∧ (∀ v ts vt r ts' vt', expressionAuxF fuel v ts vt = some (r, ts', vt') → vt' = vt)
    ∧ (∀ ts vt r ts' vt', termF fuel ts vt = some (r, ts', vt') → vt' = vt)
    ∧ (∀ v ts vt r ts' vt', termAuxF fuel v ts vt = some (r, ts', vt') → vt' = vt)
    ∧ (∀ ts vt r ts' vt', primaryF fuel ts vt = some (r, ts', vt') → vt' = vt) := by
  intro fuel
  induction fuel with
  | zero =>
      refine ⟨?_, ?_, ?_, ?_, ?_⟩ <;> intros <;>
        simp_all [expressionF, expressionAuxF, termF, termAuxF, primaryF]
  | succ n ih =>
      obtain ⟨ihE, ihEA, ihT, ihTA, ihP⟩ := ih
      refine ⟨?_, ?_, ?_, ?_, ?_⟩
      · intro ts vt r ts' vt' h
        rw [expressionF_succ] at h
        split at h
        · cases h
        · rename_i heq
          cases h
          exact ihT _ _ _ _ _ heq
        · rename_i heq
          exact (ihEA _ _ _ _ _ _ h).trans (ihT _ _ _ _ _ heq)
      · intro v ts vt r ts' vt' h
        rw [expressionAuxF_succ] at h
        split at h
        · cases h; rfl
        · split at h
          · cases h; rfl
          · split at h
            · cases h
            · rename_i heq
              cases h
              exact ihT _ _ _ _ _ heq
            · rename_i heq
              exact (ihEA _ _ _ _ _ _ h).trans (ihT _ _ _ _ _ heq)
        · split at h
          · cases h; rfl
          · split at h
            · cases h
            · rename_i heq
              cases h
              exact ihT _ _ _ _ _ heq
            · rename_i heq
              exact (ihEA _ _ _ _ _ _ h).trans (ihT _ _ _ _ _ heq)
        · cases h; rfl
      · intro ts vt r ts' vt' h
        rw [termF_succ] at h
        split at h
        · cases h
        · rename_i heq
          cases h
          exact ihP _ _ _ _ _ heq
        · rename_i heq
          exact (ihTA _ _ _ _ _ _ h).trans (ihP _ _ _ _ _ heq)
      · intro v ts vt r ts' vt' h
        rw [termAuxF_succ] at h
        split at h
        · cases h; rfl
        · split at h
          · cases h; rfl
          · split at h
            · cases h
            · rename_i heq
              cases h
              exact ihP _ _ _ _ _ heq
            · rename_i heq
              exact (ihTA _ _ _ _ _ _ h).trans (ihP _ _ _ _ _ heq)
        · split at h
          · cases h; rfl
          · split at h
            · cases h
            · rename_i heq
              cases h
              exact ihP _ _ _ _ _ heq
            · rename_i heq
              exact (ihTA _ _ _ _ _ _ h).trans (ihP _ _ _ _ _ heq)
        · cases h; rfl
      · intro ts vt r ts' vt' h
        rw [primaryF_succ] at h
        split at h
        · cases h; rfl
        · cases h; rfl
        · split at h
          · cases h
          · rename_i heq
            cases h
            exact ihE _ _ _ _ _ heq
          · rename_i heq
            split at h
            · cases h; exact ihE _ _ _ _ _ heq
            · cases h; exact ihE _ _ _ _ _ heq
            · cases h; exact ihE _ _ _ _ _ heq
        · split at h
          · cases h
          · rename_i heq
            cases h
            exact ihP _ _ _ _ _ heq
          · rename_i heq
            cases h
            exact ihP _ _ _ _ _ heq
        · split at h
          · cases h
          · rename_i heq
            cases h
            exact ihP _ _ _ _ _ heq
          · rename_i heq
            cases h
            exact ihP _ _ _ _ _ heq
        · split at h
          · cases h; rfl
          · cases h; rfl
        · cases h; rfl

/-- Claim C9: if `statement` returns an error — lexical, syntactic or
semantic, including a failure while evaluating the right-hand side of a
`let` or an assignment — the variable table after the call equals the
table before it: `store` is only reached after every check and the full
right-hand side evaluation succeed. -/
theorem C9_statement_error_preserves_table (fuel : ℕ) (ts : TokenStream) (vt : VarTable)
    (e : CalcError) (ts' : TokenStream) (vt' : VarTable)
    (h : statementF fuel ts vt = some (.error e, ts', vt')) : vt' = vt := by
  cases fuel with
  | zero => cases h
  | succ n =>
  obtain ⟨ihE, _, _, _, _⟩ := parser_vt_eq n
  rw [statementF_succ] at h
  try simp only [] at h
  repeat' split at h
  all_goals
    first
    | exact ihE _ _ _ _ _ h
    | (cases h; rfl)
    | (cases h; done)
    | (rename_i heq; cases h; exact ihE _ _ _ _ _ heq)

/-- Witness for C9: `let x = 5` with `x` already defined fails with
`AlreadyDefined` and returns the untouched table. -/
theorem C9_statement_error_preserves_table_witness :
    statementF 9 (TokenStream.new ['l', 'e', 't', ' ', 'x', ' ', '=', ' ', '5']) ⟨[⟨['x'], 5⟩]⟩
      = some (.error (.alreadyDefined ['x']),
          ⟨['l', 'e', 't', ' ', 'x', ' ', '=', ' ', '5'], 5, []⟩, ⟨[⟨['x'], 5⟩]⟩)
    ∧ (⟨[⟨['x'], 5⟩]⟩ : VarTable) = ⟨[⟨['x'], 5⟩]⟩ :=
  ⟨by decide,
    C9_statement_error_preserves_table 9
      (TokenStream.new ['l', 'e', 't', ' ', 'x', ' ', '=', ' ', '5'])
      ⟨[⟨['x'], 5⟩]⟩ (.alreadyDefined ['x'])
      ⟨['l', 'e', 't', ' ', 'x', ' ', '=', ' ', '5'], 5, []⟩
      ⟨[⟨['x'], 5⟩]⟩ (by decide)⟩



/-! ### Concrete driver runs for claims C1, C4, C5 and C6 -/

theorem runC1a :
    evaluate ['5', ' ', '+', ' ', '3'] ⟨[]⟩ = some ([EvaluationResult.Number 8], ⟨[]⟩) := by
  show evalLoopF 36 ⟨['5', ' ', '+', ' ', '3'], 0, []⟩ none ⟨[]⟩ [] = _
  have hstmt : statementF 35 ⟨['5', ' ', '+', ' ', '3'], 1, [(Token.Number 5)]⟩ ⟨[]⟩ = some (Except.ok 8, ⟨['5', ' ', '+', ' ', '3'], 5, []⟩, ⟨[]⟩) := by
    rw [statementF_other 34 ⟨[]⟩ (by decide : TokenStream.peek ⟨['5', ' ', '+', ' ', '3'], 1, [(Token.Number 5)]⟩ = (Except.ok (some (Token.Number 5)), ⟨['5', ' ', '+', ' ', '3'], 1, [(Token.Number 5)]⟩)) (by decide) (by intro lbl h; cases h)]
    have htm2 : termF 33 ⟨['5', ' ', '+', ' ', '3'], 1, [(Token.Number 5)]⟩ ⟨[]⟩ = some (Except.ok 5, ⟨['5', ' ', '+', ' ', '3'], 3, [(Token.Symbol '+')]⟩, ⟨[]⟩) := by
      have hpr1 : primaryF 32 ⟨['5', ' ', '+', ' ', '3'], 1, [(Token.Number 5)]⟩ ⟨[]⟩ = some (Except.ok 5, ⟨['5', ' ', '+', ' ', '3'], 1, []⟩, ⟨[]⟩) := by
        exact primaryF_num 31 ⟨[]⟩ (by decide : TokenStream.next ⟨['5', ' ', '+', ' ', '3'], 1, [(Token.Number 5)]⟩ = (Except.ok (some (Token.Number 5)), ⟨['5', ' ', '+', ' ', '3'], 1, []⟩))
      rw [termF_step_ok 32 hpr1]
      exact termAuxF_stop_at 31 5 ⟨[]⟩ (some (Token.Symbol '+')) (by decide : TokenStream.peek ⟨['5', ' ', '+', ' ', '3'], 1, []⟩ = (Except.ok (some (Token.Symbol '+')), ⟨['5', ' ', '+', ' ', '3'], 3, [(Token.Symbol '+')]⟩)) (by decide) (by decide)
    rw [expressionF_step_ok 33 htm2]
    have htm4 : termF 32 ⟨['5', ' ', '+', ' ', '3'], 3, []⟩ ⟨[]⟩ = some (Except.ok 3, ⟨['5', ' ', '+', ' ', '3'], 5, []⟩, ⟨[]⟩) := by
      have hpr3 : primaryF 31 ⟨['5', ' ', '+', ' ', '3'], 3, []⟩ ⟨[]⟩ = some (Except.ok 3, ⟨['5', ' ', '+', ' ', '3'], 5, []⟩, ⟨[]⟩) := by
        exact primaryF_num 30 ⟨[]⟩ (by decide : TokenStream.next ⟨['5', ' ', '+', ' ', '3'], 3, []⟩ = (Except.ok (some (Token.Number 3)), ⟨['5', ' ', '+', ' ', '3'], 5, []⟩))
      rw [termF_step_ok 31 hpr3]
      exact termAuxF_stop_at 30 3 ⟨[]⟩ none (by decide : TokenStream.peek ⟨['5', ' ', '+', ' ', '3'], 5, []⟩ = (Except.ok none, ⟨['5', ' ', '+', ' ', '3'], 5, []⟩)) (by decide) (by decide)
    rw [exprAuxF_step_add 32 5 (by decide : TokenStream.peek ⟨['5', ' ', '+', ' ', '3'], 3, [(Token.Symbol '+')]⟩ = (Except.ok (some (Token.Symbol '+')), ⟨['5', ' ', '+', ' ', '3'], 3, [(Token.Symbol '+')]⟩)) (by decide : TokenStream.next ⟨['5', ' ', '+', ' ', '3'], 3, [(Token.Symbol '+')]⟩ = (Except.ok (some (Token.Symbol '+')), ⟨['5', ' ', '+', ' ', '3'], 3, []⟩)) htm4]
    rw [(by norm_num : (5 : ℚ) + 3 = 8)]
    exact exprAuxF_stop_at 31 8 ⟨[]⟩ none (by decide : TokenStream.peek ⟨['5', ' ', '+', ' ', '3'], 5, []⟩ = (Except.ok none, ⟨['5', ' ', '+', ' ', '3'], 5, []⟩)) (by decide) (by decide)
  rw [evalLoopF_step_stmt_ok 35 none [] (by decide : TokenStream.peek ⟨['5', ' ', '+', ' ', '3'], 0, []⟩ = (Except.ok (some (Token.Number 5)), ⟨['5', ' ', '+', ' ', '3'], 1, [(Token.Number 5)]⟩)) (by decide) (by decide) (by decide) hstmt]
  clear hstmt
  show evalLoopF 35 ⟨['5', ' ', '+', ' ', '3'], 5, []⟩ none ⟨[]⟩ [EvaluationResult.Number 8] = _
  rw [evalLoopF_step_eos 34 none ⟨[]⟩ [EvaluationResult.Number 8] (by decide : TokenStream.peek ⟨['5', ' ', '+', ' ', '3'], 5, []⟩ = (Except.ok none, ⟨['5', ' ', '+', ' ', '3'], 5, []⟩))]

theorem runC1b :
    evaluate ['5', ' ', '+', ' ', '3', ' ', '*', ' ', '2'] ⟨[]⟩ = some ([EvaluationResult.Number 11], ⟨[]⟩) := by
  show evalLoopF 60 ⟨['5', ' ', '+', ' ', '3', ' ', '*', ' ', '2'], 0, []⟩ none ⟨[]⟩ [] = _
  have hstmt : statementF 59 ⟨['5', ' ', '+', ' ', '3', ' ', '*', ' ', '2'], 1, [(Token.Number 5)]⟩ ⟨[]⟩ = some (Except.ok 11, ⟨['5', ' ', '+', ' ', '3', ' ', '*', ' ', '2'], 9, []⟩, ⟨[]⟩) := by
    rw [statementF_other 58 ⟨[]⟩ (by decide : TokenStream.peek ⟨['5', ' ', '+', ' ', '3', ' ', '*', ' ', '2'], 1, [(Token.Number 5)]⟩ = (Except.ok (some (Token.Number 5)), ⟨['5', ' ', '+', ' ', '3', ' ', '*', ' ', '2'], 1, [(Token.Number 5)]⟩)) (by decide) (by intro lbl h; cases h)]
    have htm2 : termF 57 ⟨['5', ' ', '+', ' ', '3', ' ', '*', ' ', '2'], 1, [(Token.Number 5)]⟩ ⟨[]⟩ = some (Except.ok 5, ⟨['5', ' ', '+', ' ', '3', ' ', '*', ' ', '2'], 3, [(Token.Symbol '+')]⟩, ⟨[]⟩) := by
      have hpr1 : primaryF 56 ⟨['5', ' ', '+', ' ', '3', ' ', '*', ' ', '2'], 1, [(Token.Number 5)]⟩ ⟨[]⟩ = some (Except.ok 5, ⟨['5', ' ', '+', ' ', '3', ' ', '*', ' ', '2'], 1, []⟩, ⟨[]⟩) := by
        exact primaryF_num 55 ⟨[]⟩ (by decide : TokenStream.next ⟨['5', ' ', '+', ' ', '3', ' ', '*', ' ', '2'], 1, [(Token.Number 5)]⟩ = (Except.ok (some (Token.Number 5)), ⟨['5', ' ', '+', ' ', '3', ' ', '*', ' ', '2'], 1, []⟩))
      rw [termF_step_ok 56 hpr1]
      exact termAuxF_stop_at 55 5 ⟨[]⟩ (some (Token.Symbol '+')) (by decide : TokenStream.peek ⟨['5', ' ', '+', ' ', '3', ' ', '*', ' ', '2'], 1, []⟩ = (Except.ok (some (Token.Symbol '+')), ⟨['5', ' ', '+', ' ', '3', ' ', '*', ' ', '2'], 3, [(Token.Symbol '+')]⟩)) (by decide) (by decide)
    rw [expressionF_step_ok 57 htm2]
    have htm5 : termF 56 ⟨['5', ' ', '+', ' ', '3', ' ', '*', ' ', '2'], 3, []⟩ ⟨[]⟩ = some (Except.ok 6, ⟨['5', ' ', '+', ' ', '3', ' ', '*', ' ', '2'], 9, []⟩, ⟨[]⟩) := by
      have hpr3 : primaryF 55 ⟨['5', ' ', '+', ' ', '3', ' ', '*', ' ', '2'], 3, []⟩ ⟨[]⟩ = some (Except.ok 3, ⟨['5', ' ', '+', ' ', '3', ' ', '*', ' ', '2'], 5, []⟩, ⟨[]⟩) := by
        exact primaryF_num 54 ⟨[]⟩ (by decide : TokenStream.next ⟨['5', ' ', '+', ' ', '3', ' ', '*', ' ', '2'], 3, []⟩ = (Except.ok (some (Token.Number 3)), ⟨['5', ' ', '+', ' ', '3', ' ', '*', ' ', '2'], 5, []⟩))
      rw [termF_step_ok 55 hpr3]
      have hpr4 : primaryF 54 ⟨['5', ' ', '+', ' ', '3', ' ', '*', ' ', '2'], 7, []⟩ ⟨[]⟩ = some (Except.ok 2, ⟨['5', ' ', '+', ' ', '3', ' ', '*', ' ', '2'], 9, []⟩, ⟨[]⟩) := by
        exact primaryF_num 53 ⟨[]⟩ (by decide : TokenStream.next ⟨['5', ' ', '+', ' ', '3', ' ', '*', ' ', '2'], 7, []⟩ = (Except.ok (some (Token.Number 2)), ⟨['5', ' ', '+', ' ', '3', ' ', '*', ' ', '2'], 9, []⟩))
      rw [termAuxF_step_mul 54 3 (by decide : TokenStream.peek ⟨['5', ' ', '+', ' ', '3', ' ', '*', ' ', '2'], 5, []⟩ = (Except.ok (some (Token.Symbol '*')), ⟨['5', ' ', '+', ' ', '3', ' ', '*', ' ', '2'], 7, [(Token.Symbol '*')]⟩)) (by decide : TokenStream.next ⟨['5', ' ', '+', ' ', '3', ' ', '*', ' ', '2'], 7, [(Token.Symbol '*')]⟩ = (Except.ok (some (Token.Symbol '*')), ⟨['5', ' ', '+', ' ', '3', ' ', '*', ' ', '2'], 7, []⟩)) hpr4]
      rw [(by norm_num : (3 : ℚ) * 2 = 6)]
      exact termAuxF_stop_at 53 6 ⟨[]⟩ none (by decide : TokenStream.peek ⟨['5', ' ', '+', ' ', '3', ' ', '*', ' ', '2'], 9, []⟩ = (Except.ok none, ⟨['5', ' ', '+', ' ', '3', ' ', '*', ' ', '2'], 9, []⟩)) (by decide) (by decide)
    rw [exprAuxF_step_add 56 5 (by decide : TokenStream.peek ⟨['5', ' ', '+', ' ', '3', ' ', '*', ' ', '2'], 3, [(Token.Symbol '+')]⟩ = (Except.ok (some (Token.Symbol '+')), ⟨['5', ' ', '+', ' ', '3', ' ', '*', ' ', '2'], 3, [(Token.Symbol '+')]⟩)) (by decide : TokenStream.next ⟨['5', ' ', '+', ' ', '3', ' ', '*', ' ', '2'], 3, [(Token.Symbol '+')]⟩ = (Except.ok (some (Token.Symbol '+')), ⟨['5', ' ', '+', ' ', '3', ' ', '*', ' ', '2'], 3, []⟩)) htm5]
    rw [(by norm_num : (5 : ℚ) + 6 = 11)]
    exact exprAuxF_stop_at 55 11 ⟨[]⟩ none (by decide : TokenStream.peek ⟨['5', ' ', '+', ' ', '3', ' ', '*', ' ', '2'], 9, []⟩ = (Except.ok none, ⟨['5', ' ', '+', ' ', '3', ' ', '*', ' ', '2'], 9, []⟩)) (by decide) (by decide)
  rw [evalLoopF_step_stmt_ok 59 none [] (by decide : TokenStream.peek ⟨['5', ' ', '+', ' ', '3', ' ', '*', ' ', '2'], 0, []⟩ = (Except.ok (some (Token.Number 5)), ⟨['5', ' ', '+', ' ', '3', ' ', '*', ' ', '2'], 1, [(Token.Number 5)]⟩)) (by decide) (by decide) (by decide) hstmt]
  clear hstmt
  show evalLoopF 59 ⟨['5', ' ', '+', ' ', '3', ' ', '*', ' ', '2'], 9, []⟩ none ⟨[]⟩ [EvaluationResult.Number 11] = _
  rw [evalLoopF_step_eos 58 none ⟨[]⟩ [EvaluationResult.Number 11] (by decide : TokenStream.peek ⟨['5', ' ', '+', ' ', '3', ' ', '*', ' ', '2'], 9, []⟩ = (Except.ok none, ⟨['5', ' ', '+', ' ', '3', ' ', '*', ' ', '2'], 9, []⟩))]

theorem runC1c :
    evaluate ['(', '5', ' ', '+', ' ', '3', ')', ' ', '*', ' ', '2'] ⟨[]⟩ = some ([EvaluationResult.Number 16], ⟨[]⟩) := by
  show evalLoopF 72 ⟨['(', '5', ' ', '+', ' ', '3', ')', ' ', '*', ' ', '2'], 0, []⟩ none ⟨[]⟩ [] = _
  have hstmt : statementF 71 ⟨['(', '5', ' ', '+', ' ', '3', ')', ' ', '*', ' ', '2'], 1, [(Token.Symbol '(')]⟩ ⟨[]⟩ = some (Except.ok 16, ⟨['(', '5', ' ', '+', ' ', '3', ')', ' ', '*', ' ', '2'], 11, []⟩, ⟨[]⟩) := by
    rw [statementF_other 70 ⟨[]⟩ (by decide : TokenStream.peek ⟨['(', '5', ' ', '+', ' ', '3', ')', ' ', '*', ' ', '2'], 1, [(Token.Symbol '(')]⟩ = (Except.ok (some (Token.Symbol '(')), ⟨['(', '5', ' ', '+', ' ', '3', ')', ' ', '*', ' ', '2'], 1, [(Token.Symbol '(')]⟩)) (by decide) (by intro lbl h; cases h)]
    have htm8 : termF 69 ⟨['(', '5', ' ', '+', ' ', '3', ')', ' ', '*', ' ', '2'], 1, [(Token.Symbol '(')]⟩ ⟨[]⟩ = some (Except.ok 16, ⟨['(', '5', ' ', '+', ' ', '3', ')', ' ', '*', ' ', '2'], 11, []⟩, ⟨[]⟩) := by
      have hpr6 : primaryF 68 ⟨['(', '5', ' ', '+', ' ', '3', ')', ' ', '*', ' ', '2'], 1, [(Token.Symbol '(')]⟩ ⟨[]⟩ = some (Except.ok 8, ⟨['(', '5', ' ', '+', ' ', '3', ')', ' ', '*', ' ', '2'], 7, []⟩, ⟨[]⟩) := by
        have hex5 : expressionF 67 ⟨['(', '5', ' ', '+', ' ', '3', ')', ' ', '*', ' ', '2'], 1, []⟩ ⟨[]⟩ = some (Except.ok 8, ⟨['(', '5', ' ', '+', ' ', '3', ')', ' ', '*', ' ', '2'], 7, [(Token.Symbol ')')]⟩, ⟨[]⟩) := by
          have htm2 : termF 66 ⟨['(', '5', ' ', '+', ' ', '3', ')', ' ', '*', ' ', '2'], 1, []⟩ ⟨[]⟩ = some (Except.ok 5, ⟨['(', '5', ' ', '+', ' ', '3', ')', ' ', '*', ' ', '2'], 4, [(Token.Symbol '+')]⟩, ⟨[]⟩) := by
            have hpr1 : primaryF 65 ⟨['(', '5', ' ', '+', ' ', '3', ')', ' ', '*', ' ', '2'], 1, []⟩ ⟨[]⟩ = some (Except.ok 5, ⟨['(', '5', ' ', '+', ' ', '3', ')', ' ', '*', ' ', '2'], 2, []⟩, ⟨[]⟩) := by
              exact primaryF_num 64 ⟨[]⟩ (by decide : TokenStream.next ⟨['(', '5', ' ', '+', ' ', '3', ')', ' ', '*', ' ', '2'], 1, []⟩ = (Except.ok (some (Token.Number 5)), ⟨['(', '5', ' ', '+', ' ', '3', ')', ' ', '*', ' ', '2'], 2, []⟩))
            rw [termF_step_ok 65 hpr1]
            exact termAuxF_stop_at 64 5 ⟨[]⟩ (some (Token.Symbol '+')) (by decide : TokenStream.peek ⟨['(', '5', ' ', '+', ' ', '3', ')', ' ', '*', ' ', '2'], 2, []⟩ = (Except.ok (some (Token.Symbol '+')), ⟨['(', '5', ' ', '+', ' ', '3', ')', ' ', '*', ' ', '2'], 4, [(Token.Symbol '+')]⟩)) (by decide) (by decide)
          rw [expressionF_step_ok 66 htm2]
          have htm4 : termF 65 ⟨['(', '5', ' ', '+', ' ', '3', ')', ' ', '*', ' ', '2'], 4, []⟩ ⟨[]⟩ = some (Except.ok 3, ⟨['(', '5', ' ', '+', ' ', '3', ')', ' ', '*', ' ', '2'], 7, [(Token.Symbol ')')]⟩, ⟨[]⟩) := by
            have hpr3 : primaryF 64 ⟨['(', '5', ' ', '+', ' ', '3', ')', ' ', '*', ' ', '2'], 4, []⟩ ⟨[]⟩ = some (Except.ok 3, ⟨['(', '5', ' ', '+', ' ', '3', ')', ' ', '*', ' ', '2'], 6, []⟩, ⟨[]⟩) := by
              exact primaryF_num 63 ⟨[]⟩ (by decide : TokenStream.next ⟨['(', '5', ' ', '+', ' ', '3', ')', ' ', '*', ' ', '2'], 4, []⟩ = (Except.ok (some (Token.Number 3)), ⟨['(', '5', ' ', '+', ' ', '3', ')', ' ', '*', ' ', '2'], 6, []⟩))
            rw [termF_step_ok 64 hpr3]
            exact termAuxF_stop_at 63 3 ⟨[]⟩ (some (Token.Symbol ')')) (by decide : TokenStream.peek ⟨['(', '5', ' ', '+', ' ', '3', ')', ' ', '*', ' ', '2'], 6, []⟩ = (Except.ok (some (Token.Symbol ')')), ⟨['(', '5', ' ', '+', ' ', '3', ')', ' ', '*', ' ', '2'], 7, [(Token.Symbol ')')]⟩)) (by decide) (by decide)
          rw [exprAuxF_step_add 65 5 (by decide : TokenStream.peek ⟨['(', '5', ' ', '+', ' ', '3', ')', ' ', '*', ' ', '2'], 4, [(Token.Symbol '+')]⟩ = (Except.ok (some (Token.Symbol '+')), ⟨['(', '5', ' ', '+', ' ', '3', ')', ' ', '*', ' ', '2'], 4, [(Token.Symbol '+')]⟩)) (by decide : TokenStream.next ⟨['(', '5', ' ', '+', ' ', '3', ')', ' ', '*', ' ', '2'], 4, [(Token.Symbol '+')]⟩ = (Except.ok (some (Token.Symbol '+')), ⟨['(', '5', ' ', '+', ' ', '3', ')', ' ', '*', ' ', '2'], 4, []⟩)) htm4]
          rw [(by norm_num : (5 : ℚ) + 3 = 8)]
          exact exprAuxF_stop_at 64 8 ⟨[]⟩ (some (Token.Symbol ')')) (by decide : TokenStream.peek ⟨['(', '5', ' ', '+', ' ', '3', ')', ' ', '*', ' ', '2'], 7, [(Token.Symbol ')')]⟩ = (Except.ok (some (Token.Symbol ')')), ⟨['(', '5', ' ', '+', ' ', '3', ')', ' ', '*', ' ', '2'], 7, [(Token.Symbol ')')]⟩)) (by decide) (by decide)
        exact primaryF_paren 67 (by decide : TokenStream.next ⟨['(', '5', ' ', '+', ' ', '3', ')', ' ', '*', ' ', '2'], 1, [(Token.Symbol '(')]⟩ = (Except.ok (some (Token.Symbol '(')), ⟨['(', '5', ' ', '+', ' ', '3', ')', ' ', '*', ' ', '2'], 1, []⟩)) hex5 (by decide : TokenStream.next ⟨['(', '5', ' ', '+', ' ', '3', ')', ' ', '*', ' ', '2'], 7, [(Token.Symbol ')')]⟩ = (Except.ok (some (Token.Symbol ')')), ⟨['(', '5', ' ', '+', ' ', '3', ')', ' ', '*', ' ', '2'], 7, []⟩))
      rw [termF_step_ok 68 hpr6]
      have hpr7 : primaryF 67 ⟨['(', '5', ' ', '+', ' ', '3', ')', ' ', '*', ' ', '2'], 9, []⟩ ⟨[]⟩ = some (Except.ok 2, ⟨['(', '5', ' ', '+', ' ', '3', ')', ' ', '*', ' ', '2'], 11, []⟩, ⟨[]⟩) := by
        exact primaryF_num 66 ⟨[]⟩ (by decide : TokenStream.next ⟨['(', '5', ' ', '+', ' ', '3', ')', ' ', '*', ' ', '2'], 9, []⟩ = (Except.ok (some (Token.Number 2)), ⟨['(', '5', ' ', '+', ' ', '3', ')', ' ', '*', ' ', '2'], 11, []⟩))
      rw [termAuxF_step_mul 67 8 (by decide : TokenStream.peek ⟨['(', '5', ' ', '+', ' ', '3', ')', ' ', '*', ' ', '2'], 7, []⟩ = (Except.ok (some (Token.Symbol '*')), ⟨['(', '5', ' ', '+', ' ', '3', ')', ' ', '*', ' ', '2'], 9, [(Token.Symbol '*')]⟩)) (by decide : TokenStream.next ⟨['(', '5', ' ', '+', ' ', '3', ')', ' ', '*', ' ', '2'], 9, [(Token.Symbol '*')]⟩ = (Except.ok (some (Token.Symbol '*')), ⟨['(', '5', ' ', '+', ' ', '3', ')', ' ', '*', ' ', '2'], 9, []⟩)) hpr7]
      rw [(by norm_num : (8 : ℚ) * 2 = 16)]
      exact termAuxF_stop_at 66 16 ⟨[]⟩ none (by decide : TokenStream.peek ⟨['(', '5', ' ', '+', ' ', '3', ')', ' ', '*', ' ', '2'], 11, []⟩ = (Except.ok none, ⟨['(', '5', ' ', '+', ' ', '3', ')', ' ', '*', ' ', '2'], 11, []⟩)) (by decide) (by decide)
    rw [expressionF_step_ok 69 htm8]
    exact exprAuxF_stop_at 68 16 ⟨[]⟩ none (by decide : TokenStream.peek ⟨['(', '5', ' ', '+', ' ', '3', ')', ' ', '*', ' ', '2'], 11, []⟩ = (Except.ok none, ⟨['(', '5', ' ', '+', ' ', '3', ')', ' ', '*', ' ', '2'], 11, []⟩)) (by decide) (by decide)
  rw [evalLoopF_step_stmt_ok 71 none [] (by decide : TokenStream.peek ⟨['(', '5', ' ', '+', ' ', '3', ')', ' ', '*', ' ', '2'], 0, []⟩ = (Except.ok (some (Token.Symbol '(')), ⟨['(', '5', ' ', '+', ' ', '3', ')', ' ', '*', ' ', '2'], 1, [(Token.Symbol '(')]⟩)) (by decide) (by decide) (by decide) hstmt]
  clear hstmt
  show evalLoopF 71 ⟨['(', '5', ' ', '+', ' ', '3', ')', ' ', '*', ' ', '2'], 11, []⟩ none ⟨[]⟩ [EvaluationResult.Number 16] = _
  rw [evalLoopF_step_eos 70 none ⟨[]⟩ [EvaluationResult.Number 16] (by decide : TokenStream.peek ⟨['(', '5', ' ', '+', ' ', '3', ')', ' ', '*', ' ', '2'], 11, []⟩ = (Except.ok none, ⟨['(', '5', ' ', '+', ' ', '3', ')', ' ', '*', ' ', '2'], 11, []⟩))]

theorem runC1d :
    evaluate ['2', ' ', '+', ' ', '3', ' ', '*', ' ', '4', ' ', '-', ' ', '5', ' ', '/', ' ', '2'] ⟨[]⟩ = some ([EvaluationResult.Number (23 / 2)], ⟨[]⟩) := by
  show evalLoopF 108 ⟨['2', ' ', '+', ' ', '3', ' ', '*', ' ', '4', ' ', '-', ' ', '5', ' ', '/', ' ', '2'], 0, []⟩ none ⟨[]⟩ [] = _
  have hstmt : statementF 107 ⟨['2', ' ', '+', ' ', '3', ' ', '*', ' ', '4', ' ', '-', ' ', '5', ' ', '/', ' ', '2'], 1, [(Token.Number 2)]⟩ ⟨[]⟩ = some (Except.ok (23 / 2), ⟨['2', ' ', '+', ' ', '3', ' ', '*', ' ', '4', ' ', '-', ' ', '5', ' ', '/', ' ', '2'], 17, []⟩, ⟨[]⟩) := by
    rw [statementF_other 106 ⟨[]⟩ (by decide : TokenStream.peek ⟨['2', ' ', '+', ' ', '3', ' ', '*', ' ', '4', ' ', '-', ' ', '5', ' ', '/', ' ', '2'], 1, [(Token.Number 2)]⟩ = (Except.ok (some (Token.Number 2)), ⟨['2', ' ', '+', ' ', '3', ' ', '*', ' ', '4', ' ', '-', ' ', '5', ' ', '/', ' ', '2'], 1, [(Token.Number 2)]⟩)) (by decide) (by intro lbl h; cases h)]
    have htm2 : termF 105 ⟨['2', ' ', '+', ' ', '3', ' ', '*', ' ', '4', ' ', '-', ' ', '5', ' ', '/', ' ', '2'], 1, [(Token.Number 2)]⟩ ⟨[]⟩ = some (Except.ok 2, ⟨['2', ' ', '+', ' ', '3', ' ', '*', ' ', '4', ' ', '-', ' ', '5', ' ', '/', ' ', '2'], 3, [(Token.Symbol '+')]⟩, ⟨[]⟩) := by
      have hpr1 : primaryF 104 ⟨['2', ' ', '+', ' ', '3', ' ', '*', ' ', '4', ' ', '-', ' ', '5', ' ', '/', ' ', '2'], 1, [(Token.Number 2)]⟩ ⟨[]⟩ = some (Except.ok 2, ⟨['2', ' ', '+', ' ', '3', ' ', '*', ' ', '4', ' ', '-', ' ', '5', ' ', '/', ' ', '2'], 1, []⟩, ⟨[]⟩) := by
        exact primaryF_num 103 ⟨[]⟩ (by decide : TokenStream.next ⟨['2', ' ', '+', ' ', '3', ' ', '*', ' ', '4', ' ', '-', ' ', '5', ' ', '/', ' ', '2'], 1, [(Token.Number 2)]⟩ = (Except.ok (some (Token.Number 2)), ⟨['2', ' ', '+', ' ', '3', ' ', '*', ' ', '4', ' ', '-', ' ', '5', ' ', '/', ' ', '2'], 1, []⟩))
      rw [termF_step_ok 104 hpr1]
      exact termAuxF_stop_at 103 2 ⟨[]⟩ (some (Token.Symbol '+')) (by decide : TokenStream.peek ⟨['2', ' ', '+', ' ', '3', ' ', '*', ' ', '4', ' ', '-', ' ', '5', ' ', '/', ' ', '2'], 1, []⟩ = (Except.ok (some (Token.Symbol '+')), ⟨['2', ' ', '+', ' ', '3', ' ', '*', ' ', '4', ' ', '-', ' ', '5', ' ', '/', ' ', '2'], 3, [(Token.Symbol '+')]⟩)) (by decide) (by decide)
    rw [expressionF_step_ok 105 htm2]
    have htm5 : termF 104 ⟨['2', ' ', '+', ' ', '3', ' ', '*', ' ', '4', ' ', '-', ' ', '5', ' ', '/', ' ', '2'], 3, []⟩ ⟨[]⟩ = some (Except.ok 12, ⟨['2', ' ', '+', ' ', '3', ' ', '*', ' ', '4', ' ', '-', ' ', '5', ' ', '/', ' ', '2'], 11, [(Token.Symbol '-')]⟩, ⟨[]⟩) := by
      have hpr3 : primaryF 103 ⟨['2', ' ', '+', ' ', '3', ' ', '*', ' ', '4', ' ', '-', ' ', '5', ' ', '/', ' ', '2'], 3, []⟩ ⟨[]⟩ = some (Except.ok 3, ⟨['2', ' ', '+', ' ', '3', ' ', '*', ' ', '4', ' ', '-', ' ', '5', ' ', '/', ' ', '2'], 5, []⟩, ⟨[]⟩) := by
        exact primaryF_num 102 ⟨[]⟩ (by decide : TokenStream.next ⟨['2', ' ', '+', ' ', '3', ' ', '*', ' ', '4', ' ', '-', ' ', '5', ' ', '/', ' ', '2'], 3, []⟩ = (Except.ok (some (Token.Number 3)), ⟨['2', ' ', '+', ' ', '3', ' ', '*', ' ', '4', ' ', '-', ' ', '5', ' ', '/', ' ', '2'], 5, []⟩))
      rw [termF_step_ok 103 hpr3]
      have hpr4 : primaryF 102 ⟨['2', ' ', '+', ' ', '3', ' ', '*', ' ', '4', ' ', '-', ' ', '5', ' ', '/', ' ', '2'], 7, []⟩ ⟨[]⟩ = some (Except.ok 4, ⟨['2', ' ', '+', ' ', '3', ' ', '*', ' ', '4', ' ', '-', ' ', '5', ' ', '/', ' ', '2'], 9, []⟩, ⟨[]⟩) := by
        exact primaryF_num 101 ⟨[]⟩ (by decide : TokenStream.next ⟨['2', ' ', '+', ' ', '3', ' ', '*', ' ', '4', ' ', '-', ' ', '5', ' ', '/', ' ', '2'], 7, []⟩ = (Except.ok (some (Token.Number 4)), ⟨['2', ' ', '+', ' ', '3', ' ', '*', ' ', '4', ' ', '-', ' ', '5', ' ', '/', ' ', '2'], 9, []⟩))
      rw [termAuxF_step_mul 102 3 (by decide : TokenStream.peek ⟨['2', ' ', '+', ' ', '3', ' ', '*', ' ', '4', ' ', '-', ' ', '5', ' ', '/', ' ', '2'], 5, []⟩ = (Except.ok (some (Token.Symbol '*')), ⟨['2', ' ', '+', ' ', '3', ' ', '*', ' ', '4', ' ', '-', ' ', '5', ' ', '/', ' ', '2'], 7, [(Token.Symbol '*')]⟩)) (by decide : TokenStream.next ⟨['2', ' ', '+', ' ', '3', ' ', '*', ' ', '4', ' ', '-', ' ', '5', ' ', '/', ' ', '2'], 7, [(Token.Symbol '*')]⟩ = (Except.ok (some (Token.Symbol '*')), ⟨['2', ' ', '+', ' ', '3', ' ', '*', ' ', '4', ' ', '-', ' ', '5', ' ', '/', ' ', '2'], 7, []⟩)) hpr4]
      rw [(by norm_num : (3 : ℚ) * 4 = 12)]
      exact termAuxF_stop_at 101 12 ⟨[]⟩ (some (Token.Symbol '-')) (by decide : TokenStream.peek ⟨['2', ' ', '+', ' ', '3', ' ', '*', ' ', '4', ' ', '-', ' ', '5', ' ', '/', ' ', '2'], 9, []⟩ = (Except.ok (some (Token.Symbol '-')), ⟨['2', ' ', '+', ' ', '3', ' ', '*', ' ', '4', ' ', '-', ' ', '5', ' ', '/', ' ', '2'], 11, [(Token.Symbol '-')]⟩)) (by decide) (by decide)
    rw [exprAuxF_step_add 104 2 (by decide : TokenStream.peek ⟨['2', ' ', '+', ' ', '3', ' ', '*', ' ', '4', ' ', '-', ' ', '5', ' ', '/', ' ', '2'], 3, [(Token.Symbol '+')]⟩ = (Except.ok (some (Token.Symbol '+')), ⟨['2', ' ', '+', ' ', '3', ' ', '*', ' ', '4', ' ', '-', ' ', '5', ' ', '/', ' ', '2'], 3, [(Token.Symbol '+')]⟩)) (by decide : TokenStream.next ⟨['2', ' ', '+', ' ', '3', ' ', '*', ' ', '4', ' ', '-', ' ', '5', ' ', '/', ' ', '2'], 3, [(Token.Symbol '+')]⟩ = (Except.ok (some (Token.Symbol '+')), ⟨['2', ' ', '+', ' ', '3', ' ', '*', ' ', '4', ' ', '-', ' ', '5', ' ', '/', ' ', '2'], 3, []⟩)) htm5]
    rw [(by norm_num : (2 : ℚ) + 12 = 14)]
    have htm8 : termF 103 ⟨['2', ' ', '+', ' ', '3', ' ', '*', ' ', '4', ' ', '-', ' ', '5', ' ', '/', ' ', '2'], 11, []⟩ ⟨[]⟩ = some (Except.ok (5 / 2), ⟨['2', ' ', '+', ' ', '3', ' ', '*', ' ', '4', ' ', '-', ' ', '5', ' ', '/', ' ', '2'], 17, []⟩, ⟨[]⟩) := by
      have hpr6 : primaryF 102 ⟨['2', ' ', '+', ' ', '3', ' ', '*', ' ', '4', ' ', '-', ' ', '5', ' ', '/', ' ', '2'], 11, []⟩ ⟨[]⟩ = some (Except.ok 5, ⟨['2', ' ', '+', ' ', '3', ' ', '*', ' ', '4', ' ', '-', ' ', '5', ' ', '/', ' ', '2'], 13, []⟩, ⟨[]⟩) := by
        exact primaryF_num 101 ⟨[]⟩ (by decide : TokenStream.next ⟨['2', ' ', '+', ' ', '3', ' ', '*', ' ', '4', ' ', '-', ' ', '5', ' ', '/', ' ', '2'], 11, []⟩ = (Except.ok (some (Token.Number 5)), ⟨['2', ' ', '+', ' ', '3', ' ', '*', ' ', '4', ' ', '-', ' ', '5', ' ', '/', ' ', '2'], 13, []⟩))
      rw [termF_step_ok 102 hpr6]
      have hpr7 : primaryF 101 ⟨['2', ' ', '+', ' ', '3', ' ', '*', ' ', '4', ' ', '-', ' ', '5', ' ', '/', ' ', '2'], 15, []⟩ ⟨[]⟩ = some (Except.ok 2, ⟨['2', ' ', '+', ' ', '3', ' ', '*', ' ', '4', ' ', '-', ' ', '5', ' ', '/', ' ', '2'], 17, []⟩, ⟨[]⟩) := by
        exact primaryF_num 100 ⟨[]⟩ (by decide : TokenStream.next ⟨['2', ' ', '+', ' ', '3', ' ', '*', ' ', '4', ' ', '-', ' ', '5', ' ', '/', ' ', '2'], 15, []⟩ = (Except.ok (some (Token.Number 2)), ⟨['2', ' ', '+', ' ', '3', ' ', '*', ' ', '4', ' ', '-', ' ', '5', ' ', '/', ' ', '2'], 17, []⟩))
      rw [termAuxF_step_div 101 5 (by decide : TokenStream.peek ⟨['2', ' ', '+', ' ', '3', ' ', '*', ' ', '4', ' ', '-', ' ', '5', ' ', '/', ' ', '2'], 13, []⟩ = (Except.ok (some (Token.Symbol '/')), ⟨['2', ' ', '+', ' ', '3', ' ', '*', ' ', '4', ' ', '-', ' ', '5', ' ', '/', ' ', '2'], 15, [(Token.Symbol '/')]⟩)) (by decide : TokenStream.next ⟨['2', ' ', '+', ' ', '3', ' ', '*', ' ', '4', ' ', '-', ' ', '5', ' ', '/', ' ', '2'], 15, [(Token.Symbol '/')]⟩ = (Except.ok (some (Token.Symbol '/')), ⟨['2', ' ', '+', ' ', '3', ' ', '*', ' ', '4', ' ', '-', ' ', '5', ' ', '/', ' ', '2'], 15, []⟩)) hpr7]
      rw [(by norm_num : (5 : ℚ) / 2 = (5 / 2))]
      exact termAuxF_stop_at 100 (5 / 2) ⟨[]⟩ none (by decide : TokenStream.peek ⟨['2', ' ', '+', ' ', '3', ' ', '*', ' ', '4', ' ', '-', ' ', '5', ' ', '/', ' ', '2'], 17, []⟩ = (Except.ok none, ⟨['2', ' ', '+', ' ', '3', ' ', '*', ' ', '4', ' ', '-', ' ', '5', ' ', '/', ' ', '2'], 17, []⟩)) (by decide) (by decide)
    rw [exprAuxF_step_sub 103 14 (by decide : TokenStream.peek ⟨['2', ' ', '+', ' ', '3', ' ', '*', ' ', '4', ' ', '-', ' ', '5', ' ', '/', ' ', '2'], 11, [(Token.Symbol '-')]⟩ = (Except.ok (some (Token.Symbol '-')), ⟨['2', ' ', '+', ' ', '3', ' ', '*', ' ', '4', ' ', '-', ' ', '5', ' ', '/', ' ', '2'], 11, [(Token.Symbol '-')]⟩)) (by decide : TokenStream.next ⟨['2', ' ', '+', ' ', '3', ' ', '*', ' ', '4', ' ', '-', ' ', '5', ' ', '/', ' ', '2'], 11, [(Token.Symbol '-')]⟩ = (Except.ok (some (Token.Symbol '-')), ⟨['2', ' ', '+', ' ', '3', ' ', '*', ' ', '4', ' ', '-', ' ', '5', ' ', '/', ' ', '2'], 11, []⟩)) htm8]
    rw [(by norm_num : (14 : ℚ) - (5 / 2) = (23 / 2))]
    exact exprAuxF_stop_at 102 (23 / 2) ⟨[]⟩ none (by decide : TokenStream.peek ⟨['2', ' ', '+', ' ', '3', ' ', '*', ' ', '4', ' ', '-', ' ', '5', ' ', '/', ' ', '2'], 17, []⟩ = (Except.ok none, ⟨['2', ' ', '+', ' ', '3', ' ', '*', ' ', '4', ' ', '-', ' ', '5', ' ', '/', ' ', '2'], 17, []⟩)) (by decide) (by decide)
  rw [evalLoopF_step_stmt_ok 107 none [] (by decide : TokenStream.peek ⟨['2', ' ', '+', ' ', '3', ' ', '*', ' ', '4', ' ', '-', ' ', '5', ' ', '/', ' ', '2'], 0, []⟩ = (Except.ok (some (Token.Number 2)), ⟨['2', ' ', '+', ' ', '3', ' ', '*', ' ', '4', ' ', '-', ' ', '5', ' ', '/', ' ', '2'], 1, [(Token.Number 2)]⟩)) (by decide) (by decide) (by decide) hstmt]
  clear hstmt
  show evalLoopF 107 ⟨['2', ' ', '+', ' ', '3', ' ', '*', ' ', '4', ' ', '-', ' ', '5', ' ', '/', ' ', '2'], 17, []⟩ none ⟨[]⟩ [EvaluationResult.Number (23 / 2)] = _
  rw [evalLoopF_step_eos 106 none ⟨[]⟩ [EvaluationResult.Number (23 / 2)] (by decide : TokenStream.peek ⟨['2', ' ', '+', ' ', '3', ' ', '*', ' ', '4', ' ', '-', ' ', '5', ' ', '/', ' ', '2'], 17, []⟩ = (Except.ok none, ⟨['2', ' ', '+', ' ', '3', ' ', '*', ' ', '4', ' ', '-', ' ', '5', ' ', '/', ' ', '2'], 17, []⟩))]

theorem runC4a :
    evaluate ['l', 'e', 't', ' ', 'x', ' ', '=', ' ', '1', '0', ';', ' ', 'x', ' ', '+', ' ', '3'] ⟨[⟨['x'], 5⟩]⟩ = some ([EvaluationResult.Error (EvalError.evaluatingToken (Token.Let) (CalcError.alreadyDefined ['x'])), EvaluationResult.Number 8], ⟨[⟨['x'], 5⟩]⟩) := by
  show evalLoopF 108 ⟨['l', 'e', 't', ' ', 'x', ' ', '=', ' ', '1', '0', ';', ' ', 'x', ' ', '+', ' ', '3'], 0, []⟩ none ⟨[⟨['x'], 5⟩]⟩ [] = _
  have hstmt : statementF 107 ⟨['l', 'e', 't', ' ', 'x', ' ', '=', ' ', '1', '0', ';', ' ', 'x', ' ', '+', ' ', '3'], 3, [(Token.Let)]⟩ ⟨[⟨['x'], 5⟩]⟩ = some (Except.error (CalcError.alreadyDefined ['x']), ⟨['l', 'e', 't', ' ', 'x', ' ', '=', ' ', '1', '0', ';', ' ', 'x', ' ', '+', ' ', '3'], 5, []⟩, ⟨[⟨['x'], 5⟩]⟩) := by
    exact statementF_let_dup 106 ⟨[⟨['x'], 5⟩]⟩ (by decide : TokenStream.peek ⟨['l', 'e', 't', ' ', 'x', ' ', '=', ' ', '1', '0', ';', ' ', 'x', ' ', '+', ' ', '3'], 3, [(Token.Let)]⟩ = (Except.ok (some (Token.Let)), ⟨['l', 'e', 't', ' ', 'x', ' ', '=', ' ', '1', '0', ';', ' ', 'x', ' ', '+', ' ', '3'], 3, [(Token.Let)]⟩)) (by decide : TokenStream.next (TokenStream.next ⟨['l', 'e', 't', ' ', 'x', ' ', '=', ' ', '1', '0', ';', ' ', 'x', ' ', '+', ' ', '3'], 3, [(Token.Let)]⟩).2 = (Except.ok (some (Token.Name ['x'])), ⟨['l', 'e', 't', ' ', 'x', ' ', '=', ' ', '1', '0', ';', ' ', 'x', ' ', '+', ' ', '3'], 5, []⟩)) (by decide : VarTable.contains ⟨[⟨['x'], 5⟩]⟩ ['x'] = true)
  rw [evalLoopF_step_stmt_err 107 none [] (by decide : TokenStream.peek ⟨['l', 'e', 't', ' ', 'x', ' ', '=', ' ', '1', '0', ';', ' ', 'x', ' ', '+', ' ', '3'], 0, []⟩ = (Except.ok (some (Token.Let)), ⟨['l', 'e', 't', ' ', 'x', ' ', '=', ' ', '1', '0', ';', ' ', 'x', ' ', '+', ' ', '3'], 3, [(Token.Let)]⟩)) (by decide) (by decide) (by decide) hstmt]
  clear hstmt
  show evalLoopF 107 ⟨['l', 'e', 't', ' ', 'x', ' ', '=', ' ', '1', '0', ';', ' ', 'x', ' ', '+', ' ', '3'], 10, []⟩ none ⟨[⟨['x'], 5⟩]⟩ [EvaluationResult.Error (EvalError.evaluatingToken (Token.Let) (CalcError.alreadyDefined ['x']))] = _
  rw [evalLoopF_step_end 106 none ⟨[⟨['x'], 5⟩]⟩ [EvaluationResult.Error (EvalError.evaluatingToken (Token.Let) (CalcError.alreadyDefined ['x']))] (by decide : TokenStream.peek ⟨['l', 'e', 't', ' ', 'x', ' ', '=', ' ', '1', '0', ';', ' ', 'x', ' ', '+', ' ', '3'], 10, []⟩ = (Except.ok (some (Token.EndStatement)), ⟨['l', 'e', 't', ' ', 'x', ' ', '=', ' ', '1', '0', ';', ' ', 'x', ' ', '+', ' ', '3'], 11, [(Token.EndStatement)]⟩))]
  show evalLoopF 106 ⟨['l', 'e', 't', ' ', 'x', ' ', '=', ' ', '1', '0', ';', ' ', 'x', ' ', '+', ' ', '3'], 11, []⟩ none ⟨[⟨['x'], 5⟩]⟩ [EvaluationResult.Error (EvalError.evaluatingToken (Token.Let) (CalcError.alreadyDefined ['x']))] = _
  have hstmt : statementF 105 ⟨['l', 'e', 't', ' ', 'x', ' ', '=', ' ', '1', '0', ';', ' ', 'x', ' ', '+', ' ', '3'], 13, [(Token.Name ['x'])]⟩ ⟨[⟨['x'], 5⟩]⟩ = some (Except.ok 8, ⟨['l', 'e', 't', ' ', 'x', ' ', '=', ' ', '1', '0', ';', ' ', 'x', ' ', '+', ' ', '3'], 17, []⟩, ⟨[⟨['x'], 5⟩]⟩) := by
    rw [statementF_name_ref 104 ⟨[⟨['x'], 5⟩]⟩ (by decide : TokenStream.peek ⟨['l', 'e', 't', ' ', 'x', ' ', '=', ' ', '1', '0', ';', ' ', 'x', ' ', '+', ' ', '3'], 13, [(Token.Name ['x'])]⟩ = (Except.ok (some (Token.Name ['x'])), ⟨['l', 'e', 't', ' ', 'x', ' ', '=', ' ', '1', '0', ';', ' ', 'x', ' ', '+', ' ', '3'], 13, [(Token.Name ['x'])]⟩)) (by decide : TokenStream.peek (TokenStream.next ⟨['l', 'e', 't', ' ', 'x', ' ', '=', ' ', '1', '0', ';', ' ', 'x', ' ', '+', ' ', '3'], 13, [(Token.Name ['x'])]⟩).2 = (Except.ok (some (Token.Symbol '+')), ⟨['l', 'e', 't', ' ', 'x', ' ', '=', ' ', '1', '0', ';', ' ', 'x', ' ', '+', ' ', '3'], 15, [(Token.Symbol '+')]⟩)) (by decide) (by decide : VarTable.retrieve ⟨[⟨['x'], 5⟩]⟩ ['x'] = some 5)]
    show expressionF 104 ⟨['l', 'e', 't', ' ', 'x', ' ', '=', ' ', '1', '0', ';', ' ', 'x', ' ', '+', ' ', '3'], 15, [(Token.Number 5), (Token.Symbol '+')]⟩ ⟨[⟨['x'], 5⟩]⟩ = _
    have htm2 : termF 103 ⟨['l', 'e', 't', ' ', 'x', ' ', '=', ' ', '1', '0', ';', ' ', 'x', ' ', '+', ' ', '3'], 15, [(Token.Number 5), (Token.Symbol '+')]⟩ ⟨[⟨['x'], 5⟩]⟩ = some (Except.ok 5, ⟨['l', 'e', 't', ' ', 'x', ' ', '=', ' ', '1', '0', ';', ' ', 'x', ' ', '+', ' ', '3'], 15, [(Token.Symbol '+')]⟩, ⟨[⟨['x'], 5⟩]⟩) := by
      have hpr1 : primaryF 102 ⟨['l', 'e', 't', ' ', 'x', ' ', '=', ' ', '1', '0', ';', ' ', 'x', ' ', '+', ' ', '3'], 15, [(Token.Number 5), (Token.Symbol '+')]⟩ ⟨[⟨['x'], 5⟩]⟩ = some (Except.ok 5, ⟨['l', 'e', 't', ' ', 'x', ' ', '=', ' ', '1', '0', ';', ' ', 'x', ' ', '+', ' ', '3'], 15, [(Token.Symbol '+')]⟩, ⟨[⟨['x'], 5⟩]⟩) := by
        exact primaryF_num 101 ⟨[⟨['x'], 5⟩]⟩ (by decide : TokenStream.next ⟨['l', 'e', 't', ' ', 'x', ' ', '=', ' ', '1', '0', ';', ' ', 'x', ' ', '+', ' ', '3'], 15, [(Token.Number 5), (Token.Symbol '+')]⟩ = (Except.ok (some (Token.Number 5)), ⟨['l', 'e', 't', ' ', 'x', ' ', '=', ' ', '1', '0', ';', ' ', 'x', ' ', '+', ' ', '3'], 15, [(Token.Symbol '+')]⟩))
      rw [termF_step_ok 102 hpr1]
      exact termAuxF_stop_at 101 5 ⟨[⟨['x'], 5⟩]⟩ (some (Token.Symbol '+')) (by decide : TokenStream.peek ⟨['l', 'e', 't', ' ', 'x', ' ', '=', ' ', '1', '0', ';', ' ', 'x', ' ', '+', ' ', '3'], 15, [(Token.Symbol '+')]⟩ = (Except.ok (some (Token.Symbol '+')), ⟨['l', 'e', 't', ' ', 'x', ' ', '=', ' ', '1', '0', ';', ' ', 'x', ' ', '+', ' ', '3'], 15, [(Token.Symbol '+')]⟩)) (by decide) (by decide)
    rw [expressionF_step_ok 103 htm2]
    have htm4 : termF 102 ⟨['l', 'e', 't', ' ', 'x', ' ', '=', ' ', '1', '0', ';', ' ', 'x', ' ', '+', ' ', '3'], 15, []⟩ ⟨[⟨['x'], 5⟩]⟩ = some (Except.ok 3, ⟨['l', 'e', 't', ' ', 'x', ' ', '=', ' ', '1', '0', ';', ' ', 'x', ' ', '+', ' ', '3'], 17, []⟩, ⟨[⟨['x'], 5⟩]⟩) := by
      have hpr3 : primaryF 101 ⟨['l', 'e', 't', ' ', 'x', ' ', '=', ' ', '1', '0', ';', ' ', 'x', ' ', '+', ' ', '3'], 15, []⟩ ⟨[⟨['x'], 5⟩]⟩ = some (Except.ok 3, ⟨['l', 'e', 't', ' ', 'x', ' ', '=', ' ', '1', '0', ';', ' ', 'x', ' ', '+', ' ', '3'], 17, []⟩, ⟨[⟨['x'], 5⟩]⟩) := by
        exact primaryF_num 100 ⟨[⟨['x'], 5⟩]⟩ (by decide : TokenStream.next ⟨['l', 'e', 't', ' ', 'x', ' ', '=', ' ', '1', '0', ';', ' ', 'x', ' ', '+', ' ', '3'], 15, []⟩ = (Except.ok (some (Token.Number 3)), ⟨['l', 'e', 't', ' ', 'x', ' ', '=', ' ', '1', '0', ';', ' ', 'x', ' ', '+', ' ', '3'], 17, []⟩))
      rw [termF_step_ok 101 hpr3]
      exact termAuxF_stop_at 100 3 ⟨[⟨['x'], 5⟩]⟩ none (by decide : TokenStream.peek ⟨['l', 'e', 't', ' ', 'x', ' ', '=', ' ', '1', '0', ';', ' ', 'x', ' ', '+', ' ', '3'], 17, []⟩ = (Except.ok none, ⟨['l', 'e', 't', ' ', 'x', ' ', '=', ' ', '1', '0', ';', ' ', 'x', ' ', '+', ' ', '3'], 17, []⟩)) (by decide) (by decide)
    rw [exprAuxF_step_add 102 5 (by decide : TokenStream.peek ⟨['l', 'e', 't', ' ', 'x', ' ', '=', ' ', '1', '0', ';', ' ', 'x', ' ', '+', ' ', '3'], 15, [(Token.Symbol '+')]⟩ = (Except.ok (some (Token.Symbol '+')), ⟨['l', 'e', 't', ' ', 'x', ' ', '=', ' ', '1', '0', ';', ' ', 'x', ' ', '+', ' ', '3'], 15, [(Token.Symbol '+')]⟩)) (by decide : TokenStream.next ⟨['l', 'e', 't', ' ', 'x', ' ', '=', ' ', '1', '0', ';', ' ', 'x', ' ', '+', ' ', '3'], 15, [(Token.Symbol '+')]⟩ = (Except.ok (some (Token.Symbol '+')), ⟨['l', 'e', 't', ' ', 'x', ' ', '=', ' ', '1', '0', ';', ' ', 'x', ' ', '+', ' ', '3'], 15, []⟩)) htm4]
    rw [(by norm_num : (5 : ℚ) + 3 = 8)]
    exact exprAuxF_stop_at 101 8 ⟨[⟨['x'], 5⟩]⟩ none (by decide : TokenStream.peek ⟨['l', 'e', 't', ' ', 'x', ' ', '=', ' ', '1', '0', ';', ' ', 'x', ' ', '+', ' ', '3'], 17, []⟩ = (Except.ok none, ⟨['l', 'e', 't', ' ', 'x', ' ', '=', ' ', '1', '0', ';', ' ', 'x', ' ', '+', ' ', '3'], 17, []⟩)) (by decide) (by decide)
  rw [evalLoopF_step_stmt_ok 105 none [EvaluationResult.Error (EvalError.evaluatingToken (Token.Let) (CalcError.alreadyDefined ['x']))] (by decide : TokenStream.peek ⟨['l', 'e', 't', ' ', 'x', ' ', '=', ' ', '1', '0', ';', ' ', 'x', ' ', '+', ' ', '3'], 11, []⟩ = (Except.ok (some (Token.Name ['x'])), ⟨['l', 'e', 't', ' ', 'x', ' ', '=', ' ', '1', '0', ';', ' ', 'x', ' ', '+', ' ', '3'], 13, [(Token.Name ['x'])]⟩)) (by decide) (by decide) (by decide) hstmt]
  clear hstmt
  show evalLoopF 105 ⟨['l', 'e', 't', ' ', 'x', ' ', '=', ' ', '1', '0', ';', ' ', 'x', ' ', '+', ' ', '3'], 17, []⟩ none ⟨[⟨['x'], 5⟩]⟩ [EvaluationResult.Error (EvalError.evaluatingToken (Token.Let) (CalcError.alreadyDefined ['x'])), EvaluationResult.Number 8] = _
  rw [evalLoopF_step_eos 104 none ⟨[⟨['x'], 5⟩]⟩ [EvaluationResult.Error (EvalError.evaluatingToken (Token.Let) (CalcError.alreadyDefined ['x'])), EvaluationResult.Number 8] (by decide : TokenStream.peek ⟨['l', 'e', 't', ' ', 'x', ' ', '=', ' ', '1', '0', ';', ' ', 'x', ' ', '+', ' ', '3'], 17, []⟩ = (Except.ok none, ⟨['l', 'e', 't', ' ', 'x', ' ', '=', ' ', '1', '0', ';', ' ', 'x', ' ', '+', ' ', '3'], 17, []⟩))]

theorem runC4b :
    evaluate ['x', ' ', '=', ' ', '1', '0'] ⟨[⟨['x'], 5⟩]⟩ = some ([EvaluationResult.Number 10], ⟨[⟨['x'], 10⟩]⟩) := by
  show evalLoopF 42 ⟨['x', ' ', '=', ' ', '1', '0'], 0, []⟩ none ⟨[⟨['x'], 5⟩]⟩ [] = _
  have hstmt : statementF 41 ⟨['x', ' ', '=', ' ', '1', '0'], 1, [(Token.Name ['x'])]⟩ ⟨[⟨['x'], 5⟩]⟩ = some (Except.ok 10, ⟨['x', ' ', '=', ' ', '1', '0'], 6, []⟩, ⟨[⟨['x'], 10⟩]⟩) := by
    have hex3 : expressionF 40 ⟨['x', ' ', '=', ' ', '1', '0'], 3, []⟩ ⟨[⟨['x'], 5⟩]⟩ = some (Except.ok 10, ⟨['x', ' ', '=', ' ', '1', '0'], 6, []⟩, ⟨[⟨['x'], 5⟩]⟩) := by
      have htm2 : termF 39 ⟨['x', ' ', '=', ' ', '1', '0'], 3, []⟩ ⟨[⟨['x'], 5⟩]⟩ = some (Except.ok 10, ⟨['x', ' ', '=', ' ', '1', '0'], 6, []⟩, ⟨[⟨['x'], 5⟩]⟩) := by
        have hpr1 : primaryF 38 ⟨['x', ' ', '=', ' ', '1', '0'], 3, []⟩ ⟨[⟨['x'], 5⟩]⟩ = some (Except.ok 10, ⟨['x', ' ', '=', ' ', '1', '0'], 6, []⟩, ⟨[⟨['x'], 5⟩]⟩) := by
          exact primaryF_num 37 ⟨[⟨['x'], 5⟩]⟩ (by decide : TokenStream.next ⟨['x', ' ', '=', ' ', '1', '0'], 3, []⟩ = (Except.ok (some (Token.Number 10)), ⟨['x', ' ', '=', ' ', '1', '0'], 6, []⟩))
        rw [termF_step_ok 38 hpr1]
        exact termAuxF_stop_at 37 10 ⟨[⟨['x'], 5⟩]⟩ none (by decide : TokenStream.peek ⟨['x', ' ', '=', ' ', '1', '0'], 6, []⟩ = (Except.ok none, ⟨['x', ' ', '=', ' ', '1', '0'], 6, []⟩)) (by decide) (by decide)
      rw [expressionF_step_ok 39 htm2]
      exact exprAuxF_stop_at 38 10 ⟨[⟨['x'], 5⟩]⟩ none (by decide : TokenStream.peek ⟨['x', ' ', '=', ' ', '1', '0'], 6, []⟩ = (Except.ok none, ⟨['x', ' ', '=', ' ', '1', '0'], 6, []⟩)) (by decide) (by decide)
    exact (statementF_assign 40 ⟨[⟨['x'], 5⟩]⟩ (by decide : TokenStream.peek ⟨['x', ' ', '=', ' ', '1', '0'], 1, [(Token.Name ['x'])]⟩ = (Except.ok (some (Token.Name ['x'])), ⟨['x', ' ', '=', ' ', '1', '0'], 1, [(Token.Name ['x'])]⟩)) (by decide : TokenStream.peek (TokenStream.next ⟨['x', ' ', '=', ' ', '1', '0'], 1, [(Token.Name ['x'])]⟩).2 = (Except.ok (some (Token.Symbol '=')), ⟨['x', ' ', '=', ' ', '1', '0'], 3, [(Token.Symbol '=')]⟩)) (by decide : VarTable.contains ⟨[⟨['x'], 5⟩]⟩ ['x'] = true) hex3).trans (by decide)
  rw [evalLoopF_step_stmt_ok 41 none [] (by decide : TokenStream.peek ⟨['x', ' ', '=', ' ', '1', '0'], 0, []⟩ = (Except.ok (some (Token.Name ['x'])), ⟨['x', ' ', '=', ' ', '1', '0'], 1, [(Token.Name ['x'])]⟩)) (by decide) (by decide) (by decide) hstmt]
  clear hstmt
  show evalLoopF 41 ⟨['x', ' ', '=', ' ', '1', '0'], 6, []⟩ none ⟨[⟨['x'], 10⟩]⟩ [EvaluationResult.Number 10] = _
  rw [evalLoopF_step_eos 40 none ⟨[⟨['x'], 10⟩]⟩ [EvaluationResult.Number 10] (by decide : TokenStream.peek ⟨['x', ' ', '=', ' ', '1', '0'], 6, []⟩ = (Except.ok none, ⟨['x', ' ', '=', ' ', '1', '0'], 6, []⟩))]

theorem runC5 :
    evaluate ['l', 'e', 't', ' ', 'x', ' ', '=', ' ', '5', ';', ' ', 'x', '/', '-', '1', '0', ';', ' ', 'x', ' ', '=', ' ', '1', '0', ';', ' ', 'x', ' ', '+', ' ', '3'] ⟨[]⟩ = some ([EvaluationResult.Number 5, EvaluationResult.Number (-1 / 2), EvaluationResult.Number 10, EvaluationResult.Number 13], ⟨[⟨['x'], 10⟩]⟩) := by
  show evalLoopF 192 ⟨['l', 'e', 't', ' ', 'x', ' ', '=', ' ', '5', ';', ' ', 'x', '/', '-', '1', '0', ';', ' ', 'x', ' ', '=', ' ', '1', '0', ';', ' ', 'x', ' ', '+', ' ', '3'], 0, []⟩ none ⟨[]⟩ [] = _
  have hstmt : statementF 191 ⟨['l', 'e', 't', ' ', 'x', ' ', '=', ' ', '5', ';', ' ', 'x', '/', '-', '1', '0', ';', ' ', 'x', ' ', '=', ' ', '1', '0', ';', ' ', 'x', ' ', '+', ' ', '3'], 3, [(Token.Let)]⟩ ⟨[]⟩ = some (Except.ok 5, ⟨['l', 'e', 't', ' ', 'x', ' ', '=', ' ', '5', ';', ' ', 'x', '/', '-', '1', '0', ';', ' ', 'x', ' ', '=', ' ', '1', '0', ';', ' ', 'x', ' ', '+', ' ', '3'], 10, [(Token.EndStatement)]⟩, ⟨[⟨['x'], 5⟩]⟩) := by
    have hex3 : expressionF 190 ⟨['l', 'e', 't', ' ', 'x', ' ', '=', ' ', '5', ';', ' ', 'x', '/', '-', '1', '0', ';', ' ', 'x', ' ', '=', ' ', '1', '0', ';', ' ', 'x', ' ', '+', ' ', '3'], 7, []⟩ ⟨[]⟩ = some (Except.ok 5, ⟨['l', 'e', 't', ' ', 'x', ' ', '=', ' ', '5', ';', ' ', 'x', '/', '-', '1', '0', ';', ' ', 'x', ' ', '=', ' ', '1', '0', ';', ' ', 'x', ' ', '+', ' ', '3'], 10, [(Token.EndStatement)]⟩, ⟨[]⟩) := by
      have htm2 : termF 189 ⟨['l', 'e', 't', ' ', 'x', ' ', '=', ' ', '5', ';', ' ', 'x', '/', '-', '1', '0', ';', ' ', 'x', ' ', '=', ' ', '1', '0', ';', ' ', 'x', ' ', '+', ' ', '3'], 7, []⟩ ⟨[]⟩ = some (Except.ok 5, ⟨['l', 'e', 't', ' ', 'x', ' ', '=', ' ', '5', ';', ' ', 'x', '/', '-', '1', '0', ';', ' ', 'x', ' ', '=', ' ', '1', '0', ';', ' ', 'x', ' ', '+', ' ', '3'], 10, [(Token.EndStatement)]⟩, ⟨[]⟩) := by
        have hpr1 : primaryF 188 ⟨['l', 'e', 't', ' ', 'x', ' ', '=', ' ', '5', ';', ' ', 'x', '/', '-', '1', '0', ';', ' ', 'x', ' ', '=', ' ', '1', '0', ';', ' ', 'x', ' ', '+', ' ', '3'], 7, []⟩ ⟨[]⟩ = some (Except.ok 5, ⟨['l', 'e', 't', ' ', 'x', ' ', '=', ' ', '5', ';', ' ', 'x', '/', '-', '1', '0', ';', ' ', 'x', ' ', '=', ' ', '1', '0', ';', ' ', 'x', ' ', '+', ' ', '3'], 9, []⟩, ⟨[]⟩) := by
          exact primaryF_num 187 ⟨[]⟩ (by decide : TokenStream.next ⟨['l', 'e', 't', ' ', 'x', ' ', '=', ' ', '5', ';', ' ', 'x', '/', '-', '1', '0', ';', ' ', 'x', ' ', '=', ' ', '1', '0', ';', ' ', 'x', ' ', '+', ' ', '3'], 7, []⟩ = (Except.ok (some (Token.Number 5)), ⟨['l', 'e', 't', ' ', 'x', ' ', '=', ' ', '5', ';', ' ', 'x', '/', '-', '1', '0', ';', ' ', 'x', ' ', '=', ' ', '1', '0', ';', ' ', 'x', ' ', '+', ' ', '3'], 9, []⟩))
        rw [termF_step_ok 188 hpr1]
        exact termAuxF_stop_at 187 5 ⟨[]⟩ (some (Token.EndStatement)) (by decide : TokenStream.peek ⟨['l', 'e', 't', ' ', 'x', ' ', '=', ' ', '5', ';', ' ', 'x', '/', '-', '1', '0', ';', ' ', 'x', ' ', '=', ' ', '1', '0', ';', ' ', 'x', ' ', '+', ' ', '3'], 9, []⟩ = (Except.ok (some (Token.EndStatement)), ⟨['l', 'e', 't', ' ', 'x', ' ', '=', ' ', '5', ';', ' ', 'x', '/', '-', '1', '0', ';', ' ', 'x', ' ', '=', ' ', '1', '0', ';', ' ', 'x', ' ', '+', ' ', '3'], 10, [(Token.EndStatement)]⟩)) (by decide) (by decide)
      rw [expressionF_step_ok 189 htm2]
      exact exprAuxF_stop_at 188 5 ⟨[]⟩ (some (Token.EndStatement)) (by decide : TokenStream.peek ⟨['l', 'e', 't', ' ', 'x', ' ', '=', ' ', '5', ';', ' ', 'x', '/', '-', '1', '0', ';', ' ', 'x', ' ', '=', ' ', '1', '0', ';', ' ', 'x', ' ', '+', ' ', '3'], 10, [(Token.EndStatement)]⟩ = (Except.ok (some (Token.EndStatement)), ⟨['l', 'e', 't', ' ', 'x', ' ', '=', ' ', '5', ';', ' ', 'x', '/', '-', '1', '0', ';', ' ', 'x', ' ', '=', ' ', '1', '0', ';', ' ', 'x', ' ', '+', ' ', '3'], 10, [(Token.EndStatement)]⟩)) (by decide) (by decide)
    exact (statementF_let_new 190 ⟨[]⟩ (by decide : TokenStream.peek ⟨['l', 'e', 't', ' ', 'x', ' ', '=', ' ', '5', ';', ' ', 'x', '/', '-', '1', '0', ';', ' ', 'x', ' ', '=', ' ', '1', '0', ';', ' ', 'x', ' ', '+', ' ', '3'], 3, [(Token.Let)]⟩ = (Except.ok (some (Token.Let)), ⟨['l', 'e', 't', ' ', 'x', ' ', '=', ' ', '5', ';', ' ', 'x', '/', '-', '1', '0', ';', ' ', 'x', ' ', '=', ' ', '1', '0', ';', ' ', 'x', ' ', '+', ' ', '3'], 3, [(Token.Let)]⟩)) (by decide : TokenStream.next (TokenStream.next ⟨['l', 'e', 't', ' ', 'x', ' ', '=', ' ', '5', ';', ' ', 'x', '/', '-', '1', '0', ';', ' ', 'x', ' ', '=', ' ', '1', '0', ';', ' ', 'x', ' ', '+', ' ', '3'], 3, [(Token.Let)]⟩).2 = (Except.ok (some (Token.Name ['x'])), ⟨['l', 'e', 't', ' ', 'x', ' ', '=', ' ', '5', ';', ' ', 'x', '/', '-', '1', '0', ';', ' ', 'x', ' ', '=', ' ', '1', '0', ';', ' ', 'x', ' ', '+', ' ', '3'], 5, []⟩)) (by decide : VarTable.contains ⟨[]⟩ ['x'] = false) (by decide : TokenStream.next ⟨['l', 'e', 't', ' ', 'x', ' ', '=', ' ', '5', ';', ' ', 'x', '/', '-', '1', '0', ';', ' ', 'x', ' ', '=', ' ', '1', '0', ';', ' ', 'x', ' ', '+', ' ', '3'], 5, []⟩ = (Except.ok (some (Token.Symbol '=')), ⟨['l', 'e', 't', ' ', 'x', ' ', '=', ' ', '5', ';', ' ', 'x', '/', '-', '1', '0', ';', ' ', 'x', ' ', '=', ' ', '1', '0', ';', ' ', 'x', ' ', '+', ' ', '3'], 7, []⟩)) (Or.inr rfl) hex3).trans (by decide)
  rw [evalLoopF_step_stmt_ok 191 none [] (by decide : TokenStream.peek ⟨['l', 'e', 't', ' ', 'x', ' ', '=', ' ', '5', ';', ' ', 'x', '/', '-', '1', '0', ';', ' ', 'x', ' ', '=', ' ', '1', '0', ';', ' ', 'x', ' ', '+', ' ', '3'], 0, []⟩ = (Except.ok (some (Token.Let)), ⟨['l', 'e', 't', ' ', 'x', ' ', '=', ' ', '5', ';', ' ', 'x', '/', '-', '1', '0', ';', ' ', 'x', ' ', '=', ' ', '1', '0', ';', ' ', 'x', ' ', '+', ' ', '3'], 3, [(Token.Let)]⟩)) (by decide) (by decide) (by decide) hstmt]
  clear hstmt
  show evalLoopF 191 ⟨['l', 'e', 't', ' ', 'x', ' ', '=', ' ', '5', ';', ' ', 'x', '/', '-', '1', '0', ';', ' ', 'x', ' ', '=', ' ', '1', '0', ';', ' ', 'x', ' ', '+', ' ', '3'], 10, [(Token.EndStatement)]⟩ none ⟨[⟨['x'], 5⟩]⟩ [EvaluationResult.Number 5] = _
  rw [evalLoopF_step_end 190 none ⟨[⟨['x'], 5⟩]⟩ [EvaluationResult.Number 5] (by decide : TokenStream.peek ⟨['l', 'e', 't', ' ', 'x', ' ', '=', ' ', '5', ';', ' ', 'x', '/', '-', '1', '0', ';', ' ', 'x', ' ', '=', ' ', '1', '0', ';', ' ', 'x', ' ', '+', ' ', '3'], 10, [(Token.EndStatement)]⟩ = (Except.ok (some (Token.EndStatement)), ⟨['l', 'e', 't', ' ', 'x', ' ', '=', ' ', '5', ';', ' ', 'x', '/', '-', '1', '0', ';', ' ', 'x', ' ', '=', ' ', '1', '0', ';', ' ', 'x', ' ', '+', ' ', '3'], 10, [(Token.EndStatement)]⟩))]
  show evalLoopF 190 ⟨['l', 'e', 't', ' ', 'x', ' ', '=', ' ', '5', ';', ' ', 'x', '/', '-', '1', '0', ';', ' ', 'x', ' ', '=', ' ', '1', '0', ';', ' ', 'x', ' ', '+', ' ', '3'], 10, []⟩ none ⟨[⟨['x'], 5⟩]⟩ [EvaluationResult.Number 5] = _
  have hstmt : statementF 189 ⟨['l', 'e', 't', ' ', 'x', ' ', '=', ' ', '5', ';', ' ', 'x', '/', '-', '1', '0', ';', ' ', 'x', ' ', '=', ' ', '1', '0', ';', ' ', 'x', ' ', '+', ' ', '3'], 12, [(Token.Name ['x'])]⟩ ⟨[⟨['x'], 5⟩]⟩ = some (Except.ok (-1 / 2), ⟨['l', 'e', 't', ' ', 'x', ' ', '=', ' ', '5', ';', ' ', 'x', '/', '-', '1', '0', ';', ' ', 'x', ' ', '=', ' ', '1', '0', ';', ' ', 'x', ' ', '+', ' ', '3'], 17, [(Token.EndStatement)]⟩, ⟨[⟨['x'], 5⟩]⟩) := by
    rw [statementF_name_ref 188 ⟨[⟨['x'], 5⟩]⟩ (by decide : TokenStream.peek ⟨['l', 'e', 't', ' ', 'x', ' ', '=', ' ', '5', ';', ' ', 'x', '/', '-', '1', '0', ';', ' ', 'x', ' ', '=', ' ', '1', '0', ';', ' ', 'x', ' ', '+', ' ', '3'], 12, [(Token.Name ['x'])]⟩ = (Except.ok (some (Token.Name ['x'])), ⟨['l', 'e', 't', ' ', 'x', ' ', '=', ' ', '5', ';', ' ', 'x', '/', '-', '1', '0', ';', ' ', 'x', ' ', '=', ' ', '1', '0', ';', ' ', 'x', ' ', '+', ' ', '3'], 12, [(Token.Name ['x'])]⟩)) (by decide : TokenStream.peek (TokenStream.next ⟨['l', 'e', 't', ' ', 'x', ' ', '=', ' ', '5', ';', ' ', 'x', '/', '-', '1', '0', ';', ' ', 'x', ' ', '=', ' ', '1', '0', ';', ' ', 'x', ' ', '+', ' ', '3'], 12, [(Token.Name ['x'])]⟩).2 = (Except.ok (some (Token.Symbol '/')), ⟨['l', 'e', 't', ' ', 'x', ' ', '=', ' ', '5', ';', ' ', 'x', '/', '-', '1', '0', ';', ' ', 'x', ' ', '=', ' ', '1', '0', ';', ' ', 'x', ' ', '+', ' ', '3'], 13, [(Token.Symbol '/')]⟩)) (by decide) (by decide : VarTable.retrieve ⟨[⟨['x'], 5⟩]⟩ ['x'] = some 5)]
    show expressionF 188 ⟨['l', 'e', 't', ' ', 'x', ' ', '=', ' ', '5', ';', ' ', 'x', '/', '-', '1', '0', ';', ' ', 'x', ' ', '=', ' ', '1', '0', ';', ' ', 'x', ' ', '+', ' ', '3'], 13, [(Token.Number 5), (Token.Symbol '/')]⟩ ⟨[⟨['x'], 5⟩]⟩ = _
    have htm4 : termF 187 ⟨['l', 'e', 't', ' ', 'x', ' ', '=', ' ', '5', ';', ' ', 'x', '/', '-', '1', '0', ';', ' ', 'x', ' ', '=', ' ', '1', '0', ';', ' ', 'x', ' ', '+', ' ', '3'], 13, [(Token.Number 5), (Token.Symbol '/')]⟩ ⟨[⟨['x'], 5⟩]⟩ = some (Except.ok (-1 / 2), ⟨['l', 'e', 't', ' ', 'x', ' ', '=', ' ', '5', ';', ' ', 'x', '/', '-', '1', '0', ';', ' ', 'x', ' ', '=', ' ', '1', '0', ';', ' ', 'x', ' ', '+', ' ', '3'], 17, [(Token.EndStatement)]⟩, ⟨[⟨['x'], 5⟩]⟩) := by
      have hpr1 : primaryF 186 ⟨['l', 'e', 't', ' ', 'x', ' ', '=', ' ', '5', ';', ' ', 'x', '/', '-', '1', '0', ';', ' ', 'x', ' ', '=', ' ', '1', '0', ';', ' ', 'x', ' ', '+', ' ', '3'], 13, [(Token.Number 5), (Token.Symbol '/')]⟩ ⟨[⟨['x'], 5⟩]⟩ = some (Except.ok 5, ⟨['l', 'e', 't', ' ', 'x', ' ', '=', ' ', '5', ';', ' ', 'x', '/', '-', '1', '0', ';', ' ', 'x', ' ', '=', ' ', '1', '0', ';', ' ', 'x', ' ', '+', ' ', '3'], 13, [(Token.Symbol '/')]⟩, ⟨[⟨['x'], 5⟩]⟩) := by
        exact primaryF_num 185 ⟨[⟨['x'], 5⟩]⟩ (by decide : TokenStream.next ⟨['l', 'e', 't', ' ', 'x', ' ', '=', ' ', '5', ';', ' ', 'x', '/', '-', '1', '0', ';', ' ', 'x', ' ', '=', ' ', '1', '0', ';', ' ', 'x', ' ', '+', ' ', '3'], 13, [(Token.Number 5), (Token.Symbol '/')]⟩ = (Except.ok (some (Token.Number 5)), ⟨['l', 'e', 't', ' ', 'x', ' ', '=', ' ', '5', ';', ' ', 'x', '/', '-', '1', '0', ';', ' ', 'x', ' ', '=', ' ', '1', '0', ';', ' ', 'x', ' ', '+', ' ', '3'], 13, [(Token.Symbol '/')]⟩))
      rw [termF_step_ok 186 hpr1]
      have hpr3 : primaryF 185 ⟨['l', 'e', 't', ' ', 'x', ' ', '=', ' ', '5', ';', ' ', 'x', '/', '-', '1', '0', ';', ' ', 'x', ' ', '=', ' ', '1', '0', ';', ' ', 'x', ' ', '+', ' ', '3'], 13, []⟩ ⟨[⟨['x'], 5⟩]⟩ = some (Except.ok (-10), ⟨['l', 'e', 't', ' ', 'x', ' ', '=', ' ', '5', ';', ' ', 'x', '/', '-', '1', '0', ';', ' ', 'x', ' ', '=', ' ', '1', '0', ';', ' ', 'x', ' ', '+', ' ', '3'], 16, []⟩, ⟨[⟨['x'], 5⟩]⟩) := by
        have hpr2 : primaryF 184 ⟨['l', 'e', 't', ' ', 'x', ' ', '=', ' ', '5', ';', ' ', 'x', '/', '-', '1', '0', ';', ' ', 'x', ' ', '=', ' ', '1', '0', ';', ' ', 'x', ' ', '+', ' ', '3'], 14, []⟩ ⟨[⟨['x'], 5⟩]⟩ = some (Except.ok 10, ⟨['l', 'e', 't', ' ', 'x', ' ', '=', ' ', '5', ';', ' ', 'x', '/', '-', '1', '0', ';', ' ', 'x', ' ', '=', ' ', '1', '0', ';', ' ', 'x', ' ', '+', ' ', '3'], 16, []⟩, ⟨[⟨['x'], 5⟩]⟩) := by
          exact primaryF_num 183 ⟨[⟨['x'], 5⟩]⟩ (by decide : TokenStream.next ⟨['l', 'e', 't', ' ', 'x', ' ', '=', ' ', '5', ';', ' ', 'x', '/', '-', '1', '0', ';', ' ', 'x', ' ', '=', ' ', '1', '0', ';', ' ', 'x', ' ', '+', ' ', '3'], 14, []⟩ = (Except.ok (some (Token.Number 10)), ⟨['l', 'e', 't', ' ', 'x', ' ', '=', ' ', '5', ';', ' ', 'x', '/', '-', '1', '0', ';', ' ', 'x', ' ', '=', ' ', '1', '0', ';', ' ', 'x', ' ', '+', ' ', '3'], 16, []⟩))
        exact (primaryF_neg 184 (by decide : TokenStream.next ⟨['l', 'e', 't', ' ', 'x', ' ', '=', ' ', '5', ';', ' ', 'x', '/', '-', '1', '0', ';', ' ', 'x', ' ', '=', ' ', '1', '0', ';', ' ', 'x', ' ', '+', ' ', '3'], 13, []⟩ = (Except.ok (some (Token.Symbol '-')), ⟨['l', 'e', 't', ' ', 'x', ' ', '=', ' ', '5', ';', ' ', 'x', '/', '-', '1', '0', ';', ' ', 'x', ' ', '=', ' ', '1', '0', ';', ' ', 'x', ' ', '+', ' ', '3'], 14, []⟩)) hpr2).trans (by norm_num)
      rw [termAuxF_step_div 185 5 (by decide : TokenStream.peek ⟨['l', 'e', 't', ' ', 'x', ' ', '=', ' ', '5', ';', ' ', 'x', '/', '-', '1', '0', ';', ' ', 'x', ' ', '=', ' ', '1', '0', ';', ' ', 'x', ' ', '+', ' ', '3'], 13, [(Token.Symbol '/')]⟩ = (Except.ok (some (Token.Symbol '/')), ⟨['l', 'e', 't', ' ', 'x', ' ', '=', ' ', '5', ';', ' ', 'x', '/', '-', '1', '0', ';', ' ', 'x', ' ', '=', ' ', '1', '0', ';', ' ', 'x', ' ', '+', ' ', '3'], 13, [(Token.Symbol '/')]⟩)) (by decide : TokenStream.next ⟨['l', 'e', 't', ' ', 'x', ' ', '=', ' ', '5', ';', ' ', 'x', '/', '-', '1', '0', ';', ' ', 'x', ' ', '=', ' ', '1', '0', ';', ' ', 'x', ' ', '+', ' ', '3'], 13, [(Token.Symbol '/')]⟩ = (Except.ok (some (Token.Symbol '/')), ⟨['l', 'e', 't', ' ', 'x', ' ', '=', ' ', '5', ';', ' ', 'x', '/', '-', '1', '0', ';', ' ', 'x', ' ', '=', ' ', '1', '0', ';', ' ', 'x', ' ', '+', ' ', '3'], 13, []⟩)) hpr3]
      rw [(by norm_num : (5 : ℚ) / (-10) = (-1 / 2))]
      exact termAuxF_stop_at 184 (-1 / 2) ⟨[⟨['x'], 5⟩]⟩ (some (Token.EndStatement)) (by decide : TokenStream.peek ⟨['l', 'e', 't', ' ', 'x', ' ', '=', ' ', '5', ';', ' ', 'x', '/', '-', '1', '0', ';', ' ', 'x', ' ', '=', ' ', '1', '0', ';', ' ', 'x', ' ', '+', ' ', '3'], 16, []⟩ = (Except.ok (some (Token.EndStatement)), ⟨['l', 'e', 't', ' ', 'x', ' ', '=', ' ', '5', ';', ' ', 'x', '/', '-', '1', '0', ';', ' ', 'x', ' ', '=', ' ', '1', '0', ';', ' ', 'x', ' ', '+', ' ', '3'], 17, [(Token.EndStatement)]⟩)) (by decide) (by decide)
    rw [expressionF_step_ok 187 htm4]
    exact exprAuxF_stop_at 186 (-1 / 2) ⟨[⟨['x'], 5⟩]⟩ (some (Token.EndStatement)) (by decide : TokenStream.peek ⟨['l', 'e', 't', ' ', 'x', ' ', '=', ' ', '5', ';', ' ', 'x', '/', '-', '1', '0', ';', ' ', 'x', ' ', '=', ' ', '1', '0', ';', ' ', 'x', ' ', '+', ' ', '3'], 17, [(Token.EndStatement)]⟩ = (Except.ok (some (Token.EndStatement)), ⟨['l', 'e', 't', ' ', 'x', ' ', '=', ' ', '5', ';', ' ', 'x', '/', '-', '1', '0', ';', ' ', 'x', ' ', '=', ' ', '1', '0', ';', ' ', 'x', ' ', '+', ' ', '3'], 17, [(Token.EndStatement)]⟩)) (by decide) (by decide)
  rw [evalLoopF_step_stmt_ok 189 none [EvaluationResult.Number 5] (by decide : TokenStream.peek ⟨['l', 'e', 't', ' ', 'x', ' ', '=', ' ', '5', ';', ' ', 'x', '/', '-', '1', '0', ';', ' ', 'x', ' ', '=', ' ', '1', '0', ';', ' ', 'x', ' ', '+', ' ', '3'], 10, []⟩ = (Except.ok (some (Token.Name ['x'])), ⟨['l', 'e', 't', ' ', 'x', ' ', '=', ' ', '5', ';', ' ', 'x', '/', '-', '1', '0', ';', ' ', 'x', ' ', '=', ' ', '1', '0', ';', ' ', 'x', ' ', '+', ' ', '3'], 12, [(Token.Name ['x'])]⟩)) (by decide) (by decide) (by decide) hstmt]
  clear hstmt
  show evalLoopF 189 ⟨['l', 'e', 't', ' ', 'x', ' ', '=', ' ', '5', ';', ' ', 'x', '/', '-', '1', '0', ';', ' ', 'x', ' ', '=', ' ', '1', '0', ';', ' ', 'x', ' ', '+', ' ', '3'], 17, [(Token.EndStatement)]⟩ none ⟨[⟨['x'], 5⟩]⟩ [EvaluationResult.Number 5, EvaluationResult.Number (-1 / 2)] = _
  rw [evalLoopF_step_end 188 none ⟨[⟨['x'], 5⟩]⟩ [EvaluationResult.Number 5, EvaluationResult.Number (-1 / 2)] (by decide : TokenStream.peek ⟨['l', 'e', 't', ' ', 'x', ' ', '=', ' ', '5', ';', ' ', 'x', '/', '-', '1', '0', ';', ' ', 'x', ' ', '=', ' ', '1', '0', ';', ' ', 'x', ' ', '+', ' ', '3'], 17, [(Token.EndStatement)]⟩ = (Except.ok (some (Token.EndStatement)), ⟨['l', 'e', 't', ' ', 'x', ' ', '=', ' ', '5', ';', ' ', 'x', '/', '-', '1', '0', ';', ' ', 'x', ' ', '=', ' ', '1', '0', ';', ' ', 'x', ' ', '+', ' ', '3'], 17, [(Token.EndStatement)]⟩))]
  show evalLoopF 188 ⟨['l', 'e', 't', ' ', 'x', ' ', '=', ' ', '5', ';', ' ', 'x', '/', '-', '1', '0', ';', ' ', 'x', ' ', '=', ' ', '1', '0', ';', ' ', 'x', ' ', '+', ' ', '3'], 17, []⟩ none ⟨[⟨['x'], 5⟩]⟩ [EvaluationResult.Number 5, EvaluationResult.Number (-1 / 2)] = _
  have hstmt : statementF 187 ⟨['l', 'e', 't', ' ', 'x', ' ', '=', ' ', '5', ';', ' ', 'x', '/', '-', '1', '0', ';', ' ', 'x', ' ', '=', ' ', '1', '0', ';', ' ', 'x', ' ', '+', ' ', '3'], 19, [(Token.Name ['x'])]⟩ ⟨[⟨['x'], 5⟩]⟩ = some (Except.ok 10, ⟨['l', 'e', 't', ' ', 'x', ' ', '=', ' ', '5', ';', ' ', 'x', '/', '-', '1', '0', ';', ' ', 'x', ' ', '=', ' ', '1', '0', ';', ' ', 'x', ' ', '+', ' ', '3'], 25, [(Token.EndStatement)]⟩, ⟨[⟨['x'], 10⟩]⟩) := by
    have hex3 : expressionF 186 ⟨['l', 'e', 't', ' ', 'x', ' ', '=', ' ', '5', ';', ' ', 'x', '/', '-', '1', '0', ';', ' ', 'x', ' ', '=', ' ', '1', '0', ';', ' ', 'x', ' ', '+', ' ', '3'], 21, []⟩ ⟨[⟨['x'], 5⟩]⟩ = some (Except.ok 10, ⟨['l', 'e', 't', ' ', 'x', ' ', '=', ' ', '5', ';', ' ', 'x', '/', '-', '1', '0', ';', ' ', 'x', ' ', '=', ' ', '1', '0', ';', ' ', 'x', ' ', '+', ' ', '3'], 25, [(Token.EndStatement)]⟩, ⟨[⟨['x'], 5⟩]⟩) := by
      have htm2 : termF 185 ⟨['l', 'e', 't', ' ', 'x', ' ', '=', ' ', '5', ';', ' ', 'x', '/', '-', '1', '0', ';', ' ', 'x', ' ', '=', ' ', '1', '0', ';', ' ', 'x', ' ', '+', ' ', '3'], 21, []⟩ ⟨[⟨['x'], 5⟩]⟩ = some (Except.ok 10, ⟨['l', 'e', 't', ' ', 'x', ' ', '=', ' ', '5', ';', ' ', 'x', '/', '-', '1', '0', ';', ' ', 'x', ' ', '=', ' ', '1', '0', ';', ' ', 'x', ' ', '+', ' ', '3'], 25, [(Token.EndStatement)]⟩, ⟨[⟨['x'], 5⟩]⟩) := by
        have hpr1 : primaryF 184 ⟨['l', 'e', 't', ' ', 'x', ' ', '=', ' ', '5', ';', ' ', 'x', '/', '-', '1', '0', ';', ' ', 'x', ' ', '=', ' ', '1', '0', ';', ' ', 'x', ' ', '+', ' ', '3'], 21, []⟩ ⟨[⟨['x'], 5⟩]⟩ = some (Except.ok 10, ⟨['l', 'e', 't', ' ', 'x', ' ', '=', ' ', '5', ';', ' ', 'x', '/', '-', '1', '0', ';', ' ', 'x', ' ', '=', ' ', '1', '0', ';', ' ', 'x', ' ', '+', ' ', '3'], 24, []⟩, ⟨[⟨['x'], 5⟩]⟩) := by
          exact primaryF_num 183 ⟨[⟨['x'], 5⟩]⟩ (by decide : TokenStream.next ⟨['l', 'e', 't', ' ', 'x', ' ', '=', ' ', '5', ';', ' ', 'x', '/', '-', '1', '0', ';', ' ', 'x', ' ', '=', ' ', '1', '0', ';', ' ', 'x', ' ', '+', ' ', '3'], 21, []⟩ = (Except.ok (some (Token.Number 10)), ⟨['l', 'e', 't', ' ', 'x', ' ', '=', ' ', '5', ';', ' ', 'x', '/', '-', '1', '0', ';', ' ', 'x', ' ', '=', ' ', '1', '0', ';', ' ', 'x', ' ', '+', ' ', '3'], 24, []⟩))
        rw [termF_step_ok 184 hpr1]
        exact termAuxF_stop_at 183 10 ⟨[⟨['x'], 5⟩]⟩ (some (Token.EndStatement)) (by decide : TokenStream.peek ⟨['l', 'e', 't', ' ', 'x', ' ', '=', ' ', '5', ';', ' ', 'x', '/', '-', '1', '0', ';', ' ', 'x', ' ', '=', ' ', '1', '0', ';', ' ', 'x', ' ', '+', ' ', '3'], 24, []⟩ = (Except.ok (some (Token.EndStatement)), ⟨['l', 'e', 't', ' ', 'x', ' ', '=', ' ', '5', ';', ' ', 'x', '/', '-', '1', '0', ';', ' ', 'x', ' ', '=', ' ', '1', '0', ';', ' ', 'x', ' ', '+', ' ', '3'], 25, [(Token.EndStatement)]⟩)) (by decide) (by decide)
      rw [expressionF_step_ok 185 htm2]
      exact exprAuxF_stop_at 184 10 ⟨[⟨['x'], 5⟩]⟩ (some (Token.EndStatement)) (by decide : TokenStream.peek ⟨['l', 'e', 't', ' ', 'x', ' ', '=', ' ', '5', ';', ' ', 'x', '/', '-', '1', '0', ';', ' ', 'x', ' ', '=', ' ', '1', '0', ';', ' ', 'x', ' ', '+', ' ', '3'], 25, [(Token.EndStatement)]⟩ = (Except.ok (some (Token.EndStatement)), ⟨['l', 'e', 't', ' ', 'x', ' ', '=', ' ', '5', ';', ' ', 'x', '/', '-', '1', '0', ';', ' ', 'x', ' ', '=', ' ', '1', '0', ';', ' ', 'x', ' ', '+', ' ', '3'], 25, [(Token.EndStatement)]⟩)) (by decide) (by decide)
    exact (statementF_assign 186 ⟨[⟨['x'], 5⟩]⟩ (by decide : TokenStream.peek ⟨['l', 'e', 't', ' ', 'x', ' ', '=', ' ', '5', ';', ' ', 'x', '/', '-', '1', '0', ';', ' ', 'x', ' ', '=', ' ', '1', '0', ';', ' ', 'x', ' ', '+', ' ', '3'], 19, [(Token.Name ['x'])]⟩ = (Except.ok (some (Token.Name ['x'])), ⟨['l', 'e', 't', ' ', 'x', ' ', '=', ' ', '5', ';', ' ', 'x', '/', '-', '1', '0', ';', ' ', 'x', ' ', '=', ' ', '1', '0', ';', ' ', 'x', ' ', '+', ' ', '3'], 19, [(Token.Name ['x'])]⟩)) (by decide : TokenStream.peek (TokenStream.next ⟨['l', 'e', 't', ' ', 'x', ' ', '=', ' ', '5', ';', ' ', 'x', '/', '-', '1', '0', ';', ' ', 'x', ' ', '=', ' ', '1', '0', ';', ' ', 'x', ' ', '+', ' ', '3'], 19, [(Token.Name ['x'])]⟩).2 = (Except.ok (some (Token.Symbol '=')), ⟨['l', 'e', 't', ' ', 'x', ' ', '=', ' ', '5', ';', ' ', 'x', '/', '-', '1', '0', ';', ' ', 'x', ' ', '=', ' ', '1', '0', ';', ' ', 'x', ' ', '+', ' ', '3'], 21, [(Token.Symbol '=')]⟩)) (by decide : VarTable.contains ⟨[⟨['x'], 5⟩]⟩ ['x'] = true) hex3).trans (by decide)
  rw [evalLoopF_step_stmt_ok 187 none [EvaluationResult.Number 5, EvaluationResult.Number (-1 / 2)] (by decide : TokenStream.peek ⟨['l', 'e', 't', ' ', 'x', ' ', '=', ' ', '5', ';', ' ', 'x', '/', '-', '1', '0', ';', ' ', 'x', ' ', '=', ' ', '1', '0', ';', ' ', 'x', ' ', '+', ' ', '3'], 17, []⟩ = (Except.ok (some (Token.Name ['x'])), ⟨['l', 'e', 't', ' ', 'x', ' ', '=', ' ', '5', ';', ' ', 'x', '/', '-', '1', '0', ';', ' ', 'x', ' ', '=', ' ', '1', '0', ';', ' ', 'x', ' ', '+', ' ', '3'], 19, [(Token.Name ['x'])]⟩)) (by decide) (by decide) (by decide) hstmt]
  clear hstmt
  show evalLoopF 187 ⟨['l', 'e', 't', ' ', 'x', ' ', '=', ' ', '5', ';', ' ', 'x', '/', '-', '1', '0', ';', ' ', 'x', ' ', '=', ' ', '1', '0', ';', ' ', 'x', ' ', '+', ' ', '3'], 25, [(Token.EndStatement)]⟩ none ⟨[⟨['x'], 10⟩]⟩ [EvaluationResult.Number 5, EvaluationResult.Number (-1 / 2), EvaluationResult.Number 10] = _
  rw [evalLoopF_step_end 186 none ⟨[⟨['x'], 10⟩]⟩ [EvaluationResult.Number 5, EvaluationResult.Number (-1 / 2), EvaluationResult.Number 10] (by decide : TokenStream.peek ⟨['l', 'e', 't', ' ', 'x', ' ', '=', ' ', '5', ';', ' ', 'x', '/', '-', '1', '0', ';', ' ', 'x', ' ', '=', ' ', '1', '0', ';', ' ', 'x', ' ', '+', ' ', '3'], 25, [(Token.EndStatement)]⟩ = (Except.ok (some (Token.EndStatement)), ⟨['l', 'e', 't', ' ', 'x', ' ', '=', ' ', '5', ';', ' ', 'x', '/', '-', '1', '0', ';', ' ', 'x', ' ', '=', ' ', '1', '0', ';', ' ', 'x', ' ', '+', ' ', '3'], 25, [(Token.EndStatement)]⟩))]
  show evalLoopF 186 ⟨['l', 'e', 't', ' ', 'x', ' ', '=', ' ', '5', ';', ' ', 'x', '/', '-', '1', '0', ';', ' ', 'x', ' ', '=', ' ', '1', '0', ';', ' ', 'x', ' ', '+', ' ', '3'], 25, []⟩ none ⟨[⟨['x'], 10⟩]⟩ [EvaluationResult.Number 5, EvaluationResult.Number (-1 / 2), EvaluationResult.Number 10] = _
  have hstmt : statementF 185 ⟨['l', 'e', 't', ' ', 'x', ' ', '=', ' ', '5', ';', ' ', 'x', '/', '-', '1', '0', ';', ' ', 'x', ' ', '=', ' ', '1', '0', ';', ' ', 'x', ' ', '+', ' ', '3'], 27, [(Token.Name ['x'])]⟩ ⟨[⟨['x'], 10⟩]⟩ = some (Except.ok 13, ⟨['l', 'e', 't', ' ', 'x', ' ', '=', ' ', '5', ';', ' ', 'x', '/', '-', '1', '0', ';', ' ', 'x', ' ', '=', ' ', '1', '0', ';', ' ', 'x', ' ', '+', ' ', '3'], 31, []⟩, ⟨[⟨['x'], 10⟩]⟩) := by
    rw [statementF_name_ref 184 ⟨[⟨['x'], 10⟩]⟩ (by decide : TokenStream.peek ⟨['l', 'e', 't', ' ', 'x', ' ', '=', ' ', '5', ';', ' ', 'x', '/', '-', '1', '0', ';', ' ', 'x', ' ', '=', ' ', '1', '0', ';', ' ', 'x', ' ', '+', ' ', '3'], 27, [(Token.Name ['x'])]⟩ = (Except.ok (some (Token.Name ['x'])), ⟨['l', 'e', 't', ' ', 'x', ' ', '=', ' ', '5', ';', ' ', 'x', '/', '-', '1', '0', ';', ' ', 'x', ' ', '=', ' ', '1', '0', ';', ' ', 'x', ' ', '+', ' ', '3'], 27, [(Token.Name ['x'])]⟩)) (by decide : TokenStream.peek (TokenStream.next ⟨['l', 'e', 't', ' ', 'x', ' ', '=', ' ', '5', ';', ' ', 'x', '/', '-', '1', '0', ';', ' ', 'x', ' ', '=', ' ', '1', '0', ';', ' ', 'x', ' ', '+', ' ', '3'], 27, [(Token.Name ['x'])]⟩).2 = (Except.ok (some (Token.Symbol '+')), ⟨['l', 'e', 't', ' ', 'x', ' ', '=', ' ', '5', ';', ' ', 'x', '/', '-', '1', '0', ';', ' ', 'x', ' ', '=', ' ', '1', '0', ';', ' ', 'x', ' ', '+', ' ', '3'], 29, [(Token.Symbol '+')]⟩)) (by decide) (by decide : VarTable.retrieve ⟨[⟨['x'], 10⟩]⟩ ['x'] = some 10)]
    show expressionF 184 ⟨['l', 'e', 't', ' ', 'x', ' ', '=', ' ', '5', ';', ' ', 'x', '/', '-', '1', '0', ';', ' ', 'x', ' ', '=', ' ', '1', '0', ';', ' ', 'x', ' ', '+', ' ', '3'], 29, [(Token.Number 10), (Token.Symbol '+')]⟩ ⟨[⟨['x'], 10⟩]⟩ = _
    have htm2 : termF 183 ⟨['l', 'e', 't', ' ', 'x', ' ', '=', ' ', '5', ';', ' ', 'x', '/', '-', '1', '0', ';', ' ', 'x', ' ', '=', ' ', '1', '0', ';', ' ', 'x', ' ', '+', ' ', '3'], 29, [(Token.Number 10), (Token.Symbol '+')]⟩ ⟨[⟨['x'], 10⟩]⟩ = some (Except.ok 10, ⟨['l', 'e', 't', ' ', 'x', ' ', '=', ' ', '5', ';', ' ', 'x', '/', '-', '1', '0', ';', ' ', 'x', ' ', '=', ' ', '1', '0', ';', ' ', 'x', ' ', '+', ' ', '3'], 29, [(Token.Symbol '+')]⟩, ⟨[⟨['x'], 10⟩]⟩) := by
      have hpr1 : primaryF 182 ⟨['l', 'e', 't', ' ', 'x', ' ', '=', ' ', '5', ';', ' ', 'x', '/', '-', '1', '0', ';', ' ', 'x', ' ', '=', ' ', '1', '0', ';', ' ', 'x', ' ', '+', ' ', '3'], 29, [(Token.Number 10), (Token.Symbol '+')]⟩ ⟨[⟨['x'], 10⟩]⟩ = some (Except.ok 10, ⟨['l', 'e', 't', ' ', 'x', ' ', '=', ' ', '5', ';', ' ', 'x', '/', '-', '1', '0', ';', ' ', 'x', ' ', '=', ' ', '1', '0', ';', ' ', 'x', ' ', '+', ' ', '3'], 29, [(Token.Symbol '+')]⟩, ⟨[⟨['x'], 10⟩]⟩) := by
        exact primaryF_num 181 ⟨[⟨['x'], 10⟩]⟩ (by decide : TokenStream.next ⟨['l', 'e', 't', ' ', 'x', ' ', '=', ' ', '5', ';', ' ', 'x', '/', '-', '1', '0', ';', ' ', 'x', ' ', '=', ' ', '1', '0', ';', ' ', 'x', ' ', '+', ' ', '3'], 29, [(Token.Number 10), (Token.Symbol '+')]⟩ = (Except.ok (some (Token.Number 10)), ⟨['l', 'e', 't', ' ', 'x', ' ', '=', ' ', '5', ';', ' ', 'x', '/', '-', '1', '0', ';', ' ', 'x', ' ', '=', ' ', '1', '0', ';', ' ', 'x', ' ', '+', ' ', '3'], 29, [(Token.Symbol '+')]⟩))
      rw [termF_step_ok 182 hpr1]
      exact termAuxF_stop_at 181 10 ⟨[⟨['x'], 10⟩]⟩ (some (Token.Symbol '+')) (by decide : TokenStream.peek ⟨['l', 'e', 't', ' ', 'x', ' ', '=', ' ', '5', ';', ' ', 'x', '/', '-', '1', '0', ';', ' ', 'x', ' ', '=', ' ', '1', '0', ';', ' ', 'x', ' ', '+', ' ', '3'], 29, [(Token.Symbol '+')]⟩ = (Except.ok (some (Token.Symbol '+')), ⟨['l', 'e', 't', ' ', 'x', ' ', '=', ' ', '5', ';', ' ', 'x', '/', '-', '1', '0', ';', ' ', 'x', ' ', '=', ' ', '1', '0', ';', ' ', 'x', ' ', '+', ' ', '3'], 29, [(Token.Symbol '+')]⟩)) (by decide) (by decide)
    rw [expressionF_step_ok 183 htm2]
    have htm4 : termF 182 ⟨['l', 'e', 't', ' ', 'x', ' ', '=', ' ', '5', ';', ' ', 'x', '/', '-', '1', '0', ';', ' ', 'x', ' ', '=', ' ', '1', '0', ';', ' ', 'x', ' ', '+', ' ', '3'], 29, []⟩ ⟨[⟨['x'], 10⟩]⟩ = some (Except.ok 3, ⟨['l', 'e', 't', ' ', 'x', ' ', '=', ' ', '5', ';', ' ', 'x', '/', '-', '1', '0', ';', ' ', 'x', ' ', '=', ' ', '1', '0', ';', ' ', 'x', ' ', '+', ' ', '3'], 31, []⟩, ⟨[⟨['x'], 10⟩]⟩) := by
      have hpr3 : primaryF 181 ⟨['l', 'e', 't', ' ', 'x', ' ', '=', ' ', '5', ';', ' ', 'x', '/', '-', '1', '0', ';', ' ', 'x', ' ', '=', ' ', '1', '0', ';', ' ', 'x', ' ', '+', ' ', '3'], 29, []⟩ ⟨[⟨['x'], 10⟩]⟩ = some (Except.ok 3, ⟨['l', 'e', 't', ' ', 'x', ' ', '=', ' ', '5', ';', ' ', 'x', '/', '-', '1', '0', ';', ' ', 'x', ' ', '=', ' ', '1', '0', ';', ' ', 'x', ' ', '+', ' ', '3'], 31, []⟩, ⟨[⟨['x'], 10⟩]⟩) := by
        exact primaryF_num 180 ⟨[⟨['x'], 10⟩]⟩ (by decide : TokenStream.next ⟨['l', 'e', 't', ' ', 'x', ' ', '=', ' ', '5', ';', ' ', 'x', '/', '-', '1', '0', ';', ' ', 'x', ' ', '=', ' ', '1', '0', ';', ' ', 'x', ' ', '+', ' ', '3'], 29, []⟩ = (Except.ok (some (Token.Number 3)), ⟨['l', 'e', 't', ' ', 'x', ' ', '=', ' ', '5', ';', ' ', 'x', '/', '-', '1', '0', ';', ' ', 'x', ' ', '=', ' ', '1', '0', ';', ' ', 'x', ' ', '+', ' ', '3'], 31, []⟩))
      rw [termF_step_ok 181 hpr3]
      exact termAuxF_stop_at 180 3 ⟨[⟨['x'], 10⟩]⟩ none (by decide : TokenStream.peek ⟨['l', 'e', 't', ' ', 'x', ' ', '=', ' ', '5', ';', ' ', 'x', '/', '-', '1', '0', ';', ' ', 'x', ' ', '=', ' ', '1', '0', ';', ' ', 'x', ' ', '+', ' ', '3'], 31, []⟩ = (Except.ok none, ⟨['l', 'e', 't', ' ', 'x', ' ', '=', ' ', '5', ';', ' ', 'x', '/', '-', '1', '0', ';', ' ', 'x', ' ', '=', ' ', '1', '0', ';', ' ', 'x', ' ', '+', ' ', '3'], 31, []⟩)) (by decide) (by decide)
    rw [exprAuxF_step_add 182 10 (by decide : TokenStream.peek ⟨['l', 'e', 't', ' ', 'x', ' ', '=', ' ', '5', ';', ' ', 'x', '/', '-', '1', '0', ';', ' ', 'x', ' ', '=', ' ', '1', '0', ';', ' ', 'x', ' ', '+', ' ', '3'], 29, [(Token.Symbol '+')]⟩ = (Except.ok (some (Token.Symbol '+')), ⟨['l', 'e', 't', ' ', 'x', ' ', '=', ' ', '5', ';', ' ', 'x', '/', '-', '1', '0', ';', ' ', 'x', ' ', '=', ' ', '1', '0', ';', ' ', 'x', ' ', '+', ' ', '3'], 29, [(Token.Symbol '+')]⟩)) (by decide : TokenStream.next ⟨['l', 'e', 't', ' ', 'x', ' ', '=', ' ', '5', ';', ' ', 'x', '/', '-', '1', '0', ';', ' ', 'x', ' ', '=', ' ', '1', '0', ';', ' ', 'x', ' ', '+', ' ', '3'], 29, [(Token.Symbol '+')]⟩ = (Except.ok (some (Token.Symbol '+')), ⟨['l', 'e', 't', ' ', 'x', ' ', '=', ' ', '5', ';', ' ', 'x', '/', '-', '1', '0', ';', ' ', 'x', ' ', '=', ' ', '1', '0', ';', ' ', 'x', ' ', '+', ' ', '3'], 29, []⟩)) htm4]
    rw [(by norm_num : (10 : ℚ) + 3 = 13)]
    exact exprAuxF_stop_at 181 13 ⟨[⟨['x'], 10⟩]⟩ none (by decide : TokenStream.peek ⟨['l', 'e', 't', ' ', 'x', ' ', '=', ' ', '5', ';', ' ', 'x', '/', '-', '1', '0', ';', ' ', 'x', ' ', '=', ' ', '1', '0', ';', ' ', 'x', ' ', '+', ' ', '3'], 31, []⟩ = (Except.ok none, ⟨['l', 'e', 't', ' ', 'x', ' ', '=', ' ', '5', ';', ' ', 'x', '/', '-', '1', '0', ';', ' ', 'x', ' ', '=', ' ', '1', '0', ';', ' ', 'x', ' ', '+', ' ', '3'], 31, []⟩)) (by decide) (by decide)
  rw [evalLoopF_step_stmt_ok 185 none [EvaluationResult.Number 5, EvaluationResult.Number (-1 / 2), EvaluationResult.Number 10] (by decide : TokenStream.peek ⟨['l', 'e', 't', ' ', 'x', ' ', '=', ' ', '5', ';', ' ', 'x', '/', '-', '1', '0', ';', ' ', 'x', ' ', '=', ' ', '1', '0', ';', ' ', 'x', ' ', '+', ' ', '3'], 25, []⟩ = (Except.ok (some (Token.Name ['x'])), ⟨['l', 'e', 't', ' ', 'x', ' ', '=', ' ', '5', ';', ' ', 'x', '/', '-', '1', '0', ';', ' ', 'x', ' ', '=', ' ', '1', '0', ';', ' ', 'x', ' ', '+', ' ', '3'], 27, [(Token.Name ['x'])]⟩)) (by decide) (by decide) (by decide) hstmt]
  clear hstmt
  show evalLoopF 185 ⟨['l', 'e', 't', ' ', 'x', ' ', '=', ' ', '5', ';', ' ', 'x', '/', '-', '1', '0', ';', ' ', 'x', ' ', '=', ' ', '1', '0', ';', ' ', 'x', ' ', '+', ' ', '3'], 31, []⟩ none ⟨[⟨['x'], 10⟩]⟩ [EvaluationResult.Number 5, EvaluationResult.Number (-1 / 2), EvaluationResult.Number 10, EvaluationResult.Number 13] = _
  rw [evalLoopF_step_eos 184 none ⟨[⟨['x'], 10⟩]⟩ [EvaluationResult.Number 5, EvaluationResult.Number (-1 / 2), EvaluationResult.Number 10, EvaluationResult.Number 13] (by decide : TokenStream.peek ⟨['l', 'e', 't', ' ', 'x', ' ', '=', ' ', '5', ';', ' ', 'x', '/', '-', '1', '0', ';', ' ', 'x', ' ', '=', ' ', '1', '0', ';', ' ', 'x', ' ', '+', ' ', '3'], 31, []⟩ = (Except.ok none, ⟨['l', 'e', 't', ' ', 'x', ' ', '=', ' ', '5', ';', ' ', 'x', '/', '-', '1', '0', ';', ' ', 'x', ' ', '=', ' ', '1', '0', ';', ' ', 'x', ' ', '+', ' ', '3'], 31, []⟩))]

theorem runC6a :
    evaluate ['l', 'e', 't', ' ', 'x', ' ', '=', ' ', '5', ';', ' ', 'x', ' ', '+', ' ', '3', ';', ' ', 'x', ' ', '*', ' ', 'y'] ⟨[]⟩ = some ([EvaluationResult.Number 5, EvaluationResult.Number 8, EvaluationResult.Error (EvalError.evaluatingToken (Token.Name ['x']) (CalcError.undefinedVariable ['y']))], ⟨[⟨['x'], 5⟩]⟩) := by
  show evalLoopF 144 ⟨['l', 'e', 't', ' ', 'x', ' ', '=', ' ', '5', ';', ' ', 'x', ' ', '+', ' ', '3', ';', ' ', 'x', ' ', '*', ' ', 'y'], 0, []⟩ none ⟨[]⟩ [] = _
  have hstmt : statementF 143 ⟨['l', 'e', 't', ' ', 'x', ' ', '=', ' ', '5', ';', ' ', 'x', ' ', '+', ' ', '3', ';', ' ', 'x', ' ', '*', ' ', 'y'], 3, [(Token.Let)]⟩ ⟨[]⟩ = some (Except.ok 5, ⟨['l', 'e', 't', ' ', 'x', ' ', '=', ' ', '5', ';', ' ', 'x', ' ', '+', ' ', '3', ';', ' ', 'x', ' ', '*', ' ', 'y'], 10, [(Token.EndStatement)]⟩, ⟨[⟨['x'], 5⟩]⟩) := by
    have hex3 : expressionF 142 ⟨['l', 'e', 't', ' ', 'x', ' ', '=', ' ', '5', ';', ' ', 'x', ' ', '+', ' ', '3', ';', ' ', 'x', ' ', '*', ' ', 'y'], 7, []⟩ ⟨[]⟩ = some (Except.ok 5, ⟨['l', 'e', 't', ' ', 'x', ' ', '=', ' ', '5', ';', ' ', 'x', ' ', '+', ' ', '3', ';', ' ', 'x', ' ', '*', ' ', 'y'], 10, [(Token.EndStatement)]⟩, ⟨[]⟩) := by
      have htm2 : termF 141 ⟨['l', 'e', 't', ' ', 'x', ' ', '=', ' ', '5', ';', ' ', 'x', ' ', '+', ' ', '3', ';', ' ', 'x', ' ', '*', ' ', 'y'], 7, []⟩ ⟨[]⟩ = some (Except.ok 5, ⟨['l', 'e', 't', ' ', 'x', ' ', '=', ' ', '5', ';', ' ', 'x', ' ', '+', ' ', '3', ';', ' ', 'x', ' ', '*', ' ', 'y'], 10, [(Token.EndStatement)]⟩, ⟨[]⟩) := by
        have hpr1 : primaryF 140 ⟨['l', 'e', 't', ' ', 'x', ' ', '=', ' ', '5', ';', ' ', 'x', ' ', '+', ' ', '3', ';', ' ', 'x', ' ', '*', ' ', 'y'], 7, []⟩ ⟨[]⟩ = some (Except.ok 5, ⟨['l', 'e', 't', ' ', 'x', ' ', '=', ' ', '5', ';', ' ', 'x', ' ', '+', ' ', '3', ';', ' ', 'x', ' ', '*', ' ', 'y'], 9, []⟩, ⟨[]⟩) := by
          exact primaryF_num 139 ⟨[]⟩ (by decide : TokenStream.next ⟨['l', 'e', 't', ' ', 'x', ' ', '=', ' ', '5', ';', ' ', 'x', ' ', '+', ' ', '3', ';', ' ', 'x', ' ', '*', ' ', 'y'], 7, []⟩ = (Except.ok (some (Token.Number 5)), ⟨['l', 'e', 't', ' ', 'x', ' ', '=', ' ', '5', ';', ' ', 'x', ' ', '+', ' ', '3', ';', ' ', 'x', ' ', '*', ' ', 'y'], 9, []⟩))
        rw [termF_step_ok 140 hpr1]
        exact termAuxF_stop_at 139 5 ⟨[]⟩ (some (Token.EndStatement)) (by decide : TokenStream.peek ⟨['l', 'e', 't', ' ', 'x', ' ', '=', ' ', '5', ';', ' ', 'x', ' ', '+', ' ', '3', ';', ' ', 'x', ' ', '*', ' ', 'y'], 9, []⟩ = (Except.ok (some (Token.EndStatement)), ⟨['l', 'e', 't', ' ', 'x', ' ', '=', ' ', '5', ';', ' ', 'x', ' ', '+', ' ', '3', ';', ' ', 'x', ' ', '*', ' ', 'y'], 10, [(Token.EndStatement)]⟩)) (by decide) (by decide)
      rw [expressionF_step_ok 141 htm2]
      exact exprAuxF_stop_at 140 5 ⟨[]⟩ (some (Token.EndStatement)) (by decide : TokenStream.peek ⟨['l', 'e', 't', ' ', 'x', ' ', '=', ' ', '5', ';', ' ', 'x', ' ', '+', ' ', '3', ';', ' ', 'x', ' ', '*', ' ', 'y'], 10, [(Token.EndStatement)]⟩ = (Except.ok (some (Token.EndStatement)), ⟨['l', 'e', 't', ' ', 'x', ' ', '=', ' ', '5', ';', ' ', 'x', ' ', '+', ' ', '3', ';', ' ', 'x', ' ', '*', ' ', 'y'], 10, [(Token.EndStatement)]⟩)) (by decide) (by decide)
    exact (statementF_let_new 142 ⟨[]⟩ (by decide : TokenStream.peek ⟨['l', 'e', 't', ' ', 'x', ' ', '=', ' ', '5', ';', ' ', 'x', ' ', '+', ' ', '3', ';', ' ', 'x', ' ', '*', ' ', 'y'], 3, [(Token.Let)]⟩ = (Except.ok (some (Token.Let)), ⟨['l', 'e', 't', ' ', 'x', ' ', '=', ' ', '5', ';', ' ', 'x', ' ', '+', ' ', '3', ';', ' ', 'x', ' ', '*', ' ', 'y'], 3, [(Token.Let)]⟩)) (by decide : TokenStream.next (TokenStream.next ⟨['l', 'e', 't', ' ', 'x', ' ', '=', ' ', '5', ';', ' ', 'x', ' ', '+', ' ', '3', ';', ' ', 'x', ' ', '*', ' ', 'y'], 3, [(Token.Let)]⟩).2 = (Except.ok (some (Token.Name ['x'])), ⟨['l', 'e', 't', ' ', 'x', ' ', '=', ' ', '5', ';', ' ', 'x', ' ', '+', ' ', '3', ';', ' ', 'x', ' ', '*', ' ', 'y'], 5, []⟩)) (by decide : VarTable.contains ⟨[]⟩ ['x'] = false) (by decide : TokenStream.next ⟨['l', 'e', 't', ' ', 'x', ' ', '=', ' ', '5', ';', ' ', 'x', ' ', '+', ' ', '3', ';', ' ', 'x', ' ', '*', ' ', 'y'], 5, []⟩ = (Except.ok (some (Token.Symbol '=')), ⟨['l', 'e', 't', ' ', 'x', ' ', '=', ' ', '5', ';', ' ', 'x', ' ', '+', ' ', '3', ';', ' ', 'x', ' ', '*', ' ', 'y'], 7, []⟩)) (Or.inr rfl) hex3).trans (by decide)
  rw [evalLoopF_step_stmt_ok 143 none [] (by decide : TokenStream.peek ⟨['l', 'e', 't', ' ', 'x', ' ', '=', ' ', '5', ';', ' ', 'x', ' ', '+', ' ', '3', ';', ' ', 'x', ' ', '*', ' ', 'y'], 0, []⟩ = (Except.ok (some (Token.Let)), ⟨['l', 'e', 't', ' ', 'x', ' ', '=', ' ', '5', ';', ' ', 'x', ' ', '+', ' ', '3', ';', ' ', 'x', ' ', '*', ' ', 'y'], 3, [(Token.Let)]⟩)) (by decide) (by decide) (by decide) hstmt]
  clear hstmt
  show evalLoopF 143 ⟨['l', 'e', 't', ' ', 'x', ' ', '=', ' ', '5', ';', ' ', 'x', ' ', '+', ' ', '3', ';', ' ', 'x', ' ', '*', ' ', 'y'], 10, [(Token.EndStatement)]⟩ none ⟨[⟨['x'], 5⟩]⟩ [EvaluationResult.Number 5] = _
  rw [evalLoopF_step_end 142 none ⟨[⟨['x'], 5⟩]⟩ [EvaluationResult.Number 5] (by decide : TokenStream.peek ⟨['l', 'e', 't', ' ', 'x', ' ', '=', ' ', '5', ';', ' ', 'x', ' ', '+', ' ', '3', ';', ' ', 'x', ' ', '*', ' ', 'y'], 10, [(Token.EndStatement)]⟩ = (Except.ok (some (Token.EndStatement)), ⟨['l', 'e', 't', ' ', 'x', ' ', '=', ' ', '5', ';', ' ', 'x', ' ', '+', ' ', '3', ';', ' ', 'x', ' ', '*', ' ', 'y'], 10, [(Token.EndStatement)]⟩))]
  show evalLoopF 142 ⟨['l', 'e', 't', ' ', 'x', ' ', '=', ' ', '5', ';', ' ', 'x', ' ', '+', ' ', '3', ';', ' ', 'x', ' ', '*', ' ', 'y'], 10, []⟩ none ⟨[⟨['x'], 5⟩]⟩ [EvaluationResult.Number 5] = _
  have hstmt : statementF 141 ⟨['l', 'e', 't', ' ', 'x', ' ', '=', ' ', '5', ';', ' ', 'x', ' ', '+', ' ', '3', ';', ' ', 'x', ' ', '*', ' ', 'y'], 12, [(Token.Name ['x'])]⟩ ⟨[⟨['x'], 5⟩]⟩ = some (Except.ok 8, ⟨['l', 'e', 't', ' ', 'x', ' ', '=', ' ', '5', ';', ' ', 'x', ' ', '+', ' ', '3', ';', ' ', 'x', ' ', '*', ' ', 'y'], 17, [(Token.EndStatement)]⟩, ⟨[⟨['x'], 5⟩]⟩) := by
    rw [statementF_name_ref 140 ⟨[⟨['x'], 5⟩]⟩ (by decide : TokenStream.peek ⟨['l', 'e', 't', ' ', 'x', ' ', '=', ' ', '5', ';', ' ', 'x', ' ', '+', ' ', '3', ';', ' ', 'x', ' ', '*', ' ', 'y'], 12, [(Token.Name ['x'])]⟩ = (Except.ok (some (Token.Name ['x'])), ⟨['l', 'e', 't', ' ', 'x', ' ', '=', ' ', '5', ';', ' ', 'x', ' ', '+', ' ', '3', ';', ' ', 'x', ' ', '*', ' ', 'y'], 12, [(Token.Name ['x'])]⟩)) (by decide : TokenStream.peek (TokenStream.next ⟨['l', 'e', 't', ' ', 'x', ' ', '=', ' ', '5', ';', ' ', 'x', ' ', '+', ' ', '3', ';', ' ', 'x', ' ', '*', ' ', 'y'], 12, [(Token.Name ['x'])]⟩).2 = (Except.ok (some (Token.Symbol '+')), ⟨['l', 'e', 't', ' ', 'x', ' ', '=', ' ', '5', ';', ' ', 'x', ' ', '+', ' ', '3', ';', ' ', 'x', ' ', '*', ' ', 'y'], 14, [(Token.Symbol '+')]⟩)) (by decide) (by decide : VarTable.retrieve ⟨[⟨['x'], 5⟩]⟩ ['x'] = some 5)]
    show expressionF 140 ⟨['l', 'e', 't', ' ', 'x', ' ', '=', ' ', '5', ';', ' ', 'x', ' ', '+', ' ', '3', ';', ' ', 'x', ' ', '*', ' ', 'y'], 14, [(Token.Number 5), (Token.Symbol '+')]⟩ ⟨[⟨['x'], 5⟩]⟩ = _
    have htm2 : termF 139 ⟨['l', 'e', 't', ' ', 'x', ' ', '=', ' ', '5', ';', ' ', 'x', ' ', '+', ' ', '3', ';', ' ', 'x', ' ', '*', ' ', 'y'], 14, [(Token.Number 5), (Token.Symbol '+')]⟩ ⟨[⟨['x'], 5⟩]⟩ = some (Except.ok 5, ⟨['l', 'e', 't', ' ', 'x', ' ', '=', ' ', '5', ';', ' ', 'x', ' ', '+', ' ', '3', ';', ' ', 'x', ' ', '*', ' ', 'y'], 14, [(Token.Symbol '+')]⟩, ⟨[⟨['x'], 5⟩]⟩) := by
      have hpr1 : primaryF 138 ⟨['l', 'e', 't', ' ', 'x', ' ', '=', ' ', '5', ';', ' ', 'x', ' ', '+', ' ', '3', ';', ' ', 'x', ' ', '*', ' ', 'y'], 14, [(Token.Number 5), (Token.Symbol '+')]⟩ ⟨[⟨['x'], 5⟩]⟩ = some (Except.ok 5, ⟨['l', 'e', 't', ' ', 'x', ' ', '=', ' ', '5', ';', ' ', 'x', ' ', '+', ' ', '3', ';', ' ', 'x', ' ', '*', ' ', 'y'], 14, [(Token.Symbol '+')]⟩, ⟨[⟨['x'], 5⟩]⟩) := by
        exact primaryF_num 137 ⟨[⟨['x'], 5⟩]⟩ (by decide : TokenStream.next ⟨['l', 'e', 't', ' ', 'x', ' ', '=', ' ', '5', ';', ' ', 'x', ' ', '+', ' ', '3', ';', ' ', 'x', ' ', '*', ' ', 'y'], 14, [(Token.Number 5), (Token.Symbol '+')]⟩ = (Except.ok (some (Token.Number 5)), ⟨['l', 'e', 't', ' ', 'x', ' ', '=', ' ', '5', ';', ' ', 'x', ' ', '+', ' ', '3', ';', ' ', 'x', ' ', '*', ' ', 'y'], 14, [(Token.Symbol '+')]⟩))
      rw [termF_step_ok 138 hpr1]
      exact termAuxF_stop_at 137 5 ⟨[⟨['x'], 5⟩]⟩ (some (Token.Symbol '+')) (by decide : TokenStream.peek ⟨['l', 'e', 't', ' ', 'x', ' ', '=', ' ', '5', ';', ' ', 'x', ' ', '+', ' ', '3', ';', ' ', 'x', ' ', '*', ' ', 'y'], 14, [(Token.Symbol '+')]⟩ = (Except.ok (some (Token.Symbol '+')), ⟨['l', 'e', 't', ' ', 'x', ' ', '=', ' ', '5', ';', ' ', 'x', ' ', '+', ' ', '3', ';', ' ', 'x', ' ', '*', ' ', 'y'], 14, [(Token.Symbol '+')]⟩)) (by decide) (by decide)
    rw [expressionF_step_ok 139 htm2]
    have htm4 : termF 138 ⟨['l', 'e', 't', ' ', 'x', ' ', '=', ' ', '5', ';', ' ', 'x', ' ', '+', ' ', '3', ';', ' ', 'x', ' ', '*', ' ', 'y'], 14, []⟩ ⟨[⟨['x'], 5⟩]⟩ = some (Except.ok 3, ⟨['l', 'e', 't', ' ', 'x', ' ', '=', ' ', '5', ';', ' ', 'x', ' ', '+', ' ', '3', ';', ' ', 'x', ' ', '*', ' ', 'y'], 17, [(Token.EndStatement)]⟩, ⟨[⟨['x'], 5⟩]⟩) := by
      have hpr3 : primaryF 137 ⟨['l', 'e', 't', ' ', 'x', ' ', '=', ' ', '5', ';', ' ', 'x', ' ', '+', ' ', '3', ';', ' ', 'x', ' ', '*', ' ', 'y'], 14, []⟩ ⟨[⟨['x'], 5⟩]⟩ = some (Except.ok 3, ⟨['l', 'e', 't', ' ', 'x', ' ', '=', ' ', '5', ';', ' ', 'x', ' ', '+', ' ', '3', ';', ' ', 'x', ' ', '*', ' ', 'y'], 16, []⟩, ⟨[⟨['x'], 5⟩]⟩) := by
        exact primaryF_num 136 ⟨[⟨['x'], 5⟩]⟩ (by decide : TokenStream.next ⟨['l', 'e', 't', ' ', 'x', ' ', '=', ' ', '5', ';', ' ', 'x', ' ', '+', ' ', '3', ';', ' ', 'x', ' ', '*', ' ', 'y'], 14, []⟩ = (Except.ok (some (Token.Number 3)), ⟨['l', 'e', 't', ' ', 'x', ' ', '=', ' ', '5', ';', ' ', 'x', ' ', '+', ' ', '3', ';', ' ', 'x', ' ', '*', ' ', 'y'], 16, []⟩))
      rw [termF_step_ok 137 hpr3]
      exact termAuxF_stop_at 136 3 ⟨[⟨['x'], 5⟩]⟩ (some (Token.EndStatement)) (by decide : TokenStream.peek ⟨['l', 'e', 't', ' ', 'x', ' ', '=', ' ', '5', ';', ' ', 'x', ' ', '+', ' ', '3', ';', ' ', 'x', ' ', '*', ' ', 'y'], 16, []⟩ = (Except.ok (some (Token.EndStatement)), ⟨['l', 'e', 't', ' ', 'x', ' ', '=', ' ', '5', ';', ' ', 'x', ' ', '+', ' ', '3', ';', ' ', 'x', ' ', '*', ' ', 'y'], 17, [(Token.EndStatement)]⟩)) (by decide) (by decide)
    rw [exprAuxF_step_add 138 5 (by decide : TokenStream.peek ⟨['l', 'e', 't', ' ', 'x', ' ', '=', ' ', '5', ';', ' ', 'x', ' ', '+', ' ', '3', ';', ' ', 'x', ' ', '*', ' ', 'y'], 14, [(Token.Symbol '+')]⟩ = (Except.ok (some (Token.Symbol '+')), ⟨['l', 'e', 't', ' ', 'x', ' ', '=', ' ', '5', ';', ' ', 'x', ' ', '+', ' ', '3', ';', ' ', 'x', ' ', '*', ' ', 'y'], 14, [(Token.Symbol '+')]⟩)) (by decide : TokenStream.next ⟨['l', 'e', 't', ' ', 'x', ' ', '=', ' ', '5', ';', ' ', 'x', ' ', '+', ' ', '3', ';', ' ', 'x', ' ', '*', ' ', 'y'], 14, [(Token.Symbol '+')]⟩ = (Except.ok (some (Token.Symbol '+')), ⟨['l', 'e', 't', ' ', 'x', ' ', '=', ' ', '5', ';', ' ', 'x', ' ', '+', ' ', '3', ';', ' ', 'x', ' ', '*', ' ', 'y'], 14, []⟩)) htm4]
    rw [(by norm_num : (5 : ℚ) + 3 = 8)]
    exact exprAuxF_stop_at 137 8 ⟨[⟨['x'], 5⟩]⟩ (some (Token.EndStatement)) (by decide : TokenStream.peek ⟨['l', 'e', 't', ' ', 'x', ' ', '=', ' ', '5', ';', ' ', 'x', ' ', '+', ' ', '3', ';', ' ', 'x', ' ', '*', ' ', 'y'], 17, [(Token.EndStatement)]⟩ = (Except.ok (some (Token.EndStatement)), ⟨['l', 'e', 't', ' ', 'x', ' ', '=', ' ', '5', ';', ' ', 'x', ' ', '+', ' ', '3', ';', ' ', 'x', ' ', '*', ' ', 'y'], 17, [(Token.EndStatement)]⟩)) (by decide) (by decide)
  rw [evalLoopF_step_stmt_ok 141 none [EvaluationResult.Number 5] (by decide : TokenStream.peek ⟨['l', 'e', 't', ' ', 'x', ' ', '=', ' ', '5', ';', ' ', 'x', ' ', '+', ' ', '3', ';', ' ', 'x', ' ', '*', ' ', 'y'], 10, []⟩ = (Except.ok (some (Token.Name ['x'])), ⟨['l', 'e', 't', ' ', 'x', ' ', '=', ' ', '5', ';', ' ', 'x', ' ', '+', ' ', '3', ';', ' ', 'x', ' ', '*', ' ', 'y'], 12, [(Token.Name ['x'])]⟩)) (by decide) (by decide) (by decide) hstmt]
  clear hstmt
  show evalLoopF 141 ⟨['l', 'e', 't', ' ', 'x', ' ', '=', ' ', '5', ';', ' ', 'x', ' ', '+', ' ', '3', ';', ' ', 'x', ' ', '*', ' ', 'y'], 17, [(Token.EndStatement)]⟩ none ⟨[⟨['x'], 5⟩]⟩ [EvaluationResult.Number 5, EvaluationResult.Number 8] = _
  rw [evalLoopF_step_end 140 none ⟨[⟨['x'], 5⟩]⟩ [EvaluationResult.Number 5, EvaluationResult.Number 8] (by decide : TokenStream.peek ⟨['l', 'e', 't', ' ', 'x', ' ', '=', ' ', '5', ';', ' ', 'x', ' ', '+', ' ', '3', ';', ' ', 'x', ' ', '*', ' ', 'y'], 17, [(Token.EndStatement)]⟩ = (Except.ok (some (Token.EndStatement)), ⟨['l', 'e', 't', ' ', 'x', ' ', '=', ' ', '5', ';', ' ', 'x', ' ', '+', ' ', '3', ';', ' ', 'x', ' ', '*', ' ', 'y'], 17, [(Token.EndStatement)]⟩))]
  show evalLoopF 140 ⟨['l', 'e', 't', ' ', 'x', ' ', '=', ' ', '5', ';', ' ', 'x', ' ', '+', ' ', '3', ';', ' ', 'x', ' ', '*', ' ', 'y'], 17, []⟩ none ⟨[⟨['x'], 5⟩]⟩ [EvaluationResult.Number 5, EvaluationResult.Number 8] = _
  have hstmt : statementF 139 ⟨['l', 'e', 't', ' ', 'x', ' ', '=', ' ', '5', ';', ' ', 'x', ' ', '+', ' ', '3', ';', ' ', 'x', ' ', '*', ' ', 'y'], 19, [(Token.Name ['x'])]⟩ ⟨[⟨['x'], 5⟩]⟩ = some (Except.error (CalcError.undefinedVariable ['y']), ⟨['l', 'e', 't', ' ', 'x', ' ', '=', ' ', '5', ';', ' ', 'x', ' ', '+', ' ', '3', ';', ' ', 'x', ' ', '*', ' ', 'y'], 23, []⟩, ⟨[⟨['x'], 5⟩]⟩) := by
    rw [statementF_name_ref 138 ⟨[⟨['x'], 5⟩]⟩ (by decide : TokenStream.peek ⟨['l', 'e', 't', ' ', 'x', ' ', '=', ' ', '5', ';', ' ', 'x', ' ', '+', ' ', '3', ';', ' ', 'x', ' ', '*', ' ', 'y'], 19, [(Token.Name ['x'])]⟩ = (Except.ok (some (Token.Name ['x'])), ⟨['l', 'e', 't', ' ', 'x', ' ', '=', ' ', '5', ';', ' ', 'x', ' ', '+', ' ', '3', ';', ' ', 'x', ' ', '*', ' ', 'y'], 19, [(Token.Name ['x'])]⟩)) (by decide : TokenStream.peek (TokenStream.next ⟨['l', 'e', 't', ' ', 'x', ' ', '=', ' ', '5', ';', ' ', 'x', ' ', '+', ' ', '3', ';', ' ', 'x', ' ', '*', ' ', 'y'], 19, [(Token.Name ['x'])]⟩).2 = (Except.ok (some (Token.Symbol '*')), ⟨['l', 'e', 't', ' ', 'x', ' ', '=', ' ', '5', ';', ' ', 'x', ' ', '+', ' ', '3', ';', ' ', 'x', ' ', '*', ' ', 'y'], 21, [(Token.Symbol '*')]⟩)) (by decide) (by decide : VarTable.retrieve ⟨[⟨['x'], 5⟩]⟩ ['x'] = some 5)]
    show expressionF 138 ⟨['l', 'e', 't', ' ', 'x', ' ', '=', ' ', '5', ';', ' ', 'x', ' ', '+', ' ', '3', ';', ' ', 'x', ' ', '*', ' ', 'y'], 21, [(Token.Number 5), (Token.Symbol '*')]⟩ ⟨[⟨['x'], 5⟩]⟩ = _
    have htm3 : termF 137 ⟨['l', 'e', 't', ' ', 'x', ' ', '=', ' ', '5', ';', ' ', 'x', ' ', '+', ' ', '3', ';', ' ', 'x', ' ', '*', ' ', 'y'], 21, [(Token.Number 5), (Token.Symbol '*')]⟩ ⟨[⟨['x'], 5⟩]⟩ = some (Except.error (CalcError.undefinedVariable ['y']), ⟨['l', 'e', 't', ' ', 'x', ' ', '=', ' ', '5', ';', ' ', 'x', ' ', '+', ' ', '3', ';', ' ', 'x', ' ', '*', ' ', 'y'], 23, []⟩, ⟨[⟨['x'], 5⟩]⟩) := by
      have hpr1 : primaryF 136 ⟨['l', 'e', 't', ' ', 'x', ' ', '=', ' ', '5', ';', ' ', 'x', ' ', '+', ' ', '3', ';', ' ', 'x', ' ', '*', ' ', 'y'], 21, [(Token.Number 5), (Token.Symbol '*')]⟩ ⟨[⟨['x'], 5⟩]⟩ = some (Except.ok 5, ⟨['l', 'e', 't', ' ', 'x', ' ', '=', ' ', '5', ';', ' ', 'x', ' ', '+', ' ', '3', ';', ' ', 'x', ' ', '*', ' ', 'y'], 21, [(Token.Symbol '*')]⟩, ⟨[⟨['x'], 5⟩]⟩) := by
        exact primaryF_num 135 ⟨[⟨['x'], 5⟩]⟩ (by decide : TokenStream.next ⟨['l', 'e', 't', ' ', 'x', ' ', '=', ' ', '5', ';', ' ', 'x', ' ', '+', ' ', '3', ';', ' ', 'x', ' ', '*', ' ', 'y'], 21, [(Token.Number 5), (Token.Symbol '*')]⟩ = (Except.ok (some (Token.Number 5)), ⟨['l', 'e', 't', ' ', 'x', ' ', '=', ' ', '5', ';', ' ', 'x', ' ', '+', ' ', '3', ';', ' ', 'x', ' ', '*', ' ', 'y'], 21, [(Token.Symbol '*')]⟩))
      rw [termF_step_ok 136 hpr1]
      have hpr2 : primaryF 135 ⟨['l', 'e', 't', ' ', 'x', ' ', '=', ' ', '5', ';', ' ', 'x', ' ', '+', ' ', '3', ';', ' ', 'x', ' ', '*', ' ', 'y'], 21, []⟩ ⟨[⟨['x'], 5⟩]⟩ = some (Except.error (CalcError.undefinedVariable ['y']), ⟨['l', 'e', 't', ' ', 'x', ' ', '=', ' ', '5', ';', ' ', 'x', ' ', '+', ' ', '3', ';', ' ', 'x', ' ', '*', ' ', 'y'], 23, []⟩, ⟨[⟨['x'], 5⟩]⟩) := by
        exact primaryF_name_none 134 ⟨[⟨['x'], 5⟩]⟩ (by decide : TokenStream.next ⟨['l', 'e', 't', ' ', 'x', ' ', '=', ' ', '5', ';', ' ', 'x', ' ', '+', ' ', '3', ';', ' ', 'x', ' ', '*', ' ', 'y'], 21, []⟩ = (Except.ok (some (Token.Name ['y'])), ⟨['l', 'e', 't', ' ', 'x', ' ', '=', ' ', '5', ';', ' ', 'x', ' ', '+', ' ', '3', ';', ' ', 'x', ' ', '*', ' ', 'y'], 23, []⟩)) (by decide : VarTable.retrieve ⟨[⟨['x'], 5⟩]⟩ ['y'] = none)
      exact termAuxF_step_mul_err 135 5 (by decide : TokenStream.peek ⟨['l', 'e', 't', ' ', 'x', ' ', '=', ' ', '5', ';', ' ', 'x', ' ', '+', ' ', '3', ';', ' ', 'x', ' ', '*', ' ', 'y'], 21, [(Token.Symbol '*')]⟩ = (Except.ok (some (Token.Symbol '*')), ⟨['l', 'e', 't', ' ', 'x', ' ', '=', ' ', '5', ';', ' ', 'x', ' ', '+', ' ', '3', ';', ' ', 'x', ' ', '*', ' ', 'y'], 21, [(Token.Symbol '*')]⟩)) (by decide : TokenStream.next ⟨['l', 'e', 't', ' ', 'x', ' ', '=', ' ', '5', ';', ' ', 'x', ' ', '+', ' ', '3', ';', ' ', 'x', ' ', '*', ' ', 'y'], 21, [(Token.Symbol '*')]⟩ = (Except.ok (some (Token.Symbol '*')), ⟨['l', 'e', 't', ' ', 'x', ' ', '=', ' ', '5', ';', ' ', 'x', ' ', '+', ' ', '3', ';', ' ', 'x', ' ', '*', ' ', 'y'], 21, []⟩)) hpr2
    exact expressionF_step_err 137 htm3
  rw [evalLoopF_step_stmt_err 139 none [EvaluationResult.Number 5, EvaluationResult.Number 8] (by decide : TokenStream.peek ⟨['l', 'e', 't', ' ', 'x', ' ', '=', ' ', '5', ';', ' ', 'x', ' ', '+', ' ', '3', ';', ' ', 'x', ' ', '*', ' ', 'y'], 17, []⟩ = (Except.ok (some (Token.Name ['x'])), ⟨['l', 'e', 't', ' ', 'x', ' ', '=', ' ', '5', ';', ' ', 'x', ' ', '+', ' ', '3', ';', ' ', 'x', ' ', '*', ' ', 'y'], 19, [(Token.Name ['x'])]⟩)) (by decide) (by decide) (by decide) hstmt]
  clear hstmt
  show evalLoopF 139 ⟨['l', 'e', 't', ' ', 'x', ' ', '=', ' ', '5', ';', ' ', 'x', ' ', '+', ' ', '3', ';', ' ', 'x', ' ', '*', ' ', 'y'], 23, []⟩ none ⟨[⟨['x'], 5⟩]⟩ [EvaluationResult.Number 5, EvaluationResult.Number 8, EvaluationResult.Error (EvalError.evaluatingToken (Token.Name ['x']) (CalcError.undefinedVariable ['y']))] = _
  rw [evalLoopF_step_eos 138 none ⟨[⟨['x'], 5⟩]⟩ [EvaluationResult.Number 5, EvaluationResult.Number 8, EvaluationResult.Error (EvalError.evaluatingToken (Token.Name ['x']) (CalcError.undefinedVariable ['y']))] (by decide : TokenStream.peek ⟨['l', 'e', 't', ' ', 'x', ' ', '=', ' ', '5', ';', ' ', 'x', ' ', '+', ' ', '3', ';', ' ', 'x', ' ', '*', ' ', 'y'], 23, []⟩ = (Except.ok none, ⟨['l', 'e', 't', ' ', 'x', ' ', '=', ' ', '5', ';', ' ', 'x', ' ', '+', ' ', '3', ';', ' ', 'x', ' ', '*', ' ', 'y'], 23, []⟩))]

theorem runC6b :
    evaluate ['l', 'e', 't', ' ', 'x', ' ', '=', ' ', '5', ';', ' ', 'x', ' ', '+', ' ', '3'] ⟨[]⟩ = some ([EvaluationResult.Number 5, EvaluationResult.Number 8], ⟨[⟨['x'], 5⟩]⟩) := by
  show evalLoopF 102 ⟨['l', 'e', 't', ' ', 'x', ' ', '=', ' ', '5', ';', ' ', 'x', ' ', '+', ' ', '3'], 0, []⟩ none ⟨[]⟩ [] = _
  have hstmt : statementF 101 ⟨['l', 'e', 't', ' ', 'x', ' ', '=', ' ', '5', ';', ' ', 'x', ' ', '+', ' ', '3'], 3, [(Token.Let)]⟩ ⟨[]⟩ = some (Except.ok 5, ⟨['l', 'e', 't', ' ', 'x', ' ', '=', ' ', '5', ';', ' ', 'x', ' ', '+', ' ', '3'], 10, [(Token.EndStatement)]⟩, ⟨[⟨['x'], 5⟩]⟩) := by
    have hex3 : expressionF 100 ⟨['l', 'e', 't', ' ', 'x', ' ', '=', ' ', '5', ';', ' ', 'x', ' ', '+', ' ', '3'], 7, []⟩ ⟨[]⟩ = some (Except.ok 5, ⟨['l', 'e', 't', ' ', 'x', ' ', '=', ' ', '5', ';', ' ', 'x', ' ', '+', ' ', '3'], 10, [(Token.EndStatement)]⟩, ⟨[]⟩) := by
      have htm2 : termF 99 ⟨['l', 'e', 't', ' ', 'x', ' ', '=', ' ', '5', ';', ' ', 'x', ' ', '+', ' ', '3'], 7, []⟩ ⟨[]⟩ = some (Except.ok 5, ⟨['l', 'e', 't', ' ', 'x', ' ', '=', ' ', '5', ';', ' ', 'x', ' ', '+', ' ', '3'], 10, [(Token.EndStatement)]⟩, ⟨[]⟩) := by
        have hpr1 : primaryF 98 ⟨['l', 'e', 't', ' ', 'x', ' ', '=', ' ', '5', ';', ' ', 'x', ' ', '+', ' ', '3'], 7, []⟩ ⟨[]⟩ = some (Except.ok 5, ⟨['l', 'e', 't', ' ', 'x', ' ', '=', ' ', '5', ';', ' ', 'x', ' ', '+', ' ', '3'], 9, []⟩, ⟨[]⟩) := by
          exact primaryF_num 97 ⟨[]⟩ (by decide : TokenStream.next ⟨['l', 'e', 't', ' ', 'x', ' ', '=', ' ', '5', ';', ' ', 'x', ' ', '+', ' ', '3'], 7, []⟩ = (Except.ok (some (Token.Number 5)), ⟨['l', 'e', 't', ' ', 'x', ' ', '=', ' ', '5', ';', ' ', 'x', ' ', '+', ' ', '3'], 9, []⟩))
        rw [termF_step_ok 98 hpr1]
        exact termAuxF_stop_at 97 5 ⟨[]⟩ (some (Token.EndStatement)) (by decide : TokenStream.peek ⟨['l', 'e', 't', ' ', 'x', ' ', '=', ' ', '5', ';', ' ', 'x', ' ', '+', ' ', '3'], 9, []⟩ = (Except.ok (some (Token.EndStatement)), ⟨['l', 'e', 't', ' ', 'x', ' ', '=', ' ', '5', ';', ' ', 'x', ' ', '+', ' ', '3'], 10, [(Token.EndStatement)]⟩)) (by decide) (by decide)
      rw [expressionF_step_ok 99 htm2]
      exact exprAuxF_stop_at 98 5 ⟨[]⟩ (some (Token.EndStatement)) (by decide : TokenStream.peek ⟨['l', 'e', 't', ' ', 'x', ' ', '=', ' ', '5', ';', ' ', 'x', ' ', '+', ' ', '3'], 10, [(Token.EndStatement)]⟩ = (Except.ok (some (Token.EndStatement)), ⟨['l', 'e', 't', ' ', 'x', ' ', '=', ' ', '5', ';', ' ', 'x', ' ', '+', ' ', '3'], 10, [(Token.EndStatement)]⟩)) (by decide) (by decide)
    exact (statementF_let_new 100 ⟨[]⟩ (by decide : TokenStream.peek ⟨['l', 'e', 't', ' ', 'x', ' ', '=', ' ', '5', ';', ' ', 'x', ' ', '+', ' ', '3'], 3, [(Token.Let)]⟩ = (Except.ok (some (Token.Let)), ⟨['l', 'e', 't', ' ', 'x', ' ', '=', ' ', '5', ';', ' ', 'x', ' ', '+', ' ', '3'], 3, [(Token.Let)]⟩)) (by decide : TokenStream.next (TokenStream.next ⟨['l', 'e', 't', ' ', 'x', ' ', '=', ' ', '5', ';', ' ', 'x', ' ', '+', ' ', '3'], 3, [(Token.Let)]⟩).2 = (Except.ok (some (Token.Name ['x'])), ⟨['l', 'e', 't', ' ', 'x', ' ', '=', ' ', '5', ';', ' ', 'x', ' ', '+', ' ', '3'], 5, []⟩)) (by decide : VarTable.contains ⟨[]⟩ ['x'] = false) (by decide : TokenStream.next ⟨['l', 'e', 't', ' ', 'x', ' ', '=', ' ', '5', ';', ' ', 'x', ' ', '+', ' ', '3'], 5, []⟩ = (Except.ok (some (Token.Symbol '=')), ⟨['l', 'e', 't', ' ', 'x', ' ', '=', ' ', '5', ';', ' ', 'x', ' ', '+', ' ', '3'], 7, []⟩)) (Or.inr rfl) hex3).trans (by decide)
  rw [evalLoopF_step_stmt_ok 101 none [] (by decide : TokenStream.peek ⟨['l', 'e', 't', ' ', 'x', ' ', '=', ' ', '5', ';', ' ', 'x', ' ', '+', ' ', '3'], 0, []⟩ = (Except.ok (some (Token.Let)), ⟨['l', 'e', 't', ' ', 'x', ' ', '=', ' ', '5', ';', ' ', 'x', ' ', '+', ' ', '3'], 3, [(Token.Let)]⟩)) (by decide) (by decide) (by decide) hstmt]
  clear hstmt
  show evalLoopF 101 ⟨['l', 'e', 't', ' ', 'x', ' ', '=', ' ', '5', ';', ' ', 'x', ' ', '+', ' ', '3'], 10, [(Token.EndStatement)]⟩ none ⟨[⟨['x'], 5⟩]⟩ [EvaluationResult.Number 5] = _
  rw [evalLoopF_step_end 100 none ⟨[⟨['x'], 5⟩]⟩ [EvaluationResult.Number 5] (by decide : TokenStream.peek ⟨['l', 'e', 't', ' ', 'x', ' ', '=', ' ', '5', ';', ' ', 'x', ' ', '+', ' ', '3'], 10, [(Token.EndStatement)]⟩ = (Except.ok (some (Token.EndStatement)), ⟨['l', 'e', 't', ' ', 'x', ' ', '=', ' ', '5', ';', ' ', 'x', ' ', '+', ' ', '3'], 10, [(Token.EndStatement)]⟩))]
  show evalLoopF 100 ⟨['l', 'e', 't', ' ', 'x', ' ', '=', ' ', '5', ';', ' ', 'x', ' ', '+', ' ', '3'], 10, []⟩ none ⟨[⟨['x'], 5⟩]⟩ [EvaluationResult.Number 5] = _
  have hstmt : statementF 99 ⟨['l', 'e', 't', ' ', 'x', ' ', '=', ' ', '5', ';', ' ', 'x', ' ', '+', ' ', '3'], 12, [(Token.Name ['x'])]⟩ ⟨[⟨['x'], 5⟩]⟩ = some (Except.ok 8, ⟨['l', 'e', 't', ' ', 'x', ' ', '=', ' ', '5', ';', ' ', 'x', ' ', '+', ' ', '3'], 16, []⟩, ⟨[⟨['x'], 5⟩]⟩) := by
    rw [statementF_name_ref 98 ⟨[⟨['x'], 5⟩]⟩ (by decide : TokenStream.peek ⟨['l', 'e', 't', ' ', 'x', ' ', '=', ' ', '5', ';', ' ', 'x', ' ', '+', ' ', '3'], 12, [(Token.Name ['x'])]⟩ = (Except.ok (some (Token.Name ['x'])), ⟨['l', 'e', 't', ' ', 'x', ' ', '=', ' ', '5', ';', ' ', 'x', ' ', '+', ' ', '3'], 12, [(Token.Name ['x'])]⟩)) (by decide : TokenStream.peek (TokenStream.next ⟨['l', 'e', 't', ' ', 'x', ' ', '=', ' ', '5', ';', ' ', 'x', ' ', '+', ' ', '3'], 12, [(Token.Name ['x'])]⟩).2 = (Except.ok (some (Token.Symbol '+')), ⟨['l', 'e', 't', ' ', 'x', ' ', '=', ' ', '5', ';', ' ', 'x', ' ', '+', ' ', '3'], 14, [(Token.Symbol '+')]⟩)) (by decide) (by decide : VarTable.retrieve ⟨[⟨['x'], 5⟩]⟩ ['x'] = some 5)]
    show expressionF 98 ⟨['l', 'e', 't', ' ', 'x', ' ', '=', ' ', '5', ';', ' ', 'x', ' ', '+', ' ', '3'], 14, [(Token.Number 5), (Token.Symbol '+')]⟩ ⟨[⟨['x'], 5⟩]⟩ = _
    have htm2 : termF 97 ⟨['l', 'e', 't', ' ', 'x', ' ', '=', ' ', '5', ';', ' ', 'x', ' ', '+', ' ', '3'], 14, [(Token.Number 5), (Token.Symbol '+')]⟩ ⟨[⟨['x'], 5⟩]⟩ = some (Except.ok 5, ⟨['l', 'e', 't', ' ', 'x', ' ', '=', ' ', '5', ';', ' ', 'x', ' ', '+', ' ', '3'], 14, [(Token.Symbol '+')]⟩, ⟨[⟨['x'], 5⟩]⟩) := by
      have hpr1 : primaryF 96 ⟨['l', 'e', 't', ' ', 'x', ' ', '=', ' ', '5', ';', ' ', 'x', ' ', '+', ' ', '3'], 14, [(Token.Number 5), (Token.Symbol '+')]⟩ ⟨[⟨['x'], 5⟩]⟩ = some (Except.ok 5, ⟨['l', 'e', 't', ' ', 'x', ' ', '=', ' ', '5', ';', ' ', 'x', ' ', '+', ' ', '3'], 14, [(Token.Symbol '+')]⟩, ⟨[⟨['x'], 5⟩]⟩) := by
        exact primaryF_num 95 ⟨[⟨['x'], 5⟩]⟩ (by decide : TokenStream.next ⟨['l', 'e', 't', ' ', 'x', ' ', '=', ' ', '5', ';', ' ', 'x', ' ', '+', ' ', '3'], 14, [(Token.Number 5), (Token.Symbol '+')]⟩ = (Except.ok (some (Token.Number 5)), ⟨['l', 'e', 't', ' ', 'x', ' ', '=', ' ', '5', ';', ' ', 'x', ' ', '+', ' ', '3'], 14, [(Token.Symbol '+')]⟩))
      rw [termF_step_ok 96 hpr1]
      exact termAuxF_stop_at 95 5 ⟨[⟨['x'], 5⟩]⟩ (some (Token.Symbol '+')) (by decide : TokenStream.peek ⟨['l', 'e', 't', ' ', 'x', ' ', '=', ' ', '5', ';', ' ', 'x', ' ', '+', ' ', '3'], 14, [(Token.Symbol '+')]⟩ = (Except.ok (some (Token.Symbol '+')), ⟨['l', 'e', 't', ' ', 'x', ' ', '=', ' ', '5', ';', ' ', 'x', ' ', '+', ' ', '3'], 14, [(Token.Symbol '+')]⟩)) (by decide) (by decide)
    rw [expressionF_step_ok 97 htm2]
    have htm4 : termF 96 ⟨['l', 'e', 't', ' ', 'x', ' ', '=', ' ', '5', ';', ' ', 'x', ' ', '+', ' ', '3'], 14, []⟩ ⟨[⟨['x'], 5⟩]⟩ = some (Except.ok 3, ⟨['l', 'e', 't', ' ', 'x', ' ', '=', ' ', '5', ';', ' ', 'x', ' ', '+', ' ', '3'], 16, []⟩, ⟨[⟨['x'], 5⟩]⟩) := by
      have hpr3 : primaryF 95 ⟨['l', 'e', 't', ' ', 'x', ' ', '=', ' ', '5', ';', ' ', 'x', ' ', '+', ' ', '3'], 14, []⟩ ⟨[⟨['x'], 5⟩]⟩ = some (Except.ok 3, ⟨['l', 'e', 't', ' ', 'x', ' ', '=', ' ', '5', ';', ' ', 'x', ' ', '+', ' ', '3'], 16, []⟩, ⟨[⟨['x'], 5⟩]⟩) := by
        exact primaryF_num 94 ⟨[⟨['x'], 5⟩]⟩ (by decide : TokenStream.next ⟨['l', 'e', 't', ' ', 'x', ' ', '=', ' ', '5', ';', ' ', 'x', ' ', '+', ' ', '3'], 14, []⟩ = (Except.ok (some (Token.Number 3)), ⟨['l', 'e', 't', ' ', 'x', ' ', '=', ' ', '5', ';', ' ', 'x', ' ', '+', ' ', '3'], 16, []⟩))
      rw [termF_step_ok 95 hpr3]
      exact termAuxF_stop_at 94 3 ⟨[⟨['x'], 5⟩]⟩ none (by decide : TokenStream.peek ⟨['l', 'e', 't', ' ', 'x', ' ', '=', ' ', '5', ';', ' ', 'x', ' ', '+', ' ', '3'], 16, []⟩ = (Except.ok none, ⟨['l', 'e', 't', ' ', 'x', ' ', '=', ' ', '5', ';', ' ', 'x', ' ', '+', ' ', '3'], 16, []⟩)) (by decide) (by decide)
    rw [exprAuxF_step_add 96 5 (by decide : TokenStream.peek ⟨['l', 'e', 't', ' ', 'x', ' ', '=', ' ', '5', ';', ' ', 'x', ' ', '+', ' ', '3'], 14, [(Token.Symbol '+')]⟩ = (Except.ok (some (Token.Symbol '+')), ⟨['l', 'e', 't', ' ', 'x', ' ', '=', ' ', '5', ';', ' ', 'x', ' ', '+', ' ', '3'], 14, [(Token.Symbol '+')]⟩)) (by decide : TokenStream.next ⟨['l', 'e', 't', ' ', 'x', ' ', '=', ' ', '5', ';', ' ', 'x', ' ', '+', ' ', '3'], 14, [(Token.Symbol '+')]⟩ = (Except.ok (some (Token.Symbol '+')), ⟨['l', 'e', 't', ' ', 'x', ' ', '=', ' ', '5', ';', ' ', 'x', ' ', '+', ' ', '3'], 14, []⟩)) htm4]
    rw [(by norm_num : (5 : ℚ) + 3 = 8)]
    exact exprAuxF_stop_at 95 8 ⟨[⟨['x'], 5⟩]⟩ none (by decide : TokenStream.peek ⟨['l', 'e', 't', ' ', 'x', ' ', '=', ' ', '5', ';', ' ', 'x', ' ', '+', ' ', '3'], 16, []⟩ = (Except.ok none, ⟨['l', 'e', 't', ' ', 'x', ' ', '=', ' ', '5', ';', ' ', 'x', ' ', '+', ' ', '3'], 16, []⟩)) (by decide) (by decide)
  rw [evalLoopF_step_stmt_ok 99 none [EvaluationResult.Number 5] (by decide : TokenStream.peek ⟨['l', 'e', 't', ' ', 'x', ' ', '=', ' ', '5', ';', ' ', 'x', ' ', '+', ' ', '3'], 10, []⟩ = (Except.ok (some (Token.Name ['x'])), ⟨['l', 'e', 't', ' ', 'x', ' ', '=', ' ', '5', ';', ' ', 'x', ' ', '+', ' ', '3'], 12, [(Token.Name ['x'])]⟩)) (by decide) (by decide) (by decide) hstmt]
  clear hstmt
  show evalLoopF 99 ⟨['l', 'e', 't', ' ', 'x', ' ', '=', ' ', '5', ';', ' ', 'x', ' ', '+', ' ', '3'], 16, []⟩ none ⟨[⟨['x'], 5⟩]⟩ [EvaluationResult.Number 5, EvaluationResult.Number 8] = _
  rw [evalLoopF_step_eos 98 none ⟨[⟨['x'], 5⟩]⟩ [EvaluationResult.Number 5, EvaluationResult.Number 8] (by decide : TokenStream.peek ⟨['l', 'e', 't', ' ', 'x', ' ', '=', ' ', '5', ';', ' ', 'x', ' ', '+', ' ', '3'], 16, []⟩ = (Except.ok none, ⟨['l', 'e', 't', ' ', 'x', ' ', '=', ' ', '5', ';', ' ', 'x', ' ', '+', ' ', '3'], 16, []⟩))]

/-- Counterexample for C2: the line `1 2` (two statements, no `;`)
emits TWO `Number` outcomes; nothing is overwritten. -/
theorem C2_unseparated_statements_both_emitted_counterexample :
    evaluate ['1', ' ', '2'] ⟨[]⟩ = some ([EvaluationResult.Number 1, EvaluationResult.Number 2], ⟨[]⟩) := by
  show evalLoopF 24 ⟨['1', ' ', '2'], 0, []⟩ none ⟨[]⟩ [] = _
  have hstmt : statementF 23 ⟨['1', ' ', '2'], 1, [(Token.Number 1)]⟩ ⟨[]⟩ = some (Except.ok 1, ⟨['1', ' ', '2'], 3, [(Token.Number 2)]⟩, ⟨[]⟩) := by
    rw [statementF_other 22 ⟨[]⟩ (by decide : TokenStream.peek ⟨['1', ' ', '2'], 1, [(Token.Number 1)]⟩ = (Except.ok (some (Token.Number 1)), ⟨['1', ' ', '2'], 1, [(Token.Number 1)]⟩)) (by decide) (by intro lbl h; cases h)]
    have htm2 : termF 21 ⟨['1', ' ', '2'], 1, [(Token.Number 1)]⟩ ⟨[]⟩ = some (Except.ok 1, ⟨['1', ' ', '2'], 3, [(Token.Number 2)]⟩, ⟨[]⟩) := by
      have hpr1 : primaryF 20 ⟨['1', ' ', '2'], 1, [(Token.Number 1)]⟩ ⟨[]⟩ = some (Except.ok 1, ⟨['1', ' ', '2'], 1, []⟩, ⟨[]⟩) := by
        exact primaryF_num 19 ⟨[]⟩ (by decide : TokenStream.next ⟨['1', ' ', '2'], 1, [(Token.Number 1)]⟩ = (Except.ok (some (Token.Number 1)), ⟨['1', ' ', '2'], 1, []⟩))
      rw [termF_step_ok 20 hpr1]
      exact termAuxF_stop_at 19 1 ⟨[]⟩ (some (Token.Number 2)) (by decide : TokenStream.peek ⟨['1', ' ', '2'], 1, []⟩ = (Except.ok (some (Token.Number 2)), ⟨['1', ' ', '2'], 3, [(Token.Number 2)]⟩)) (by decide) (by decide)
    rw [expressionF_step_ok 21 htm2]
    exact exprAuxF_stop_at 20 1 ⟨[]⟩ (some (Token.Number 2)) (by decide : TokenStream.peek ⟨['1', ' ', '2'], 3, [(Token.Number 2)]⟩ = (Except.ok (some (Token.Number 2)), ⟨['1', ' ', '2'], 3, [(Token.Number 2)]⟩)) (by decide) (by decide)
  rw [evalLoopF_step_stmt_ok 23 none [] (by decide : TokenStream.peek ⟨['1', ' ', '2'], 0, []⟩ = (Except.ok (some (Token.Number 1)), ⟨['1', ' ', '2'], 1, [(Token.Number 1)]⟩)) (by decide) (by decide) (by decide) hstmt]
  clear hstmt
  show evalLoopF 23 ⟨['1', ' ', '2'], 3, [(Token.Number 2)]⟩ none ⟨[]⟩ [EvaluationResult.Number 1] = _
  have hstmt : statementF 22 ⟨['1', ' ', '2'], 3, [(Token.Number 2)]⟩ ⟨[]⟩ = some (Except.ok 2, ⟨['1', ' ', '2'], 3, []⟩, ⟨[]⟩) := by
    rw [statementF_other 21 ⟨[]⟩ (by decide : TokenStream.peek ⟨['1', ' ', '2'], 3, [(Token.Number 2)]⟩ = (Except.ok (some (Token.Number 2)), ⟨['1', ' ', '2'], 3, [(Token.Number 2)]⟩)) (by decide) (by intro lbl h; cases h)]
    have htm2 : termF 20 ⟨['1', ' ', '2'], 3, [(Token.Number 2)]⟩ ⟨[]⟩ = some (Except.ok 2, ⟨['1', ' ', '2'], 3, []⟩, ⟨[]⟩) := by
      have hpr1 : primaryF 19 ⟨['1', ' ', '2'], 3, [(Token.Number 2)]⟩ ⟨[]⟩ = some (Except.ok 2, ⟨['1', ' ', '2'], 3, []⟩, ⟨[]⟩) := by
        exact primaryF_num 18 ⟨[]⟩ (by decide : TokenStream.next ⟨['1', ' ', '2'], 3, [(Token.Number 2)]⟩ = (Except.ok (some (Token.Number 2)), ⟨['1', ' ', '2'], 3, []⟩))
      rw [termF_step_ok 19 hpr1]
      exact termAuxF_stop_at 18 2 ⟨[]⟩ none (by decide : TokenStream.peek ⟨['1', ' ', '2'], 3, []⟩ = (Except.ok none, ⟨['1', ' ', '2'], 3, []⟩)) (by decide) (by decide)
    rw [expressionF_step_ok 20 htm2]
    exact exprAuxF_stop_at 19 2 ⟨[]⟩ none (by decide : TokenStream.peek ⟨['1', ' ', '2'], 3, []⟩ = (Except.ok none, ⟨['1', ' ', '2'], 3, []⟩)) (by decide) (by decide)
  rw [evalLoopF_step_stmt_ok 22 none [EvaluationResult.Number 1] (by decide : TokenStream.peek ⟨['1', ' ', '2'], 3, [(Token.Number 2)]⟩ = (Except.ok (some (Token.Number 2)), ⟨['1', ' ', '2'], 3, [(Token.Number 2)]⟩)) (by decide) (by decide) (by decide) hstmt]
  clear hstmt
  show evalLoopF 22 ⟨['1', ' ', '2'], 3, []⟩ none ⟨[]⟩ [EvaluationResult.Number 1, EvaluationResult.Number 2] = _
  rw [evalLoopF_step_eos 21 none ⟨[]⟩ [EvaluationResult.Number 1, EvaluationResult.Number 2] (by decide : TokenStream.peek ⟨['1', ' ', '2'], 3, []⟩ = (Except.ok none, ⟨['1', ' ', '2'], 3, []⟩))]

/-! ### Claims C1, C4, C5, C6 -/

theorem contains_of_retrieve_some {t : VarTable} {lbl : List Char} {q : ℚ}
    (h : t.retrieve lbl = some q) : t.contains lbl = true := by
  unfold VarTable.retrieve at h
  unfold VarTable.contains
  rcases hf : t.vars.find? (fun v => v.label = lbl) with _ | v
  · rw [hf] at h; cases h
  · have hps := List.find?_some hf
    rw [List.any_eq_true]
    exact ⟨v, List.mem_of_find?_eq_some hf, hps⟩

theorem retrieve_store_self (t : VarTable) (lbl : List Char) (q : ℚ) :
    (t.store lbl q).retrieve lbl = some q := by
  unfold VarTable.retrieve VarTable.store
  rw [find?_storeAux]

/-- Claim C1 (token-level general statement plus the four concrete
lines): for every expression built from numeric literals, `+ - * /`,
unary `+`/`-` and parentheses, running the driver on a stream carrying
exactly the rendered tokens of the expression yields the single outcome
`Number (denote e)` — the direct left-associative evaluation with `*`/`/`
binding tighter and unary operators applying to the next primary only —
and the four example lines of the claim evaluate through the real lexer
to `8`, `11`, `16` and `23/2` (= 11.5). -/
theorem C1_literal_expression_evaluation :
    (∀ (e : Expr) (fuel : ℕ) (vt : VarTable), cE e + 3 ≤ fuel →
        evalLoopF fuel ⟨[], 0, tokensE e⟩ none vt [] = some ([.Number e.denote], vt))
    ∧ evaluate ['5', ' ', '+', ' ', '3'] ⟨[]⟩ = some ([.Number 8], ⟨[]⟩)
    ∧ evaluate ['5', ' ', '+', ' ', '3', ' ', '*', ' ', '2'] ⟨[]⟩ = some ([.Number 11], ⟨[]⟩)
    ∧ evaluate ['(', '5', ' ', '+', ' ', '3', ')', ' ', '*', ' ', '2'] ⟨[]⟩
        = some ([.Number 16], ⟨[]⟩)
    ∧ evaluate ['2', ' ', '+', ' ', '3', ' ', '*', ' ', '4', ' ', '-', ' ', '5', ' ', '/', ' ', '2']
        ⟨[]⟩ = some ([.Number (23 / 2)], ⟨[]⟩) :=
  ⟨fun e fuel vt hc => evalLoop_literal e fuel vt hc, runC1a, runC1b, runC1c, runC1d⟩

/-- Witness for C1 at the expression `5 + 3` and fuel 50. -/
theorem C1_literal_expression_evaluation_witness :
    cE (Expr.add (Expr.num 5) (Expr.num 3)) + 3 ≤ 50
    ∧ evalLoopF 50 ⟨[], 0, tokensE (Expr.add (Expr.num 5) (Expr.num 3))⟩ none ⟨[]⟩ []
        = some ([.Number (Expr.add (Expr.num 5) (Expr.num 3)).denote], ⟨[]⟩) :=
  ⟨by decide,
    C1_literal_expression_evaluation.1 (Expr.add (Expr.num 5) (Expr.num 3)) 50 ⟨[]⟩ (by decide)⟩

/-- Claim C4: `let` on an already-defined name fails with
`alreadyDefined` and returns the table unchanged (so the name keeps its
old value), while a plain assignment `NAME = EXPR` on a defined name
succeeds and stores the new value; concretely, with `x` bound to `5`
the line `let x = 10; x + 3` yields `[Error, 8]` and leaves `x` at `5`,
and the line `x = 10` yields `[10]` and rebinds `x` to `10`. -/
theorem C4_let_redefinition_vs_assignment :
    (∀ (n : ℕ) (s s0 s2 : TokenStream) (lbl : List Char) (vt : VarTable) (v : ℚ),
        s.peek = (.ok (some .Let), s0) →
        ((s0.next).2).next = (.ok (some (.Name lbl)), s2) →
        vt.retrieve lbl = some v →
        statementF (n + 1) s vt = some (.error (.alreadyDefined lbl), s2, vt)
          ∧ vt.retrieve lbl = some v)
    ∧ (∀ (n : ℕ) (s s0 s2 s4 : TokenStream) (lbl : List Char) (vt vt4 : VarTable) (v : ℚ),
        s.peek = (.ok (some (.Name lbl)), s0) →
        ((s0.next).2).peek = (.ok (some (.Symbol '=')), s2) →
        vt.contains lbl = true →
        expressionF n ((s2.next).2) vt = some (.ok v, s4, vt4) →
        statementF (n + 1) s vt = some (.ok v, s4, vt4.store lbl v)
          ∧ (vt4.store lbl v).retrieve lbl = some v)
    ∧ evaluate ['l', 'e', 't', ' ', 'x', ' ', '=', ' ', '1', '0', ';', ' ', 'x', ' ', '+', ' ', '3']
        ⟨[⟨['x'], 5⟩]⟩
        = some ([.Error (.evaluatingToken Token.Let (.alreadyDefined ['x'])), .Number 8],
            ⟨[⟨['x'], 5⟩]⟩)
    ∧ evaluate ['x', ' ', '=', ' ', '1', '0'] ⟨[⟨['x'], 5⟩]⟩
        = some ([.Number 10], ⟨[⟨['x'], 10⟩]⟩) := by
  refine ⟨?_, ?_, runC4a, runC4b⟩
  · intro n s s0 s2 lbl vt v hp hn hv
    exact ⟨statementF_let_dup n vt hp hn (contains_of_retrieve_some hv), hv⟩
  · intro n s s0 s2 s4 lbl vt vt4 v hp hn hc hex
    exact ⟨statementF_assign n vt hp hn hc hex, retrieve_store_self vt4 lbl v⟩

/-- Witness for C4 on `let x = 10; x + 3` with `x` bound to `5`. -/
theorem C4_let_redefinition_vs_assignment_witness :
    statementF 9
        ⟨['l', 'e', 't', ' ', 'x', ' ', '=', ' ', '1', '0', ';', ' ', 'x', ' ', '+', ' ', '3'], 0, []⟩
        ⟨[⟨['x'], 5⟩]⟩
      = some (.error (.alreadyDefined ['x']),
          ⟨['l', 'e', 't', ' ', 'x', ' ', '=', ' ', '1', '0', ';', ' ', 'x', ' ', '+', ' ', '3'], 5, []⟩,
          ⟨[⟨['x'], 5⟩]⟩)
    ∧ (⟨[⟨['x'], 5⟩]⟩ : VarTable).retrieve ['x'] = some 5 :=
  C4_let_redefinition_vs_assignment.1 8
    ⟨['l', 'e', 't', ' ', 'x', ' ', '=', ' ', '1', '0', ';', ' ', 'x', ' ', '+', ' ', '3'], 0, []⟩
    ⟨['l', 'e', 't', ' ', 'x', ' ', '=', ' ', '1', '0', ';', ' ', 'x', ' ', '+', ' ', '3'], 3,
      [Token.Let]⟩
    ⟨['l', 'e', 't', ' ', 'x', ' ', '=', ' ', '1', '0', ';', ' ', 'x', ' ', '+', ' ', '3'], 5, []⟩
    ['x'] ⟨[⟨['x'], 5⟩]⟩ 5 (by decide) (by decide) (by decide)

/-- Claim C5: a statement that begins with a defined name not followed
by `=` resolves the name to its stored value, injects that value back
into the stream as a `Number` token (put-back), and re-parses from
`expression`; the line `let x = 5; x / -10; x = 10; x + 3` (the
division written without spaces in the input) yields
`[5, -0.5, 10, 13]` (with `-0.5` the exact rational `-1/2`). -/
theorem C5_name_resolution_via_put_back :
    (∀ (n : ℕ) (s s0 s2 : TokenStream) (lbl : List Char) (o : Option Token)
        (vt : VarTable) (v : ℚ),
        s.peek = (.ok (some (.Name lbl)), s0) →
        ((s0.next).2).peek = (.ok o, s2) →
        o ≠ some (.Symbol '=') →
        vt.retrieve lbl = some v →
        statementF (n + 1) s vt = expressionF n (s2.pushBack (Token.Number v)) vt)
    ∧ evaluate ['l', 'e', 't', ' ', 'x', ' ', '=', ' ', '5', ';', ' ', 'x', '/', '-', '1', '0',
        ';', ' ', 'x', ' ', '=', ' ', '1', '0', ';', ' ', 'x', ' ', '+', ' ', '3'] ⟨[]⟩
        = some ([.Number 5, .Number (-1 / 2), .Number 10, .Number 13], ⟨[⟨['x'], 10⟩]⟩) := by
  refine ⟨?_, runC5⟩
  intro n s s0 s2 lbl o vt v hp hn ho hr
  exact statementF_name_ref n vt hp hn ho hr

/-- Witness for C5 on the statement `x + 3` with `x` bound to `5`. -/
theorem C5_name_resolution_via_put_back_witness :
    statementF 5 ⟨['x', ' ', '+', ' ', '3'], 0, []⟩ ⟨[⟨['x'], 5⟩]⟩
      = expressionF 4
          (TokenStream.pushBack ⟨['x', ' ', '+', ' ', '3'], 3, [Token.Symbol '+']⟩ (Token.Number 5))
          ⟨[⟨['x'], 5⟩]⟩ :=
  C5_name_resolution_via_put_back.1 4
    ⟨['x', ' ', '+', ' ', '3'], 0, []⟩
    ⟨['x', ' ', '+', ' ', '3'], 1, [Token.Name ['x']]⟩
    ⟨['x', ' ', '+', ' ', '3'], 3, [Token.Symbol '+']⟩
    ['x'] (some (Token.Symbol '+')) ⟨[⟨['x'], 5⟩]⟩ 5
    (by decide) (by decide) (by decide) (by decide)

/-- Claim C6: referencing a name absent from the table yields the
`undefinedVariable` error, both inside an expression (`primary`) and
for a statement that begins with the undefined name; on a multi-
statement line only the offending statement turns into an `Error`
outcome: `let x = 5; x + 3; x * y` yields `[5, 8, Error]`, and the
prefix line `let x = 5; x + 3` yields the same first two outcomes
`[5, 8]` with the same final table. -/
theorem C6_undefined_variable_error_isolation :
    (∀ (n : ℕ) (s s1 : TokenStream) (lbl : List Char) (vt : VarTable),
        s.next = (.ok (some (.Name lbl)), s1) →
        vt.retrieve lbl = none →
        primaryF (n + 1) s vt = some (.error (.undefinedVariable lbl), s1, vt))
    ∧ (∀ (n : ℕ) (s s0 s2 : TokenStream) (lbl : List Char) (o : Option Token) (vt : VarTable),
        s.peek = (.ok (some (.Name lbl)), s0) →
        ((s0.next).2).peek = (.ok o, s2) →
        o ≠ some (.Symbol '=') →
        vt.retrieve lbl = none →
        statementF (n + 1) s vt = some (.error (.undefinedVariable lbl), s2, vt))
    ∧ evaluate ['l', 'e', 't', ' ', 'x', ' ', '=', ' ', '5', ';', ' ', 'x', ' ', '+', ' ', '3',
        ';', ' ', 'x', ' ', '*', ' ', 'y'] ⟨[]⟩
        = some ([.Number 5, .Number 8,
            .Error (.evaluatingToken (Token.Name ['x']) (.undefinedVariable ['y']))],
            ⟨[⟨['x'], 5⟩]⟩)
    ∧ evaluate ['l', 'e', 't', ' ', 'x', ' ', '=', ' ', '5', ';', ' ', 'x', ' ', '+', ' ', '3']
        ⟨[]⟩ = some ([.Number 5, .Number 8], ⟨[⟨['x'], 5⟩]⟩) := by
  refine ⟨?_, ?_, runC6a, runC6b⟩
  · intro n s s1 lbl vt hn hr
    exact primaryF_name_none n vt hn hr
  · intro n s s0 s2 lbl o vt hp hn ho hr
    exact statementF_name_undef n vt hp hn ho hr

/-- Witness for C6 on the primary `y` with table `{x := 5}`. -/
theorem C6_undefined_variable_error_isolation_witness :
    primaryF 3 ⟨['y'], 0, []⟩ ⟨[⟨['x'], 5⟩]⟩
      = some (.error (.undefinedVariable ['y']), ⟨['y'], 1, []⟩, ⟨[⟨['x'], 5⟩]⟩) :=
  C6_undefined_variable_error_isolation.1 2 ⟨['y'], 0, []⟩ ⟨['y'], 1, []⟩ ['y']
    ⟨[⟨['x'], 5⟩]⟩ (by decide) (by decide)


/-! ### Claim C10: termination of the evaluation driver -/

/-- Termination measure: remaining buffer characters plus injected
tokens. -/
def mu (ts : TokenStream) : ℕ :=
  (ts.buffer.length - ts.pos) + ts.put_back.length

/-- No `Noop` token is ever injected into a stream; the driver relies on
this because its `Noop` arm does not consume anything. -/
def NoopFree (ts : TokenStream) : Prop :=
  Token.Noop ∉ ts.put_back

theorem skipWs_ge (b : List Char) (pos : ℕ) : pos ≤ skipWs b pos :=
  Nat.le_add_right _ _

theorem readLiteralChars_len_ge : ∀ (l ctx : List Char),
    ctx.length ≤ (readLiteralChars l ctx).length := by
  intro l
  induction l with
  | nil => intro ctx; exact le_rfl
  | cons c rest ih =>
      intro ctx
      unfold readLiteralChars
      split
      · exact le_trans (by simp) (ih (ctx ++ [c]))
      · exact le_rfl

theorem readLiteralChars_cons_len (c : Char) (rest : List Char)
    (h : is_beginning_of_literal c = true) :
    1 ≤ (readLiteralChars (c :: rest) []).length := by
  have hp : is_part_of_literal c [] = true := by
    unfold is_beginning_of_literal at h
    unfold is_part_of_literal
    simp only [List.getLast?_nil]
    simp only [reduceCtorEq, or_self, if_false]
    rcases Bool.or_eq_true_iff.mp h with h | h <;> simp [h]
  unfold readLiteralChars
  rw [if_pos hp]
  simpa using readLiteralChars_len_ge rest [c]

theorem read_number_shape (ts : TokenStream) (r : Except CalcError ℚ) (s' : TokenStream)
    (h : ts.read_number = (r, s')) :
    s'.buffer = ts.buffer ∧ s'.put_back = ts.put_back
    ∧ s'.pos = ts.pos + (readLiteralChars (ts.buffer.drop ts.pos) []).length := by
  unfold TokenStream.read_number at h
  simp only [] at h
  split at h <;> (cases h; exact ⟨rfl, rfl, rfl⟩)

theorem next_facts (ts : TokenStream) (r : Except CalcError (Option Token))
    (s' : TokenStream) (h : ts.next = (r, s')) :
    mu s' ≤ mu ts
    ∧ (∀ t, r = .ok (some t) → mu s' < mu ts)
    ∧ (∀ e, r = .error e → mu s' < mu ts)
    ∧ (NoopFree ts → NoopFree s')
    ∧ (∀ t, r = .ok (some t) → NoopFree ts → t ≠ Token.Noop) := by
  obtain ⟨b, pos, pb⟩ := ts
  cases pb with
  | cons t rest =>
      unfold TokenStream.next at h
      simp only [] at h
      cases h
      refine ⟨?_, ?_, ?_, ?_, ?_⟩
      · simp [mu]
      · intro t' ht'
        simp [mu]
      · intro e he
        cases he
      · intro hnf hm
        exact hnf (List.mem_cons_of_mem _ hm)
      · intro t' ht' hnf
        cases ht'
        intro heq
        exact hnf (heq ▸ List.mem_cons_self _ _)
  | nil =>
      have hsw := skipWs_ge b pos
      unfold TokenStream.next at h
      simp only [] at h
      split at h
      · rename_i hlt
        have hdrop : b.drop (skipWs b pos)
            = b.get ⟨skipWs b pos, hlt⟩ :: b.drop (skipWs b pos + 1) := by
          rw [List.drop_eq_getElem_cons hlt]
          simp
        split at h
        · -- literal branch
          rename_i hbl
          have hone : 1 ≤ (readLiteralChars (b.drop (skipWs b pos)) []).length := by
            rw [hdrop]
            exact readLiteralChars_cons_len _ _ hbl
          split at h
          · rename_i n ts2 heq
            obtain ⟨hbuf, hpb, hpos⟩ := read_number_shape _ _ _ heq
            simp at hbuf hpb hpos
            cases h
            refine ⟨?_, ?_, ?_, ?_, ?_⟩
            · simp [mu, hbuf, hpb, hpos]
              omega
            · intro t' ht'
              simp [mu, hbuf, hpb, hpos]
              omega
            · intro e he
              cases he
            · intro _
              simp [NoopFree, hpb]
            · intro t' ht' _
              cases ht'
              simp
          · rename_i e ts2 heq
            obtain ⟨hbuf, hpb, hpos⟩ := read_number_shape _ _ _ heq
            simp at hbuf hpb hpos
            cases h
            refine ⟨?_, ?_, ?_, ?_, ?_⟩
            · simp [mu, hbuf, hpb, hpos]
              omega
            · intro t' ht'
              cases ht'
            · intro e' he'
              simp [mu, hbuf, hpb, hpos]
              omega
            · intro _
              simp [NoopFree, hpb]
            · intro t' ht'
              cases ht'
        · split at h
          · -- symbol branch
            split at h
            · -- semicolon
              split at h
              · cases h
                refine ⟨?_, ?_, ?_, ?_, ?_⟩
                · simp [mu]
                  omega
                · intro t' ht'
                  simp [mu]
                  omega
                · intro e he
                  cases he
                · intro _
                  simp [NoopFree]
                · intro t' ht' _
                  cases ht'
                  simp
              · cases h
                refine ⟨?_, ?_, ?_, ?_, ?_⟩
                · simp [mu]
                  omega
                · intro t' ht'
                  cases ht'
                · intro e he
                  cases he
                · intro _
                  simp [NoopFree]
                · intro t' ht'
                  cases ht'
            · split at h
              · -- quit
                cases h
                refine ⟨?_, ?_, ?_, ?_, ?_⟩
                · simp [mu]
                  omega
                · intro t' ht'
                  simp [mu]
                  omega
                · intro e he
                  cases he
                · intro _
                  simp [NoopFree]
                · intro t' ht' _
                  cases ht'
                  simp
              · -- plain symbol
                cases h
                refine ⟨?_, ?_, ?_, ?_, ?_⟩
                · simp [mu]
                  omega
                · intro t' ht'
                  simp [mu]
                  omega
                · intro e he
                  cases he
                · intro _
                  simp [NoopFree]
                · intro t' ht' _
                  cases ht'
                  simp
          · split at h
            · -- alphabetic branch
              rename_i halpha
              have hone : 1 ≤ ((b.drop (skipWs b pos)).takeWhile Char.isAlphanum).length := by
                rw [hdrop, List.takeWhile_cons_of_pos (by
                  simp only [Char.isAlphanum, Bool.or_eq_true]
                  left
                  simpa using halpha)]
                simp
              split at h
              · -- keyword let
                cases h
                refine ⟨?_, ?_, ?_, ?_, ?_⟩
                · simp [mu, TokenStream.read_string]
                  omega
                · intro t' ht'
                  simp [mu, TokenStream.read_string]
                  omega
                · intro e he
                  cases he
                · intro _
                  simp [NoopFree, TokenStream.read_string]
                · intro t' ht' _
                  cases ht'
                  simp
              · -- a name
                cases h
                refine ⟨?_, ?_, ?_, ?_, ?_⟩
                · simp [mu, TokenStream.read_string]
                  omega
                · intro t' ht'
                  simp [mu, TokenStream.read_string]
                  omega
                · intro e he
                  cases he
                · intro _
                  simp [NoopFree, TokenStream.read_string]
                · intro t' ht' _
                  cases ht'
                  simp
            · -- invalid symbol
              cases h
              refine ⟨?_, ?_, ?_, ?_, ?_⟩
              · simp [mu]
                omega
              · intro t' ht'
                cases ht'
              · intro e he
                simp [mu]
                omega
              · intro _
                simp [NoopFree]
              · intro t' ht'
                cases ht'
      · -- end of buffer
        cases h
        refine ⟨?_, ?_, ?_, ?_, ?_⟩
        · simp [mu]
          omega
        · intro t' ht'
          cases ht'
        · intro e he
          cases he
        · intro _
          simp [NoopFree]
        · intro t' ht'
          cases ht'

theorem peek_facts (ts : TokenStream) (r : Except CalcError (Option Token))
    (s' : TokenStream) (h : ts.peek = (r, s')) :
    mu s' ≤ mu ts
    ∧ (∀ e, r = .error e → mu s' < mu ts)
    ∧ (NoopFree ts → NoopFree s')
    ∧ (∀ t, r = .ok (some t) → NoopFree ts → t ≠ Token.Noop)
    ∧ (∀ t, r = .ok (some t) → s'.put_back.length = (ts.next).2.put_back.length + 1
        ∧ s'.next = (.ok (some t), (ts.next).2)) := by
  rcases hn : ts.next with ⟨rn, sn⟩
  obtain ⟨hle, hlt, herr, hnf, hnoop⟩ := next_facts ts rn sn hn
  unfold TokenStream.peek at h
  rw [hn] at h
  split at h
  · rename_i t ts1 heq
    cases heq
    cases h
    refine ⟨?_, ?_, ?_, ?_, ?_⟩
    · have := hlt t rfl
      simp [mu] at this ⊢
      omega
    · intro e he
      cases he
    · intro hn0
      have ht := hnoop t rfl hn0
      intro hm
      rcases List.mem_cons.mp hm with hm | hm
      · exact ht hm.symm
      · exact hnf hn0 hm
    · intro t' ht' hn0
      cases ht'
      exact hnoop t rfl hn0
    · intro t' ht'
      cases ht'
      exact ⟨by simp, rfl⟩
  · rename_i hne
    cases h
    refine ⟨hle, herr, hnf, ?_, ?_⟩
    · intro t ht hn0
      exact ((hne t s' (by rw [ht])).elim : t ≠ Token.Noop)
    · intro t ht
      exact (hne t s' (by rw [ht])).elim

/-- Adequacy outcome: the fuel did not run out, the resulting stream's
measure is bounded, and it is still `Noop`-free. -/
def Progress (bound : ℕ) : Option (Except CalcError ℚ × TokenStream × VarTable) → Prop
  | none => False
  | some (_, s', _) => mu s' ≤ bound ∧ NoopFree s'

theorem Progress_mono {m m' : ℕ} {o : Option (Except CalcError ℚ × TokenStream × VarTable)}
    (h : Progress m o) (hm : m ≤ m') : Progress m' o := by
  match o with
  | none => exact h.elim
  | some (r, s', vt') => exact ⟨le_trans h.1 hm, h.2⟩

/-- The combined conclusion for the parser entry points: the call
returns, the measure never grows, and it strictly shrinks whenever the
injection stack is nonempty (the first `next` then pops a token). -/
def Progresses (s : TokenStream) (o : Option (Except CalcError ℚ × TokenStream × VarTable)) : Prop :=
  Progress (mu s) o ∧ (s.put_back ≠ [] → Progress (mu s - 1) o)


theorem mu_pushBack (ts : TokenStream) (t : Token) : mu (ts.pushBack t) = mu ts + 1 := by
  simp [mu, TokenStream.pushBack]
  omega

theorem NoopFree_pushBack (ts : TokenStream) (t : Token) (hnf : NoopFree ts)
    (ht : t ≠ Token.Noop) : NoopFree (ts.pushBack t) := by
  intro hm
  rcases List.mem_cons.mp hm with hm | hm
  · exact ht hm.symm
  · exact hnf hm

theorem parser_adequacy : ∀ fuel : ℕ,
    (∀ s vt, NoopFree s → 4 * mu s + 1 ≤ fuel → Progresses s (primaryF fuel s vt))
    ∧ (∀ v s vt, NoopFree s → 4 * mu s + 1 ≤ fuel → Progress (mu s) (termAuxF fuel v s vt))
    ∧ (∀ s vt, NoopFree s → 4 * mu s + 2 ≤ fuel → Progresses s (termF fuel s vt))
    ∧ (∀ v s vt, NoopFree s → 4 * mu s + 1 ≤ fuel → Progress (mu s) (expressionAuxF fuel v s vt))
    ∧ (∀ s vt, NoopFree s → 4 * mu s + 3 ≤ fuel → Progresses s (expressionF fuel s vt))
    ∧ (∀ s vt, NoopFree s → 4 * mu s + 4 ≤ fuel → Progresses s (statementF fuel s vt)) := by
  intro fuel
  induction fuel with
  | zero =>
      refine ⟨?_, ?_, ?_, ?_, ?_, ?_⟩ <;> (intros; omega)
  | succ fuel ih =>
      obtain ⟨ihP, ihTA, ihT, ihEA, ihE, ihS⟩ := ih
      refine ⟨?_, ?_, ?_, ?_, ?_, ?_⟩
      · -- primaryF
        intro s vt hnf hb
        rw [primaryF_succ]
        split
        · rename_i e ts1 heq
          obtain ⟨hle, _, herr, hnf1, _⟩ := next_facts s _ _ heq
          have hlt := herr e rfl
          exact ⟨⟨by omega, hnf1 hnf⟩, fun _ => ⟨by omega, hnf1 hnf⟩⟩
        · rename_i n ts1 heq
          obtain ⟨hle, hlt, _, hnf1, _⟩ := next_facts s _ _ heq
          have hlt1 := hlt _ rfl
          exact ⟨⟨by omega, hnf1 hnf⟩, fun _ => ⟨by omega, hnf1 hnf⟩⟩
        · rename_i ts1 heq
          obtain ⟨hle, hlt, _, hnf1, _⟩ := next_facts s _ _ heq
          have hlt1 := hlt _ rfl
          have hE := ihE ts1 vt (hnf1 hnf) (by omega)
          split
          · rename_i heq2
            rw [heq2] at hE
            exact hE.1.elim
          · rename_i e ts2 v2 heq2
            rw [heq2] at hE
            obtain ⟨⟨h1, h2⟩, _⟩ := hE
            exact ⟨⟨by omega, h2⟩, fun _ => ⟨by omega, h2⟩⟩
          · rename_i value ts2 v2 heq2
            rw [heq2] at hE
            obtain ⟨⟨h1, h2⟩, _⟩ := hE
            split
            · rename_i e ts3 heq3
              obtain ⟨hle3, _, _, hnf3, _⟩ := next_facts ts2 _ _ heq3
              exact ⟨⟨by omega, hnf3 h2⟩, fun _ => ⟨by omega, hnf3 h2⟩⟩
            · rename_i ts3 heq3
              obtain ⟨hle3, _, _, hnf3, _⟩ := next_facts ts2 _ _ heq3
              exact ⟨⟨by omega, hnf3 h2⟩, fun _ => ⟨by omega, hnf3 h2⟩⟩
            · rename_i o ts3 heq3
              obtain ⟨hle3, _, _, hnf3, _⟩ := next_facts ts2 _ _ heq3
              exact ⟨⟨by omega, hnf3 h2⟩, fun _ => ⟨by omega, hnf3 h2⟩⟩
        · rename_i ts1 heq
          obtain ⟨hle, hlt, _, hnf1, _⟩ := next_facts s _ _ heq
          have hlt1 := hlt _ rfl
          have hP := ihP ts1 vt (hnf1 hnf) (by omega)
          split
          · rename_i heq2
            rw [heq2] at hP
            exact hP.1.elim
          · rename_i e ts2 v2 heq2
            rw [heq2] at hP
            obtain ⟨⟨h1, h2⟩, _⟩ := hP
            exact ⟨⟨by omega, h2⟩, fun _ => ⟨by omega, h2⟩⟩
          · rename_i value ts2 v2 heq2
            rw [heq2] at hP
            obtain ⟨⟨h1, h2⟩, _⟩ := hP
            exact ⟨⟨by omega, h2⟩, fun _ => ⟨by omega, h2⟩⟩
        · rename_i ts1 heq
          obtain ⟨hle, hlt, _, hnf1, _⟩ := next_facts s _ _ heq
          have hlt1 := hlt _ rfl
          have hP := ihP ts1 vt (hnf1 hnf) (by omega)
          split
          · rename_i heq2
            rw [heq2] at hP
            exact hP.1.elim
          · rename_i e ts2 v2 heq2
            rw [heq2] at hP
            obtain ⟨⟨h1, h2⟩, _⟩ := hP
            exact ⟨⟨by omega, h2⟩, fun _ => ⟨by omega, h2⟩⟩
          · rename_i value ts2 v2 heq2
            rw [heq2] at hP
            obtain ⟨⟨h1, h2⟩, _⟩ := hP
            exact ⟨⟨by omega, h2⟩, fun _ => ⟨by omega, h2⟩⟩
        · rename_i name ts1 heq
          obtain ⟨hle, hlt, _, hnf1, _⟩ := next_facts s _ _ heq
          have hlt1 := hlt _ rfl
          split
          · exact ⟨⟨by omega, hnf1 hnf⟩, fun _ => ⟨by omega, hnf1 hnf⟩⟩
          · exact ⟨⟨by omega, hnf1 hnf⟩, fun _ => ⟨by omega, hnf1 hnf⟩⟩
        · rename_i o ts1 nn1 nn2 nn3 nn4 nn5 heq
          obtain ⟨hle, hlt, _, hnf1, _⟩ := next_facts s _ _ heq
          refine ⟨⟨by omega, hnf1 hnf⟩, ?_⟩
          intro hpb
          obtain ⟨t, rest, hpbe⟩ := List.exists_cons_of_ne_nil hpb
          have hcons := TokenStream.next_cons s t rest hpbe
          rw [heq] at hcons
          have ho : o = some t := by
            have := congrArg Prod.fst hcons
            simpa using this
          have hlt1 := hlt t (by rw [ho])
          exact ⟨by omega, hnf1 hnf⟩
      · -- termAuxF
        intro v s vt hnf hb
        rw [termAuxF_succ]
        split
        · rename_i e ts1 heq
          obtain ⟨hple, hperr, hpnf, _, _⟩ := peek_facts s _ _ heq
          exact ⟨le_trans (le_of_lt (hperr e rfl)) le_rfl, hpnf hnf⟩
        · rename_i ts1 heq
          obtain ⟨hple, _, hpnf, _, hppop⟩ := peek_facts s _ _ heq
          obtain ⟨hlen, hnext⟩ := hppop _ rfl
          obtain ⟨_, hnlt, _, hnnf, _⟩ := next_facts ts1 _ _ hnext
          have hmu2 : mu (s.next).2 < mu s := lt_of_lt_of_le (hnlt _ rfl) hple
          have hnf2 : NoopFree (s.next).2 := hnnf (hpnf hnf)
          rw [hnext]
          show Progress (mu s) (match primaryF fuel ((s.next).2) vt with
            | none => none
            | some (Except.error e, ts3, v3) => some (Except.error e, ts3, v3)
            | some (Except.ok rhs, ts3, v3) => termAuxF fuel (v * rhs) ts3 v3)
          have hP := ihP (s.next).2 vt hnf2 (by omega)
          split
          · rename_i heq2
            rw [heq2] at hP
            exact hP.1.elim
          · rename_i e ts3 v3 heq2
            rw [heq2] at hP
            obtain ⟨⟨h1, h2⟩, _⟩ := hP
            exact ⟨by omega, h2⟩
          · rename_i rhs ts3 v3 heq2
            rw [heq2] at hP
            obtain ⟨⟨h1, h2⟩, _⟩ := hP
            exact Progress_mono (ihTA (v * rhs) ts3 v3 h2 (by omega)) (by omega)
        · rename_i ts1 heq
          obtain ⟨hple, _, hpnf, _, hppop⟩ := peek_facts s _ _ heq
          obtain ⟨hlen, hnext⟩ := hppop _ rfl
          obtain ⟨_, hnlt, _, hnnf, _⟩ := next_facts ts1 _ _ hnext
          have hmu2 : mu (s.next).2 < mu s := lt_of_lt_of_le (hnlt _ rfl) hple
          have hnf2 : NoopFree (s.next).2 := hnnf (hpnf hnf)
          rw [hnext]
          show Progress (mu s) (match primaryF fuel ((s.next).2) vt with
            | none => none
            | some (Except.error e, ts3, v3) => some (Except.error e, ts3, v3)
            | some (Except.ok rhs, ts3, v3) => termAuxF fuel (v / rhs) ts3 v3)
          have hP := ihP (s.next).2 vt hnf2 (by omega)
          split
          · rename_i heq2
            rw [heq2] at hP
            exact hP.1.elim
          · rename_i e ts3 v3 heq2
            rw [heq2] at hP
            obtain ⟨⟨h1, h2⟩, _⟩ := hP
            exact ⟨by omega, h2⟩
          · rename_i rhs ts3 v3 heq2
            rw [heq2] at hP
            obtain ⟨⟨h1, h2⟩, _⟩ := hP
            exact Progress_mono (ihTA (v / rhs) ts3 v3 h2 (by omega)) (by omega)
        · rename_i ts1 heq
          obtain ⟨hple, _, hpnf, _, _⟩ := peek_facts s _ _ heq
          exact ⟨hple, hpnf hnf⟩
      · -- termF
        intro s vt hnf hb
        rw [termF_succ]
        have hP := ihP s vt hnf (by omega)
        split
        · rename_i heq
          rw [heq] at hP
          exact hP.1.elim
        · rename_i e ts1 v1 heq
          rw [heq] at hP
          exact hP
        · rename_i value ts1 v1 heq
          rw [heq] at hP
          obtain ⟨⟨h1, h2⟩, hstrict⟩ := hP
          have hTA := ihTA value ts1 v1 h2 (by omega)
          constructor
          · exact Progress_mono hTA h1
          · intro hpb
            obtain ⟨h1m, _⟩ := hstrict hpb
            exact Progress_mono hTA h1m
      · -- expressionAuxF
        intro v s vt hnf hb
        rw [expressionAuxF_succ]
        split
        · rename_i e ts1 heq
          obtain ⟨hple, hperr, hpnf, _, _⟩ := peek_facts s _ _ heq
          exact ⟨le_trans (le_of_lt (hperr e rfl)) le_rfl, hpnf hnf⟩
        · rename_i ts1 heq
          obtain ⟨hple, _, hpnf, _, hppop⟩ := peek_facts s _ _ heq
          obtain ⟨hlen, hnext⟩ := hppop _ rfl
          obtain ⟨_, hnlt, _, hnnf, _⟩ := next_facts ts1 _ _ hnext
          have hmu2 : mu (s.next).2 < mu s := lt_of_lt_of_le (hnlt _ rfl) hple
          have hnf2 : NoopFree (s.next).2 := hnnf (hpnf hnf)
          rw [hnext]
          show Progress (mu s) (match termF fuel ((s.next).2) vt with
            | none => none
            | some (Except.error e, ts3, v3) => some (Except.error e, ts3, v3)
            | some (Except.ok rhs, ts3, v3) => expressionAuxF fuel (v + rhs) ts3 v3)
          have hT := ihT (s.next).2 vt hnf2 (by omega)
          split
          · rename_i heq2
            rw [heq2] at hT
            exact hT.1.elim
          · rename_i e ts3 v3 heq2
            rw [heq2] at hT
            obtain ⟨⟨h1, h2⟩, _⟩ := hT
            exact ⟨by omega, h2⟩
          · rename_i rhs ts3 v3 heq2
            rw [heq2] at hT
            obtain ⟨⟨h1, h2⟩, _⟩ := hT
            exact Progress_mono (ihEA (v + rhs) ts3 v3 h2 (by omega)) (by omega)
        · rename_i ts1 heq
          obtain ⟨hple, _, hpnf, _, hppop⟩ := peek_facts s _ _ heq
          obtain ⟨hlen, hnext⟩ := hppop _ rfl
          obtain ⟨_, hnlt, _, hnnf, _⟩ := next_facts ts1 _ _ hnext
          have hmu2 : mu (s.next).2 < mu s := lt_of_lt_of_le (hnlt _ rfl) hple
          have hnf2 : NoopFree (s.next).2 := hnnf (hpnf hnf)
          rw [hnext]
          show Progress (mu s) (match termF fuel ((s.next).2) vt with
            | none => none
            | some (Except.error e, ts3, v3) => some (Except.error e, ts3, v3)
            | some (Except.ok rhs, ts3, v3) => expressionAuxF fuel (v - rhs) ts3 v3)
          have hT := ihT (s.next).2 vt hnf2 (by omega)
          split
          · rename_i heq2
            rw [heq2] at hT
            exact hT.1.elim
          · rename_i e ts3 v3 heq2
            rw [heq2] at hT
            obtain ⟨⟨h1, h2⟩, _⟩ := hT
            exact ⟨by omega, h2⟩
          · rename_i rhs ts3 v3 heq2
            rw [heq2] at hT
            obtain ⟨⟨h1, h2⟩, _⟩ := hT
            exact Progress_mono (ihEA (v - rhs) ts3 v3 h2 (by omega)) (by omega)
        · rename_i ts1 heq
          obtain ⟨hple, _, hpnf, _, _⟩ := peek_facts s _ _ heq
          exact ⟨hple, hpnf hnf⟩
      · -- expressionF
        intro s vt hnf hb
        rw [expressionF_succ]
        have hT := ihT s vt hnf (by omega)
        split
        · rename_i heq
          rw [heq] at hT
          exact hT.1.elim
        · rename_i e ts1 v1 heq
          rw [heq] at hT
          exact hT
        · rename_i value ts1 v1 heq
          rw [heq] at hT
          obtain ⟨⟨h1, h2⟩, hstrict⟩ := hT
          have hEA := ihEA value ts1 v1 h2 (by omega)
          constructor
          · exact Progress_mono hEA h1
          · intro hpb
            obtain ⟨h1m, _⟩ := hstrict hpb
            exact Progress_mono hEA h1m
      · -- statementF
        intro s vt hnf hb
        rw [statementF_succ]
        split
        · rename_i e ts0 heq
          obtain ⟨hple, hperr, hpnf, _, _⟩ := peek_facts s _ _ heq
          have hlt := hperr e rfl
          exact ⟨⟨by omega, hpnf hnf⟩, fun _ => ⟨by omega, hpnf hnf⟩⟩
        · rename_i ts0 heq
          obtain ⟨hple, _, hpnf, _, hppop⟩ := peek_facts s _ _ heq
          obtain ⟨hlen, hnext⟩ := hppop _ rfl
          obtain ⟨_, hnlt, _, hnnf, _⟩ := next_facts ts0 _ _ hnext
          have hmuM : mu (s.next).2 < mu s := lt_of_lt_of_le (hnlt _ rfl) hple
          have hnfM : NoopFree (s.next).2 := hnnf (hpnf hnf)
          rw [hnext]
          show Progresses s
            (match ((s.next).2).next with
              | (Except.error e, ts2) => some (Except.error e, ts2, vt)
              | (Except.ok (some (Token.Name label)), ts2) =>
                  if vt.contains label = true then
                    some (Except.error (CalcError.alreadyDefined label), ts2, vt)
                  else
                    match ts2.next with
                    | (Except.error e, ts3) => some (Except.error e, ts3, vt)
                    | (Except.ok t3, ts3) =>
                        if t3 = none ∨ t3 = some (Token.Symbol '=') then
                          match expressionF fuel ts3 vt with
                          | none => none
                          | some (Except.error e, ts4, v4) => some (Except.error e, ts4, v4)
                          | some (Except.ok value, ts4, v4) =>
                              some (Except.ok value, ts4, v4.store label value)
                        else
                          some (Except.error (CalcError.expectedAssign label), ts3, vt)
              | (Except.ok _, ts2) => some (Except.error CalcError.expectedNameAfterLet, ts2, vt))
          split
          · rename_i e ts2 heq2
            obtain ⟨hle2, _, _, hnf2, _⟩ := next_facts (s.next).2 _ _ heq2
            exact ⟨⟨by omega, hnf2 hnfM⟩, fun _ => ⟨by omega, hnf2 hnfM⟩⟩
          · rename_i label ts2 heq2
            obtain ⟨hle2, _, _, hnf2, _⟩ := next_facts (s.next).2 _ _ heq2
            split
            · exact ⟨⟨by omega, hnf2 hnfM⟩, fun _ => ⟨by omega, hnf2 hnfM⟩⟩
            · split
              · rename_i e ts3 heq3
                obtain ⟨hle3, _, _, hnf3, _⟩ := next_facts ts2 _ _ heq3
                exact ⟨⟨by omega, hnf3 (hnf2 hnfM)⟩, fun _ => ⟨by omega, hnf3 (hnf2 hnfM)⟩⟩
              · rename_i t3 ts3 heq3
                obtain ⟨hle3, _, _, hnf3, _⟩ := next_facts ts2 _ _ heq3
                split
                · have hE := ihE ts3 vt (hnf3 (hnf2 hnfM)) (by omega)
                  split
                  · rename_i heq4
                    rw [heq4] at hE
                    exact hE.1.elim
                  · rename_i e ts4 v4 heq4
                    rw [heq4] at hE
                    obtain ⟨⟨h1, h2⟩, _⟩ := hE
                    exact ⟨⟨by omega, h2⟩, fun _ => ⟨by omega, h2⟩⟩
                  · rename_i value ts4 v4 heq4
                    rw [heq4] at hE
                    obtain ⟨⟨h1, h2⟩, _⟩ := hE
                    exact ⟨⟨by omega, h2⟩, fun _ => ⟨by omega, h2⟩⟩
                · exact ⟨⟨by omega, hnf3 (hnf2 hnfM)⟩, fun _ => ⟨by omega, hnf3 (hnf2 hnfM)⟩⟩
          · rename_i o ts2 nn1 heq2
            obtain ⟨hle2, _, _, hnf2, _⟩ := next_facts (s.next).2 _ _ heq2
            exact ⟨⟨by omega, hnf2 hnfM⟩, fun _ => ⟨by omega, hnf2 hnfM⟩⟩
        · rename_i label ts0 heq
          obtain ⟨hple, _, hpnf, _, hppop⟩ := peek_facts s _ _ heq
          obtain ⟨hlen, hnext⟩ := hppop _ rfl
          obtain ⟨_, hnlt, _, hnnf, _⟩ := next_facts ts0 _ _ hnext
          have hmuM : mu (s.next).2 < mu s := lt_of_lt_of_le (hnlt _ rfl) hple
          have hnfM : NoopFree (s.next).2 := hnnf (hpnf hnf)
          rw [hnext]
          show Progresses s
            (match ((s.next).2).peek with
              | (Except.error e, ts2) => some (Except.error e, ts2, vt)
              | (Except.ok (some (Token.Symbol '=')), ts2) =>
                  if vt.contains label = true then
                    match expressionF fuel ((ts2.next).2) vt with
                    | none => none
                    | some (Except.error e, ts4, v4) => some (Except.error e, ts4, v4)
                    | some (Except.ok value, ts4, v4) =>
                        some (Except.ok value, ts4, v4.store label value)
                  else
                    some (Except.error (CalcError.notDefinedUseLet label), (ts2.next).2, vt)
              | (Except.ok _, ts2) =>
                  match vt.retrieve label with
                  | some val => expressionF fuel (ts2.pushBack (Token.Number val)) vt
                  | none => some (Except.error (CalcError.undefinedVariable label), ts2, vt))
          split
          · rename_i e ts2 heq2
            obtain ⟨hple2, _, hpnf2, _, _⟩ := peek_facts (s.next).2 _ _ heq2
            exact ⟨⟨by omega, hpnf2 hnfM⟩, fun _ => ⟨by omega, hpnf2 hnfM⟩⟩
          · rename_i ts2 heq2
            obtain ⟨hple2, _, hpnf2, _, _⟩ := peek_facts (s.next).2 _ _ heq2
            obtain ⟨hle3, _, _, hnf3, _⟩ := next_facts ts2 (ts2.next).1 (ts2.next).2 rfl
            split
            · have hE := ihE ((ts2.next).2) vt (hnf3 (hpnf2 hnfM)) (by omega)
              split
              · rename_i heq4
                rw [heq4] at hE
                exact hE.1.elim
              · rename_i e ts4 v4 heq4
                rw [heq4] at hE
                obtain ⟨⟨h1, h2⟩, _⟩ := hE
                exact ⟨⟨by omega, h2⟩, fun _ => ⟨by omega, h2⟩⟩
              · rename_i value ts4 v4 heq4
                rw [heq4] at hE
                obtain ⟨⟨h1, h2⟩, _⟩ := hE
                exact ⟨⟨by omega, h2⟩, fun _ => ⟨by omega, h2⟩⟩
            · exact ⟨⟨by omega, hnf3 (hpnf2 hnfM)⟩, fun _ => ⟨by omega, hnf3 (hpnf2 hnfM)⟩⟩
          · rename_i o ts2 nn1 heq2
            obtain ⟨hple2, _, hpnf2, _, _⟩ := peek_facts (s.next).2 _ _ heq2
            split
            · rename_i val heq3
              have hnfP := NoopFree_pushBack ts2 (Token.Number val) (hpnf2 hnfM) (by simp)
              have hmuP := mu_pushBack ts2 (Token.Number val)
              have hE := ihE (ts2.pushBack (Token.Number val)) vt hnfP (by omega)
              have hpbP : (ts2.pushBack (Token.Number val)).put_back ≠ [] := by
                simp [TokenStream.pushBack]
              refine ⟨Progress_mono hE.1 (by omega), ?_⟩
              intro _
              exact Progress_mono (hE.2 hpbP) (by omega)
            · exact ⟨⟨by omega, hpnf2 hnfM⟩, fun _ => ⟨by omega, hpnf2 hnfM⟩⟩
        · rename_i o ts0 nn1 nn2 heq
          obtain ⟨hple, _, hpnf, _, hppop⟩ := peek_facts s _ _ heq
          have hE := ihE ts0 vt (hpnf hnf) (by omega)
          refine ⟨Progress_mono hE.1 hple, ?_⟩
          intro hpb
          rcases o with _ | t
          · exfalso
            obtain ⟨t, rest, hpbe⟩ := List.exists_cons_of_ne_nil hpb
            have hpc := TokenStream.peek_cons s t rest hpbe
            rw [heq] at hpc
            simp at hpc
          · obtain ⟨hlen, _⟩ := hppop t rfl
            have hpb0 : ts0.put_back ≠ [] := by
              intro hnil
              rw [hnil] at hlen
              simp at hlen
            exact Progress_mono (hE.2 hpb0) (by omega)

theorem discard_mu_le (ts : TokenStream) : mu ts.discard_invalid ≤ mu ts := by
  simp [mu, TokenStream.discard_invalid]
  omega

theorem discard_NoopFree (ts : TokenStream) (h : NoopFree ts) :
    NoopFree ts.discard_invalid := by
  simpa [NoopFree, TokenStream.discard_invalid] using h

theorem evalLoop_adequacy : ∀ (fuel : ℕ) (ts : TokenStream) (val : Option ℚ)
    (vt : VarTable) (res : List EvaluationResult), NoopFree ts → 4 * mu ts + 6 ≤ fuel →
    ∃ out, evalLoopF fuel ts val vt res = some out := by
  intro fuel
  induction fuel with
  | zero =>
      intro ts val vt res hnf hb
      omega
  | succ fuel ih =>
      intro ts val vt res hnf hb
      rw [evalLoopF_succ]
      split
      · -- tokenization error: record and resynchronize
        rename_i e ts1 heq
        obtain ⟨_, hperr, hpnf, _, _⟩ := peek_facts ts _ _ heq
        have hlt := hperr e rfl
        exact ih _ _ _ _ (discard_NoopFree ts1 (hpnf hnf))
          (by have := discard_mu_le ts1; omega)
      · -- a Noop was peeked: impossible on a Noop-free stream
        rename_i ts1 heq
        obtain ⟨_, _, _, hnoop, _⟩ := peek_facts ts _ _ heq
        exact absurd rfl (hnoop Token.Noop rfl hnf)
      · -- EndStatement: flush and consume
        rename_i ts1 heq
        obtain ⟨hple, _, hpnf, _, hppop⟩ := peek_facts ts _ _ heq
        obtain ⟨hlen, hnext⟩ := hppop _ rfl
        obtain ⟨_, hnlt, _, hnnf, _⟩ := next_facts ts1 _ _ hnext
        have hmu2 : mu (ts.next).2 < mu ts := lt_of_lt_of_le (hnlt _ rfl) hple
        have hnf2 : NoopFree (ts.next).2 := hnnf (hpnf hnf)
        rw [hnext]
        rcases val with _ | v
        · exact ih ((ts.next).2) _ _ _ hnf2 (by omega)
        · exact ih ((ts.next).2) _ _ _ hnf2 (by omega)
      · -- Quit: record and consume
        rename_i ts1 heq
        obtain ⟨hple, _, hpnf, _, hppop⟩ := peek_facts ts _ _ heq
        obtain ⟨hlen, hnext⟩ := hppop _ rfl
        obtain ⟨_, hnlt, _, hnnf, _⟩ := next_facts ts1 _ _ hnext
        have hmu2 : mu (ts.next).2 < mu ts := lt_of_lt_of_le (hnlt _ rfl) hple
        have hnf2 : NoopFree (ts.next).2 := hnnf (hpnf hnf)
        rw [hnext]
        exact ih ((ts.next).2) _ _ _ hnf2 (by omega)
      · -- an ordinary token: run statement
        rename_i t ts1 nn1 nn2 nn3 heq
        obtain ⟨hple, _, hpnf, _, hppop⟩ := peek_facts ts _ _ heq
        obtain ⟨hlen, hnext⟩ := hppop _ rfl
        have hpb1 : ts1.put_back ≠ [] := by
          intro hnil
          rw [hnil] at hlen
          simp at hlen
        have hge1 : 1 ≤ mu ts1 := by
          have hl := hlen
          simp [mu]
          omega
        have hS := (parser_adequacy fuel).2.2.2.2.2 ts1 vt (hpnf hnf) (by omega)
        have hSs := hS.2 hpb1
        split
        · rename_i heq2
          rw [heq2] at hSs
          exact hSs.elim
        · rename_i value ts2 vt2 heq2
          rw [heq2] at hSs
          obtain ⟨h1, h2⟩ := hSs
          exact ih _ _ _ _ h2 (by omega)
        · rename_i e ts2 vt2 heq2
          rw [heq2] at hSs
          obtain ⟨h1, h2⟩ := hSs
          exact ih _ _ _ _ (discard_NoopFree ts2 h2)
            (by have := discard_mu_le ts2; omega)
      · -- end of stream: flush and stop
        rcases val with _ | v
        · exact ⟨_, rfl⟩
        · exact ⟨_, rfl⟩

/-- Claim C10: `evaluate` terminates on every input line: for every
finite input and every variable table the driver loop reaches its
end-of-stream (or flush) case within the `6 * length + 6` fuel bound —
each iteration pops an injected token or advances the cursor, and the
error paths resynchronize after having consumed at least one
character — so the fuel-indexed model never runs out. -/
theorem C10_evaluate_terminates (input : List Char) (vt : VarTable) :
    ∃ out, evaluate input vt = some out := by
  unfold evaluate
  apply evalLoop_adequacy
  · intro hm
    simp [TokenStream.new] at hm
  · simp [mu, TokenStream.new]
    omega

/-- Witness for C10 on the line `1 + q`. -/
theorem C10_evaluate_terminates_witness :
    ∃ out, evaluate ['1', ' ', '+', ' ', 'q'] ⟨[]⟩ = some out :=
  C10_evaluate_terminates ['1', ' ', '+', ' ', 'q'] ⟨[]⟩

end RustyCalc
